import Mathlib

/-!
Board descriptors of the UP2 6000 and UP Xtreme i11 (mraa).

A shallow embedding of `src/x86/up2_6000.c` and `src/x86/up_xtreme_i11.c`:
the pin setter, the pin index resolver and the two board builders, followed
by theorems about them.

Conventions of the embedding.

* C `int` values are `Int`; no arithmetic of the two files can overflow
  (the only arithmetic is `community base + line` on small literals and
  counters that stay below ten).
* The members of `mraa_pin_t` are `unsigned int`: they are `Nat`, and an
  `int` stored in one of them is reduced modulo `2^32`.  The other integer
  members the two files write (counts, defaults, bus tables) receive
  non-negative values only, apart from `bus_id` of an I2C entry, which is an
  `int` and holds the number discovery returned; they are `Int`.
* `calloc`, `malloc` and `free` act on a record of the blocks handed out and
  the blocks released, which the builders return with their result.
* A `char*` argument is a `List Char`: the bytes found at the pointer.  A
  read reaches the terminating NUL at the first NUL of the list or at its
  end, whichever comes first.
* `char name[MRAA_PIN_NAME_SIZE]` is the list of the bytes of the array.
* `MRAA_PIN_NAME_SIZE` and `MRAA_UP2_6000_PINCOUNT` come from headers that
  are not part of the sources at hand; they are arguments of the
  definitions that use them.
* A function that reads or writes `board->pins[k]` outside the allocated
  array has no defined behaviour in C; the embedding returns `none` there.
* `syslog` calls are collected, in order, in a list of log entries.
-/

namespace Mraa

/-! ## libc -/

/-- The NUL byte that ends a C string. -/
def NUL : Char := Char.ofNat 0

/-- The C string found at a pointer: the bytes before the first NUL. -/
def c_str (s : List Char) : List Char :=
  s.takeWhile (fun c => c != NUL)

/-- The byte read at a pointer; past the end of the list is the terminator. -/
def byte_at (s : List Char) : Char := s.headD NUL

/-- The libc `strncmp(s1, s2, n)`: compares at most `n` bytes and stops after a NUL.
The result is the difference of the first differing bytes, `0` if none. -/
def strncmp : List Char → List Char → Nat → Int
  | _, _, 0 => 0
  | s1, s2, n + 1 =>
    if byte_at s1 ≠ byte_at s2 then ((byte_at s1).toNat : Int) - ((byte_at s2).toNat : Int)
    else if byte_at s1 = NUL then 0
    else strncmp s1.tail s2.tail n

/-- The libc `strncpy(dest, src, n)` for a destination array of exactly `n` bytes:
the `n` bytes written, the bytes of `src` up to its NUL and then NUL
padding.  No terminator is written when `src` has `n` or more bytes. -/
def strncpy : List Char → Nat → List Char
  | _, 0 => []
  | src, n + 1 =>
    if byte_at src = NUL then NUL :: strncpy [] n
    else byte_at src :: strncpy src.tail n

/-! ## Types of `mraa_internal_types.h` used by the two files -/

/-- The result codes; the two files name only the first two. -/
inductive mraa_result_t where
  | MRAA_SUCCESS
  | MRAA_ERROR_INVALID_RESOURCE
  | MRAA_ERROR_OTHER (code : Int)
  deriving DecidableEq, Repr

/-- Capability bit-fields, in the order of the initializers
`(mraa_pincapabilities_t) {valid, gpio, pwm, fast_gpio, spi, i2c, aio, uart}`. -/
structure mraa_pincapabilities_t where
  valid : Bool
  gpio : Bool
  pwm : Bool
  fast_gpio : Bool
  spi : Bool
  i2c : Bool
  aio : Bool
  uart : Bool
  deriving DecidableEq, Repr

/-- The fields of `mraa_pin_t` that the two files write.  The type is declared
in `mraa_internal_types.h`, which is not among the sources; its fields are
`unsigned int`, so a field holds a natural number, and a C `int` stored in
it is converted by `unsigned_int`. -/
structure mraa_pin_t where
  pinmap : Nat
  parent_id : Nat
  mux_total : Nat
  gpio_chip : Nat
  gpio_line : Nat
  deriving DecidableEq, Repr

/-- The conversion of a C `int` to `unsigned int` (32 bits): the value modulo
`2^32`, so a non-negative `int` is kept and -1 becomes 4294967295. -/
def unsigned_int (x : Int) : Nat := (x % 4294967296).toNat

/-- One pin descriptor. -/
structure mraa_pininfo_t where
  name : List Char
  capabilities : mraa_pincapabilities_t
  gpio : mraa_pin_t
  pwm : mraa_pin_t
  aio : mraa_pin_t
  i2c : mraa_pin_t
  spi : mraa_pin_t
  uart : mraa_pin_t
  deriving DecidableEq, Repr

/-- One entry of `i2c_bus`. -/
structure mraa_i2c_bus_t where
  bus_id : Int
  sda : Int
  scl : Int
  deriving DecidableEq, Repr

/-- One entry of `spi_bus`. -/
structure mraa_spi_bus_t where
  bus_id : Int
  slave_s : Int
  cs : Int
  mosi : Int
  miso : Int
  sclk : Int
  deriving DecidableEq, Repr

/-- One entry of `uart_dev`; `device_path` is a `char*`, `none` when NULL. -/
structure mraa_uart_dev_t where
  rx : Int
  tx : Int
  cts : Int
  rts : Int
  device_path : Option String
  deriving DecidableEq, Repr

/-- One entry of `aio_dev`. -/
structure mraa_aio_dev_t where
  pin : Int
  deriving DecidableEq, Repr

/-- The hook table `mraa_adv_func_t`; the files set one hook at most. -/
structure mraa_adv_func_t where
  aio_get_valid_fp : Option String
  deriving DecidableEq, Repr

/-- The board record.  `pins` is the array behind the `pins` pointer (empty
for a NULL pointer); the fixed arrays `i2c_bus`, `spi_bus`, `uart_dev` and
`aio_dev` are maps from the position to the entry. -/
structure mraa_board_t where
  phy_pin_count : Int
  gpio_count : Int
  aio_count : Int
  i2c_bus_count : Int
  i2c_bus : Nat → mraa_i2c_bus_t
  def_i2c_bus : Int
  spi_bus_count : Int
  spi_bus : Nat → mraa_spi_bus_t
  def_spi_bus : Int
  adc_raw : Int
  adc_supported : Int
  def_uart_dev : Int
  uart_dev_count : Int
  uart_dev : Nat → mraa_uart_dev_t
  pwm_dev_count : Int
  def_pwm_dev : Int
  pwm_default_period : Int
  pwm_max_period : Int
  pwm_min_period : Int
  platform_name : Option String
  platform_version : Option String
  pins : List mraa_pininfo_t
  adv_func : Option mraa_adv_func_t
  chardev_capable : Int
  aio_dev : Nat → mraa_aio_dev_t
  aio_non_seq : Int

/-- Priorities passed to `syslog`. -/
inductive syslog_priority where
  | LOG_CRIT
  | LOG_ERR
  | LOG_WARNING
  | LOG_NOTICE
  deriving DecidableEq, Repr

/-- One `syslog` call: priority and formatted message. -/
structure syslog_entry where
  priority : syslog_priority
  message : String
  deriving DecidableEq, Repr

open mraa_result_t syslog_priority

/-! ## The pin index resolver -/

/-- What a call of the resolver leaves behind: the returned code, the value
of `*pin_index` after the call, and the messages sent to `syslog`. -/
structure get_pin_index_ret where
  result : mraa_result_t
  pin_index : Int
  log : List syslog_entry
  deriving DecidableEq, Repr

/-- The `for` loop of `mraa_up2_6000_get_pin_index` over `board->pins`, with
`i` the loop variable and the argument before it the number of iterations
left (`phy_pin_count - i`).  `some (some i)` is the `return` inside the loop,
`some none` the normal end of the loop, `none` a read outside `pins`. -/
def mraa_up2_6000_get_pin_index_loop (MRAA_PIN_NAME_SIZE : Nat) (pins : List mraa_pininfo_t)
    (name : List Char) : Nat → Nat → Option (Option Nat)
  | 0, _ => some none
  | left + 1, i =>
    match pins[i]? with
    | none => none
    | some pin =>
      if strncmp name pin.name MRAA_PIN_NAME_SIZE = 0 then some (some i)
      else mraa_up2_6000_get_pin_index_loop MRAA_PIN_NAME_SIZE pins name left (i + 1)

/-- The function `mraa_up2_6000_get_pin_index(board, name, pin_index)`; the last argument
is the value of `*pin_index` before the call. -/
def mraa_up2_6000_get_pin_index (MRAA_PIN_NAME_SIZE : Nat) (board : mraa_board_t)
    (name : List Char) (pin_index : Int) : Option get_pin_index_ret :=
  match mraa_up2_6000_get_pin_index_loop MRAA_PIN_NAME_SIZE board.pins name
      board.phy_pin_count.toNat 0 with
  | none => none
  | some (some i) => some { result := MRAA_SUCCESS, pin_index := (i : Int), log := [] }
  | some none =>
    some { result := MRAA_ERROR_INVALID_RESOURCE, pin_index := pin_index,
           log := [syslog_entry.mk LOG_CRIT ("up2_6000: Failed to find pin name " ++ String.mk (c_str name))] }

/-- The `for` loop of `mraa_upxtreme_get_pin_index`; see
`mraa_up2_6000_get_pin_index_loop` for the reading of the result. -/
def mraa_upxtreme_get_pin_index_loop (MRAA_PIN_NAME_SIZE : Nat) (pins : List mraa_pininfo_t)
    (name : List Char) : Nat → Nat → Option (Option Nat)
  | 0, _ => some none
  | left + 1, i =>
    match pins[i]? with
    | none => none
    | some pin =>
      if strncmp name pin.name MRAA_PIN_NAME_SIZE = 0 then some (some i)
      else mraa_upxtreme_get_pin_index_loop MRAA_PIN_NAME_SIZE pins name left (i + 1)

/-- The function `mraa_upxtreme_get_pin_index(board, name, pin_index)`; the last argument
is the value of `*pin_index` before the call. -/
def mraa_upxtreme_get_pin_index (MRAA_PIN_NAME_SIZE : Nat) (board : mraa_board_t)
    (name : List Char) (pin_index : Int) : Option get_pin_index_ret :=
  match mraa_upxtreme_get_pin_index_loop MRAA_PIN_NAME_SIZE board.pins name
      board.phy_pin_count.toNat 0 with
  | none => none
  | some (some i) => some { result := MRAA_SUCCESS, pin_index := (i : Int), log := [] }
  | some none =>
    some { result := MRAA_ERROR_INVALID_RESOURCE, pin_index := pin_index,
           log := [syslog_entry.mk LOG_CRIT ("UP Xtreme: Failed to find pin name " ++ String.mk (c_str name))] }

/-! ## The pin setter -/

/-- What a call of the pin setter leaves behind: the returned code and the
board after the call. -/
structure set_pininfo_ret where
  result : mraa_result_t
  board : mraa_board_t

/-- The writes through `pin_info` in the body of `mraa_up2_6000_set_pininfo`
(the name, the capabilities, then one block per capability flag). -/
def mraa_up2_6000_set_pininfo_writes (MRAA_PIN_NAME_SIZE : Nat) (pin_info : mraa_pininfo_t)
    (name : List Char) (caps : mraa_pincapabilities_t) (sysfs_pin chip line : Int) :
    mraa_pininfo_t :=
  let pin_info := { pin_info with name := strncpy name MRAA_PIN_NAME_SIZE }
  let pin_info := { pin_info with capabilities := caps }
  let pin_info :=
    if caps.gpio then
      { pin_info with gpio := { pin_info.gpio with
          pinmap := unsigned_int sysfs_pin, mux_total := 0, gpio_chip := unsigned_int chip, gpio_line := unsigned_int line } }
    else pin_info
  let pin_info :=
    if caps.pwm then
      { pin_info with pwm := { pin_info.pwm with parent_id := 0, pinmap := 0, mux_total := 0 } }
    else pin_info
  let pin_info :=
    if caps.aio then { pin_info with aio := { pin_info.aio with mux_total := 0, pinmap := 0 } }
    else pin_info
  let pin_info :=
    if caps.i2c then { pin_info with i2c := { pin_info.i2c with pinmap := 1, mux_total := 0 } }
    else pin_info
  let pin_info :=
    if caps.spi then { pin_info with spi := { pin_info.spi with mux_total := 0 } }
    else pin_info
  let pin_info :=
    if caps.uart then { pin_info with uart := { pin_info.uart with mux_total := 0 } }
    else pin_info
  pin_info

/-- The function `mraa_up2_6000_set_pininfo(board, mraa_index, name, caps, sysfs_pin,
chip, line)`.  The guard is the one of the source, `mraa_index <
board->phy_pin_count`; `&board->pins[mraa_index]` below the array or past
its end gives `none`. -/
def mraa_up2_6000_set_pininfo (MRAA_PIN_NAME_SIZE : Nat) (board : mraa_board_t)
    (mraa_index : Int) (name : List Char) (caps : mraa_pincapabilities_t)
    (sysfs_pin chip line : Int) : Option set_pininfo_ret :=
  if mraa_index < board.phy_pin_count then
    if mraa_index < 0 then none
    else
      match board.pins[mraa_index.toNat]? with
      | none => none
      | some pin_info =>
        let pin_info := mraa_up2_6000_set_pininfo_writes MRAA_PIN_NAME_SIZE pin_info name caps
          sysfs_pin chip line
        some { result := MRAA_SUCCESS,
               board := { board with pins := board.pins.set mraa_index.toNat pin_info } }
  else some { result := MRAA_ERROR_INVALID_RESOURCE, board := board }

/-- The writes through `pin_info` in the body of `mraa_upxtreme_set_pininfo`
(the name, the capabilities, then one block per capability flag). -/
def mraa_upxtreme_set_pininfo_writes (MRAA_PIN_NAME_SIZE : Nat) (pin_info : mraa_pininfo_t)
    (name : List Char) (caps : mraa_pincapabilities_t) (sysfs_pin chip line : Int) :
    mraa_pininfo_t :=
  let pin_info := { pin_info with name := strncpy name MRAA_PIN_NAME_SIZE }
  let pin_info := { pin_info with capabilities := caps }
  let pin_info :=
    if caps.gpio then
      { pin_info with gpio := { pin_info.gpio with
          pinmap := unsigned_int sysfs_pin, mux_total := 0, gpio_chip := unsigned_int chip, gpio_line := unsigned_int line } }
    else pin_info
  let pin_info :=
    if caps.pwm then
      { pin_info with pwm := { pin_info.pwm with parent_id := 0, pinmap := 0, mux_total := 0 } }
    else pin_info
  let pin_info :=
    if caps.aio then { pin_info with aio := { pin_info.aio with mux_total := 0, pinmap := 0 } }
    else pin_info
  let pin_info :=
    if caps.i2c then { pin_info with i2c := { pin_info.i2c with pinmap := 1, mux_total := 0 } }
    else pin_info
  let pin_info :=
    if caps.spi then { pin_info with spi := { pin_info.spi with mux_total := 0 } }
    else pin_info
  let pin_info :=
    if caps.uart then { pin_info with uart := { pin_info.uart with mux_total := 0 } }
    else pin_info
  pin_info

/-- The function `mraa_upxtreme_set_pininfo(board, mraa_index, name, caps, sysfs_pin,
chip, line)`; same conventions as `mraa_up2_6000_set_pininfo`. -/
def mraa_upxtreme_set_pininfo (MRAA_PIN_NAME_SIZE : Nat) (board : mraa_board_t)
    (mraa_index : Int) (name : List Char) (caps : mraa_pincapabilities_t)
    (sysfs_pin chip line : Int) : Option set_pininfo_ret :=
  if mraa_index < board.phy_pin_count then
    if mraa_index < 0 then none
    else
      match board.pins[mraa_index.toNat]? with
      | none => none
      | some pin_info =>
        let pin_info := mraa_upxtreme_set_pininfo_writes MRAA_PIN_NAME_SIZE pin_info name caps
          sysfs_pin chip line
        some { result := MRAA_SUCCESS,
               board := { board with pins := board.pins.set mraa_index.toNat pin_info } }
  else some { result := MRAA_ERROR_INVALID_RESOURCE, board := board }

/-! ## What the builders take from outside the two files -/

/-- The blocks a builder obtains from `calloc` and `malloc`. -/
inductive heap_block where
  | board
  | pins
  | adv_func
  deriving DecidableEq, Repr

/-- The outside world of a builder run: whether each allocation succeeds,
the bytes found in the fresh `malloc` block of the pin array (pin by pin),
and the answers of `mraa_find_i2c_bus_pci`, `mraa_find_uart_bus_pci` and
`access`, none of which is defined in the two files.
`mraa_find_uart_bus_pci path old` gets the value of `*dev_name` before the
call and answers with the code and the value after it. -/
structure platform_env where
  calloc_board : Bool
  malloc_pins : Bool
  calloc_adv_func : Bool
  malloc_bytes : Nat → mraa_pininfo_t
  mraa_find_i2c_bus_pci : String → String → String → Int
  mraa_find_uart_bus_pci : String → Option String → mraa_result_t × Option String
  access : String → Int

/-- What a builder leaves behind: the returned pointer (`none` for NULL),
the `syslog` messages, and the heap traffic of the run: the blocks obtained
and the blocks released, in order. -/
structure board_ret where
  ret : Option mraa_board_t
  log : List syslog_entry
  allocated : List heap_block
  freed : List heap_block

/-- The heap traffic of a builder run so far: the blocks `calloc` and `malloc`
have handed out and the blocks passed to `free`, each in the order of the
calls. -/
structure heap_state where
  allocated : List heap_block
  freed : List heap_block

/-- The heap before the first call of a builder. -/
def heap_empty : heap_state := { allocated := [], freed := [] }

/-- A call of `calloc` or `malloc` for the block `block`: when it succeeds
the block is handed out, when it fails (NULL) the heap is as before. -/
def heap_alloc (h : heap_state) (succeeds : Bool) (block : heap_block) : heap_state :=
  if succeeds then { h with allocated := h.allocated ++ [block] } else h

/-- The call `free(p)`, where `p` points to the block `block`. -/
def heap_free (h : heap_state) (block : heap_block) : heap_state :=
  { h with freed := h.freed ++ [block] }

/-- The board under construction together with the messages logged so far. -/
structure build_state where
  b : mraa_board_t
  log : List syslog_entry

/-- The block returned by `calloc(1, sizeof (mraa_board_t))`: all zero. -/
def calloc_mraa_board_t : mraa_board_t :=
  { phy_pin_count := 0, gpio_count := 0, aio_count := 0, i2c_bus_count := 0,
    i2c_bus := fun _ => { bus_id := 0, sda := 0, scl := 0 },
    def_i2c_bus := 0, spi_bus_count := 0,
    spi_bus := fun _ => { bus_id := 0, slave_s := 0, cs := 0, mosi := 0, miso := 0, sclk := 0 },
    def_spi_bus := 0, adc_raw := 0, adc_supported := 0, def_uart_dev := 0,
    uart_dev_count := 0,
    uart_dev := fun _ => { rx := 0, tx := 0, cts := 0, rts := 0, device_path := none },
    pwm_dev_count := 0, def_pwm_dev := 0, pwm_default_period := 0, pwm_max_period := 0,
    pwm_min_period := 0, platform_name := none, platform_version := none, pins := [],
    adv_func := none, chardev_capable := 0, aio_dev := fun _ => { pin := 0 },
    aio_non_seq := 0 }

/-- The block behind `malloc(sizeof(mraa_pininfo_t) * count)`: `count` pin
descriptors with whatever bytes the block held. -/
def malloc_pins_block (env : platform_env) (count : Int) : List mraa_pininfo_t :=
  (List.range count.toNat).map env.malloc_bytes

/-- The initializer `(mraa_pincapabilities_t) {valid, gpio, pwm, fast_gpio,
spi, i2c, aio, uart}` of one-bit fields. -/
def caps_of (valid gpio pwm fast_gpio spi i2c aio uart : Nat) : mraa_pincapabilities_t :=
  { valid := valid % 2 != 0, gpio := gpio % 2 != 0, pwm := pwm % 2 != 0,
    fast_gpio := fast_gpio % 2 != 0, spi := spi % 2 != 0, i2c := i2c % 2 != 0,
    aio := aio % 2 != 0, uart := uart % 2 != 0 }

/-- The arguments of one `set_pininfo` call of a builder, after the board. -/
structure pininfo_call where
  mraa_index : Int
  name : String
  caps : mraa_pincapabilities_t
  sysfs_pin : Int
  chip : Int
  line : Int

/-- The statement `b->pins[k].field = ...`: a direct write to pin `k`; `none` outside the
array. -/
def write_pin (b : mraa_board_t) (k : Nat) (f : mraa_pininfo_t → mraa_pininfo_t) :
    Option mraa_board_t :=
  match b.pins[k]? with
  | none => none
  | some pin => some { b with pins := b.pins.set k (f pin) }

/-- The statement `b->i2c_bus[i].field = ...`. -/
def write_i2c_bus (b : mraa_board_t) (i : Nat) (f : mraa_i2c_bus_t → mraa_i2c_bus_t) :
    mraa_board_t :=
  { b with i2c_bus := Function.update b.i2c_bus i (f (b.i2c_bus i)) }

/-- The statement `b->spi_bus[i].field = ...`. -/
def write_spi_bus (b : mraa_board_t) (i : Nat) (f : mraa_spi_bus_t → mraa_spi_bus_t) :
    mraa_board_t :=
  { b with spi_bus := Function.update b.spi_bus i (f (b.spi_bus i)) }

/-- The statement `b->uart_dev[i].field = ...`. -/
def write_uart_dev (b : mraa_board_t) (i : Nat) (f : mraa_uart_dev_t → mraa_uart_dev_t) :
    mraa_board_t :=
  { b with uart_dev := Function.update b.uart_dev i (f (b.uart_dev i)) }

/-- The statement `b->aio_dev[i].field = ...`. -/
def write_aio_dev (b : mraa_board_t) (i : Nat) (f : mraa_aio_dev_t → mraa_aio_dev_t) :
    mraa_board_t :=
  { b with aio_dev := Function.update b.aio_dev i (f (b.aio_dev i)) }

/-! ## `mraa_up2_6000_board` -/

def MRAA_UP2_6000_GPIOCOUNT : Int := 28
def MRAA_UP2_6000_COMMUNITY0_BASE : Int := 445
def MRAA_UP2_6000_COMMUNITY1_BASE : Int := 332
def MRAA_UP2_6000_COMMUNITY3_BASE : Int := 285
def MRAA_UP2_6000_COMMUNITY4_BASE : Int := 205
def MRAA_UP2_6000_COMMUNITY5_BASE : Int := 197

/-- The `mraa_up2_6000_set_pininfo(b, ...)` calls of `mraa_up2_6000_board`,
in the order of the source (lines 119 to 200). -/
def mraa_up2_6000_pininfo_calls : List pininfo_call := [
    pininfo_call.mk 0 "INVALID" (caps_of 0 0 0 0 0 0 0 0) (-1) (-1) (-1),
    pininfo_call.mk 1 "3.3v" (caps_of 0 0 0 0 0 0 0 0) (-1) (-1) (-1),
    pininfo_call.mk 2 "5v" (caps_of 0 0 0 0 0 0 0 0) (-1) (-1) (-1),
    pininfo_call.mk 3 "I2C_SDA" (caps_of 1 1 0 0 0 1 0 0) (MRAA_UP2_6000_COMMUNITY1_BASE + 22) 1 22,
    pininfo_call.mk 4 "5v" (caps_of 0 0 0 0 0 0 0 0) (-1) (-1) (-1),
    pininfo_call.mk 5 "I2C_SCL" (caps_of 1 1 0 0 0 1 0 0) (MRAA_UP2_6000_COMMUNITY1_BASE + 23) 1 23,
    pininfo_call.mk 6 "GND" (caps_of 0 0 0 0 0 0 0 0) (-1) (-1) (-1),
    pininfo_call.mk 7 "GPIO4" (caps_of 1 1 0 0 0 0 0 0) (MRAA_UP2_6000_COMMUNITY4_BASE + 31) 3 31,
    pininfo_call.mk 8 "UART_TX" (caps_of 1 1 0 0 0 0 0 1) (MRAA_UP2_6000_COMMUNITY4_BASE + 13) 3 13,
    pininfo_call.mk 9 "GND" (caps_of 0 0 0 0 0 0 0 0) (-1) (-1) (-1),
    pininfo_call.mk 10 "UART_RX" (caps_of 1 1 0 0 0 0 0 1) (MRAA_UP2_6000_COMMUNITY4_BASE + 12) 3 12,
    pininfo_call.mk 11 "UART_RTS" (caps_of 1 1 0 0 0 0 0 1) (MRAA_UP2_6000_COMMUNITY4_BASE + 14) 3 14,
    pininfo_call.mk 12 "I2S_CLK" (caps_of 1 1 0 0 0 0 0 0) (MRAA_UP2_6000_COMMUNITY0_BASE + 53) 0 53,
    pininfo_call.mk 13 "GPIO27" (caps_of 1 1 0 0 0 0 0 0) (MRAA_UP2_6000_COMMUNITY4_BASE + 11) 3 11,
    pininfo_call.mk 14 "GND" (caps_of 0 0 0 0 0 0 0 0) (-1) (-1) (-1),
    pininfo_call.mk 15 "GPIO22" (caps_of 1 1 0 0 0 0 0 0) (MRAA_UP2_6000_COMMUNITY4_BASE + 9) 3 9,
    pininfo_call.mk 16 "GPIO19" (caps_of 1 1 0 0 0 0 0 0) (MRAA_UP2_6000_COMMUNITY4_BASE + 78) 3 78,
    pininfo_call.mk 17 "3.3v" (caps_of 0 0 0 0 0 0 0 0) (-1) (-1) (-1),
    pininfo_call.mk 18 "GPIO24" (caps_of 1 1 0 0 0 0 0 0) (MRAA_UP2_6000_COMMUNITY4_BASE + 77) 3 77,
    pininfo_call.mk 19 "SPI0_MOSI" (caps_of 1 1 0 0 1 0 0 0) (MRAA_UP2_6000_COMMUNITY0_BASE + 22) 0 22,
    pininfo_call.mk 20 "GND" (caps_of 0 0 0 0 0 0 0 0) (-1) (-1) (-1),
    pininfo_call.mk 21 "SPI0_MISO" (caps_of 1 1 0 0 1 0 0 0) (MRAA_UP2_6000_COMMUNITY0_BASE + 22) 0 21,
    pininfo_call.mk 22 "GPIO25" (caps_of 1 1 0 0 0 0 0 0) (MRAA_UP2_6000_COMMUNITY0_BASE + 11) 0 11,
    pininfo_call.mk 23 "SPI0_CLK" (caps_of 1 1 0 0 1 0 0 0) (MRAA_UP2_6000_COMMUNITY0_BASE + 20) 0 20,
    pininfo_call.mk 24 "SPI0_CS0" (caps_of 1 1 0 0 1 0 0 0) (MRAA_UP2_6000_COMMUNITY0_BASE + 19) 0 19,
    pininfo_call.mk 25 "GND" (caps_of 0 0 0 0 0 0 0 0) (-1) (-1) (-1),
    pininfo_call.mk 26 "SPI0_CS1" (caps_of 1 1 0 0 1 0 0 0) (MRAA_UP2_6000_COMMUNITY0_BASE + 23) 0 23,
    pininfo_call.mk 27 "ID_SD" (caps_of 1 1 0 0 0 1 0 0) (MRAA_UP2_6000_COMMUNITY0_BASE + 9) 0 9,
    pininfo_call.mk 28 "ID_SC" (caps_of 1 1 0 0 0 1 0 0) (MRAA_UP2_6000_COMMUNITY0_BASE + 9) 0 10,
    pininfo_call.mk 29 "GPIO5" (caps_of 1 1 0 0 0 0 0 0) (MRAA_UP2_6000_COMMUNITY4_BASE + 42) 3 42,
    pininfo_call.mk 30 "GND" (caps_of 0 0 0 0 0 0 0 0) (-1) (-1) (-1),
    pininfo_call.mk 31 "GPIO6" (caps_of 1 1 0 0 0 0 0 0) (MRAA_UP2_6000_COMMUNITY4_BASE + 43) 3 43,
    pininfo_call.mk 32 "PWM0" (caps_of 1 1 1 0 0 0 0 0) (MRAA_UP2_6000_COMMUNITY4_BASE + 5) 3 5,
    pininfo_call.mk 33 "PWM1" (caps_of 1 1 1 0 0 0 0 0) (MRAA_UP2_6000_COMMUNITY1_BASE + 44) 1 44,
    pininfo_call.mk 34 "GND" (caps_of 0 0 0 0 0 0 0 0) (-1) (-1) (-1),
    pininfo_call.mk 35 "I2S_FRM" (caps_of 1 1 0 0 0 0 0 0) (MRAA_UP2_6000_COMMUNITY0_BASE + 54) 0 54,
    pininfo_call.mk 36 "UART_CTS" (caps_of 1 1 0 0 0 0 0 1) (MRAA_UP2_6000_COMMUNITY4_BASE + 15) 3 15,
    pininfo_call.mk 37 "GPIO26" (caps_of 1 1 0 0 0 0 0 0) (MRAA_UP2_6000_COMMUNITY4_BASE + 34) 3 34,
    pininfo_call.mk 38 "I2S_DIN" (caps_of 1 1 0 0 0 0 0 0) (MRAA_UP2_6000_COMMUNITY0_BASE + 56) 0 56,
    pininfo_call.mk 39 "GND" (caps_of 0 0 0 0 0 0 0 0) (-1) (-1) (-1),
    pininfo_call.mk 40 "I2S_DOUT" (caps_of 1 1 0 0 0 0 0 0) (MRAA_UP2_6000_COMMUNITY0_BASE + 55) 0 55,
    pininfo_call.mk 41 "5v" (caps_of 0 0 0 0 0 0 0 0) (-1) (-1) (-1),
    pininfo_call.mk 42 "3.3v" (caps_of 0 0 0 0 0 0 0 0) (-1) (-1) (-1),
    pininfo_call.mk 43 "5v" (caps_of 0 0 0 0 0 0 0 0) (-1) (-1) (-1),
    pininfo_call.mk 44 "3.3v" (caps_of 0 0 0 0 0 0 0 0) (-1) (-1) (-1),
    pininfo_call.mk 45 "GND" (caps_of 0 0 0 0 0 0 0 0) (-1) (-1) (-1),
    pininfo_call.mk 46 "GND" (caps_of 0 0 0 0 0 0 0 0) (-1) (-1) (-1),
    pininfo_call.mk 47 "CAN0_TX" (caps_of 0 0 0 0 0 0 0 0) (-1) (-1) (-1),
    pininfo_call.mk 48 "CAN0_RX" (caps_of 0 0 0 0 0 0 0 0) (-1) (-1) (-1),
    pininfo_call.mk 49 "GND" (caps_of 0 0 0 0 0 0 0 0) (-1) (-1) (-1),
    pininfo_call.mk 50 "GND" (caps_of 0 0 0 0 0 0 0 0) (-1) (-1) (-1),
    pininfo_call.mk 51 "CAN1_TX" (caps_of 0 0 0 0 0 0 0 0) (-1) (-1) (-1),
    pininfo_call.mk 52 "CAN1_RX" (caps_of 0 0 0 0 0 0 0 0) (-1) (-1) (-1),
    pininfo_call.mk 53 "GND" (caps_of 0 0 0 0 0 0 0 0) (-1) (-1) (-1),
    pininfo_call.mk 54 "GND" (caps_of 0 0 0 0 0 0 0 0) (-1) (-1) (-1),
    pininfo_call.mk 55 "QEP_A0" (caps_of 0 0 0 0 0 0 0 0) (-1) (-1) (-1),
    pininfo_call.mk 56 "QEP_B0" (caps_of 0 0 0 0 0 0 0 0) (-1) (-1) (-1),
    pininfo_call.mk 57 "QEP_A1" (caps_of 0 0 0 0 0 0 0 0) (-1) (-1) (-1),
    pininfo_call.mk 58 "QEP_B1" (caps_of 0 0 0 0 0 0 0 0) (-1) (-1) (-1),
    pininfo_call.mk 59 "QEP_A2" (caps_of 0 0 0 0 0 0 0 0) (-1) (-1) (-1),
    pininfo_call.mk 60 "QEP_B2" (caps_of 0 0 0 0 0 0 0 0) (-1) (-1) (-1),
    pininfo_call.mk 61 "QEP_A3" (caps_of 0 0 0 0 0 0 0 0) (-1) (-1) (-1),
    pininfo_call.mk 62 "QEP_B3" (caps_of 0 0 0 0 0 0 0 0) (-1) (-1) (-1),
    pininfo_call.mk 63 "QEP_I0" (caps_of 0 0 0 0 0 0 0 0) (-1) (-1) (-1),
    pininfo_call.mk 64 "QEP_I2" (caps_of 0 0 0 0 0 0 0 0) (-1) (-1) (-1),
    pininfo_call.mk 65 "QEP_I1" (caps_of 0 0 0 0 0 0 0 0) (-1) (-1) (-1),
    pininfo_call.mk 66 "QEP_I3" (caps_of 0 0 0 0 0 0 0 0) (-1) (-1) (-1),
    pininfo_call.mk 67 "PWM4" (caps_of 1 0 1 0 0 0 0 0) (-1) (-1) (-1),
    pininfo_call.mk 68 "PWM2" (caps_of 1 0 1 0 0 0 0 0) (-1) (-1) (-1),
    pininfo_call.mk 69 "PWM5" (caps_of 1 0 1 0 0 0 0 0) (-1) (-1) (-1),
    pininfo_call.mk 70 "PWM3" (caps_of 1 0 1 0 0 0 0 0) (-1) (-1) (-1),
    pininfo_call.mk 71 "GND" (caps_of 0 0 0 0 0 0 0 0) (-1) (-1) (-1),
    pininfo_call.mk 72 "GND" (caps_of 0 0 0 0 0 0 0 0) (-1) (-1) (-1),
    pininfo_call.mk 73 "ADC0" (caps_of 0 0 0 0 0 0 0 0) (-1) (-1) (-1),
    pininfo_call.mk 74 "ADC2" (caps_of 0 0 0 0 0 0 0 0) (-1) (-1) (-1),
    pininfo_call.mk 75 "ADC1" (caps_of 0 1 0 0 0 0 0 0) (-1) (-1) (-1),
    pininfo_call.mk 76 "ADC3" (caps_of 1 1 0 0 0 0 0 1) (-1) (-1) (-1),
    pininfo_call.mk 77 "GND" (caps_of 0 0 0 0 0 0 0 0) (-1) (-1) (-1),
    pininfo_call.mk 78 "GND" (caps_of 0 0 0 0 0 0 0 0) (-1) (-1) (-1),
    pininfo_call.mk 79 "I2C2_SDA" (caps_of 1 0 0 0 0 1 0 0) (-1) (-1) (-1),
    pininfo_call.mk 80 "I2C2_SCL" (caps_of 1 0 0 0 0 1 0 0) (-1) (-1) (-1)]

/-- Runs the `mraa_up2_6000_set_pininfo` calls one after the other; the
builder does not look at the returned codes. -/
def mraa_up2_6000_set_pins (MRAA_PIN_NAME_SIZE : Nat) :
    mraa_board_t → List pininfo_call → Option mraa_board_t
  | b, [] => some b
  | b, c :: rest =>
    match mraa_up2_6000_set_pininfo MRAA_PIN_NAME_SIZE b c.mraa_index c.name.toList c.caps
        c.sysfs_pin c.chip c.line with
    | none => none
    | some r => mraa_up2_6000_set_pins MRAA_PIN_NAME_SIZE r.board rest

/-- A call `mraa_up2_6000_get_pin_index(b, name, &field)` of the builder,
where `field` is a member of the board itself, given by its reader and its
writer. -/
def mraa_up2_6000_get_pin_index_into (MRAA_PIN_NAME_SIZE : Nat) (name : String)
    (field : mraa_board_t → Int) (set_field : mraa_board_t → Int → mraa_board_t)
    (st : build_state) : Option build_state :=
  match mraa_up2_6000_get_pin_index MRAA_PIN_NAME_SIZE st.b name.toList (field st.b) with
  | none => none
  | some r => some { b := set_field st.b r.pin_index, log := st.log ++ r.log }

/-- One `Configure I2C adaptor` block of `mraa_up2_6000_board`, given the
number returned by `mraa_find_i2c_bus_pci` and the two pin names. -/
def mraa_up2_6000_i2c_adaptor (MRAA_PIN_NAME_SIZE : Nat) (st : build_state)
    (i2c_bus_num : Int) (sda_name scl_name : String) : Option build_state :=
  if i2c_bus_num ≠ -1 then do
    let i := st.b.i2c_bus_count.toNat
    let st := { st with b := write_i2c_bus st.b i (fun e => { e with bus_id := i2c_bus_num }) }
    let st ← mraa_up2_6000_get_pin_index_into MRAA_PIN_NAME_SIZE sda_name
      (fun b => (b.i2c_bus i).sda)
      (fun b v => write_i2c_bus b i (fun e => { e with sda := v })) st
    let st ← mraa_up2_6000_get_pin_index_into MRAA_PIN_NAME_SIZE scl_name
      (fun b => (b.i2c_bus i).scl)
      (fun b v => write_i2c_bus b i (fun e => { e with scl := v })) st
    some { st with b := { st.b with i2c_bus_count := st.b.i2c_bus_count + 1 } }
  else some st

/-- Lines 202 to 237: the three I2C adaptors. -/
def mraa_up2_6000_i2c (MRAA_PIN_NAME_SIZE : Nat) (env : platform_env) (st : build_state) :
    Option build_state := do
  let st := { st with b := { st.b with i2c_bus_count := 0, def_i2c_bus := 0 } }
  let st ← mraa_up2_6000_i2c_adaptor MRAA_PIN_NAME_SIZE st
    (env.mraa_find_i2c_bus_pci "0000:00" "0000:00:15.3" "i2c_designware.4") "I2C_SDA" "I2C_SCL"
  let st ← mraa_up2_6000_i2c_adaptor MRAA_PIN_NAME_SIZE st
    (env.mraa_find_i2c_bus_pci "0000:00" "0000:00:19.1" "i2c_designware.6") "ID_SD" "ID_SC"
  mraa_up2_6000_i2c_adaptor MRAA_PIN_NAME_SIZE st
    (env.mraa_find_i2c_bus_pci "0000:00" "0000:00:15.2" "i2c_designware.3") "I2C2_SDA" "I2C2_SCL"

/-- The statements `b->pins[k].pwm.parent_id = 0; b->pins[k].pwm.pinmap = channel;
b->pwm_dev_count++;` -/
def mraa_up2_6000_pwm_channel (b : mraa_board_t) (k : Nat) (channel : Nat) :
    Option mraa_board_t := do
  let b ← write_pin b k (fun p => { p with pwm := { p.pwm with parent_id := 0 } })
  let b ← write_pin b k (fun p => { p with pwm := { p.pwm with pinmap := channel } })
  some { b with pwm_dev_count := b.pwm_dev_count + 1 }

/-- Lines 239 to 264: the `Configure PWM` block. -/
def mraa_up2_6000_pwm (b : mraa_board_t) : Option mraa_board_t := do
  let b := { b with pwm_dev_count := 0, def_pwm_dev := 0, pwm_default_period := 5000,
                    pwm_max_period := 218453, pwm_min_period := 1 }
  let b ← mraa_up2_6000_pwm_channel b 32 1
  let b ← mraa_up2_6000_pwm_channel b 33 2
  let b ← mraa_up2_6000_pwm_channel b 68 3
  let b ← mraa_up2_6000_pwm_channel b 70 4
  let b ← mraa_up2_6000_pwm_channel b 66 5
  mraa_up2_6000_pwm_channel b 69 6

/-- One `Configure SPI #0 CSx` block of `mraa_up2_6000_board`. -/
def mraa_up2_6000_spi_bus (MRAA_PIN_NAME_SIZE : Nat) (st : build_state) (k : Nat)
    (bus_id slave_s : Int) (cs_name : String) : Option build_state := do
  let st := { st with b := write_spi_bus st.b k (fun e => { e with bus_id := bus_id }) }
  let st := { st with b := write_spi_bus st.b k (fun e => { e with slave_s := slave_s }) }
  let st ← mraa_up2_6000_get_pin_index_into MRAA_PIN_NAME_SIZE cs_name
    (fun b => (b.spi_bus k).cs)
    (fun b v => write_spi_bus b k (fun e => { e with cs := v })) st
  let st ← mraa_up2_6000_get_pin_index_into MRAA_PIN_NAME_SIZE "SPI0_MOSI"
    (fun b => (b.spi_bus k).mosi)
    (fun b v => write_spi_bus b k (fun e => { e with mosi := v })) st
  let st ← mraa_up2_6000_get_pin_index_into MRAA_PIN_NAME_SIZE "SPI0_MISO"
    (fun b => (b.spi_bus k).miso)
    (fun b v => write_spi_bus b k (fun e => { e with miso := v })) st
  let st ← mraa_up2_6000_get_pin_index_into MRAA_PIN_NAME_SIZE "SPI0_CLK"
    (fun b => (b.spi_bus k).sclk)
    (fun b v => write_spi_bus b k (fun e => { e with sclk := v })) st
  some { st with b := { st.b with spi_bus_count := st.b.spi_bus_count + 1 } }

/-- Lines 266 to 286: the two SPI entries. -/
def mraa_up2_6000_spi (MRAA_PIN_NAME_SIZE : Nat) (st : build_state) : Option build_state := do
  let st := { st with b := { st.b with spi_bus_count := 0, def_spi_bus := 0 } }
  let st ← mraa_up2_6000_spi_bus MRAA_PIN_NAME_SIZE st 0 2 0 "SPI0_CS0"
  mraa_up2_6000_spi_bus MRAA_PIN_NAME_SIZE st 1 1 1 "SPI0_CS1"

/-- Lines 288 to 302: the UART. -/
def mraa_up2_6000_uart (MRAA_PIN_NAME_SIZE : Nat) (env : platform_env) (st : build_state) :
    Option build_state :=
  let st := { st with b := { st.b with uart_dev_count := 0, def_uart_dev := 0 } }
  let found := env.mraa_find_uart_bus_pci
    "/sys/bus/pci/devices/0000:00:1e.1/dw-apb-uart.9/tty/" (st.b.uart_dev 0).device_path
  let st := { st with b := write_uart_dev st.b 0 (fun e => { e with device_path := found.2 }) }
  if found.1 ≠ MRAA_SUCCESS then
    some { st with log := st.log ++ [syslog_entry.mk LOG_WARNING
      "UP2 6000: Platform failed to find uart controller"] }
  else do
    let st ← mraa_up2_6000_get_pin_index_into MRAA_PIN_NAME_SIZE "UART_RX"
      (fun b => (b.uart_dev 0).rx)
      (fun b v => write_uart_dev b 0 (fun e => { e with rx := v })) st
    let st ← mraa_up2_6000_get_pin_index_into MRAA_PIN_NAME_SIZE "UART_TX"
      (fun b => (b.uart_dev 0).tx)
      (fun b v => write_uart_dev b 0 (fun e => { e with tx := v })) st
    let st ← mraa_up2_6000_get_pin_index_into MRAA_PIN_NAME_SIZE "UART_CTS"
      (fun b => (b.uart_dev 0).cts)
      (fun b v => write_uart_dev b 0 (fun e => { e with cts := v })) st
    let st ← mraa_up2_6000_get_pin_index_into MRAA_PIN_NAME_SIZE "UART_RTS"
      (fun b => (b.uart_dev 0).rts)
      (fun b v => write_uart_dev b 0 (fun e => { e with rts := v })) st
    some { st with b := { st.b with uart_dev_count := st.b.uart_dev_count + 1 } }

/-- Lines 119 to 305 of `mraa_up2_6000_board`: everything between the
allocations and the driver probe. -/
def mraa_up2_6000_configure (MRAA_PIN_NAME_SIZE : Nat) (env : platform_env)
    (b : mraa_board_t) : Option build_state := do
  let b ← mraa_up2_6000_set_pins MRAA_PIN_NAME_SIZE b mraa_up2_6000_pininfo_calls
  let st ← mraa_up2_6000_i2c MRAA_PIN_NAME_SIZE env { b := b, log := [] }
  let b ← mraa_up2_6000_pwm st.b
  let st ← mraa_up2_6000_spi MRAA_PIN_NAME_SIZE { st with b := b }
  let st ← mraa_up2_6000_uart MRAA_PIN_NAME_SIZE env st
  some { st with b := { st.b with aio_count := 0 } }

/-- The `error:` label of `mraa_up2_6000_board`, reached with the heap `h`:
log, `free(b)`, return NULL. -/
def mraa_up2_6000_error (log : List syslog_entry) (h : heap_state) : board_ret :=
  let log := log ++ [syslog_entry.mk LOG_CRIT ("up2 6000: Platform failed to initialise")]
  let h := heap_free h heap_block.board
  { ret := none, log := log, allocated := h.allocated, freed := h.freed }

/-- Lines 307 to 318 of `mraa_up2_6000_board`: the driver probe, the notice
and the final `if (1 || have_pinctrl) return b;` with the `error:` label
after it. -/
def mraa_up2_6000_finish (env : platform_env) (h : heap_state) (st : build_state) :
    board_ret :=
  let have_pinctrl : Bool := env.access "/sys/bus/platform/drivers/gpio-aaeon" != -1
  let log := st.log ++ [syslog_entry.mk LOG_NOTICE ("up2 6000: kernel WMI pinctrl driver " ++
    (if have_pinctrl then "" else "un") ++ "available")]
  if true || have_pinctrl then
    { ret := some st.b, log := log, allocated := h.allocated, freed := h.freed }
  else mraa_up2_6000_error log h

/-- The builder `mraa_up2_6000_board()`, for a value of `MRAA_UP2_6000_PINCOUNT` (its
header `x86/up2_6000.h` is not among the sources).  The result is `none`
when the run writes outside the pin array. -/
def mraa_up2_6000_board (MRAA_PIN_NAME_SIZE : Nat) (MRAA_UP2_6000_PINCOUNT : Int)
    (env : platform_env) : Option board_ret :=
  let h := heap_alloc heap_empty env.calloc_board heap_block.board
  if env.calloc_board = false then
    some { ret := none, log := [], allocated := h.allocated, freed := h.freed }
  else
    let b := calloc_mraa_board_t
    let b := { b with platform_name := some "UP2_6000", platform_version := some "1.0.0",
                      phy_pin_count := MRAA_UP2_6000_PINCOUNT,
                      gpio_count := MRAA_UP2_6000_GPIOCOUNT, chardev_capable := 0 }
    let h := heap_alloc h env.malloc_pins heap_block.pins
    if env.malloc_pins = false then
      some (mraa_up2_6000_error [] h)
    else
      let b := { b with pins := malloc_pins_block env MRAA_UP2_6000_PINCOUNT }
      let h := heap_alloc h env.calloc_adv_func heap_block.adv_func
      if env.calloc_adv_func = false then
        some (mraa_up2_6000_error [] (heap_free h heap_block.pins))
      else
        let b := { b with adv_func := some { aio_get_valid_fp := none } }
        (mraa_up2_6000_configure MRAA_PIN_NAME_SIZE env b).map (mraa_up2_6000_finish env h)

/-! ## `mraa_upxtreme_i11_board` -/

def MRAA_UPXTREME_I11_PINCOUNT : Int := 80 + 1
def MRAA_UPXTREME_I11_GPIOCOUNT : Int := 28
def MRAA_UPXTREME_I11_CHIP_BASE : Int := 152

/-- The `mraa_upxtreme_set_pininfo(b, ...)` calls of
`mraa_upxtreme_i11_board`, in the order of the source (lines 143 to 224). -/
def mraa_upxtreme_pininfo_calls : List pininfo_call := [
    pininfo_call.mk 0 "INVALID" (caps_of 0 0 0 0 0 0 0 0) (-1) (-1) (-1),
    pininfo_call.mk 1 "3.3v" (caps_of 0 0 0 0 0 0 0 0) (-1) (-1) (-1),
    pininfo_call.mk 2 "5v" (caps_of 0 0 0 0 0 0 0 0) (-1) (-1) (-1),
    pininfo_call.mk 3 "I2C_SDA" (caps_of 1 1 0 0 0 1 0 0) (MRAA_UPXTREME_I11_CHIP_BASE + 136) 0 136,
    pininfo_call.mk 4 "5v" (caps_of 0 0 0 0 0 0 0 0) (-1) (-1) (-1),
    pininfo_call.mk 5 "I2C_SCL" (caps_of 1 1 0 0 0 1 0 0) (MRAA_UPXTREME_I11_CHIP_BASE + 137) 0 137,
    pininfo_call.mk 6 "GND" (caps_of 0 0 0 0 0 0 0 0) (-1) (-1) (-1),
    pininfo_call.mk 7 "ADC0" (caps_of 1 1 0 0 0 0 1 0) (MRAA_UPXTREME_I11_CHIP_BASE + 163) 0 163,
    pininfo_call.mk 8 "UART_TX" (caps_of 1 1 0 0 0 0 0 1) (MRAA_UPXTREME_I11_CHIP_BASE + 265) 0 265,
    pininfo_call.mk 9 "GND" (caps_of 0 0 0 0 0 0 0 0) (-1) (-1) (-1),
    pininfo_call.mk 10 "UART_RX" (caps_of 1 1 0 0 0 0 0 1) (MRAA_UPXTREME_I11_CHIP_BASE + 264) 0 264,
    pininfo_call.mk 11 "UART_RTS" (caps_of 1 1 0 0 0 0 0 1) (MRAA_UPXTREME_I11_CHIP_BASE + 266) 0 266,
    pininfo_call.mk 12 "I2S_CLK" (caps_of 1 1 0 0 0 0 0 0) (MRAA_UPXTREME_I11_CHIP_BASE + 71) 0 71,
    pininfo_call.mk 13 "GPIO27" (caps_of 1 1 0 0 0 0 0 0) (MRAA_UPXTREME_I11_CHIP_BASE + 322) 0 322,
    pininfo_call.mk 14 "GND" (caps_of 0 0 0 0 0 0 0 0) (-1) (-1) (-1),
    pininfo_call.mk 15 "GPIO22" (caps_of 1 1 0 0 0 0 0 0) (MRAA_UPXTREME_I11_CHIP_BASE + 331) 0 331,
    pininfo_call.mk 16 "GPIO23" (caps_of 1 1 0 0 0 0 0 0) (MRAA_UPXTREME_I11_CHIP_BASE + 330) 0 330,
    pininfo_call.mk 17 "3.3v" (caps_of 0 0 0 0 0 0 0 0) (-1) (-1) (-1),
    pininfo_call.mk 18 "GPIO24" (caps_of 1 1 0 0 0 0 0 0) (MRAA_UPXTREME_I11_CHIP_BASE + 333) 0 333,
    pininfo_call.mk 19 "SPI0_MOSI" (caps_of 1 1 0 0 1 0 0 0) (MRAA_UPXTREME_I11_CHIP_BASE + 22) 0 22,
    pininfo_call.mk 20 "GND" (caps_of 0 0 0 0 0 0 0 0) (-1) (-1) (-1),
    pininfo_call.mk 21 "SPI0_MISO" (caps_of 1 1 0 0 1 0 0 0) (MRAA_UPXTREME_I11_CHIP_BASE + 21) 0 21,
    pininfo_call.mk 22 "GPIO25" (caps_of 1 1 0 0 0 0 0 0) (MRAA_UPXTREME_I11_CHIP_BASE + 332) 0 332,
    pininfo_call.mk 23 "SPI0_CLK" (caps_of 1 1 0 0 1 0 0 0) (MRAA_UPXTREME_I11_CHIP_BASE + 20) 0 20,
    pininfo_call.mk 24 "SPI0_CS0" (caps_of 1 1 0 0 1 0 0 0) (MRAA_UPXTREME_I11_CHIP_BASE + 19) 0 19,
    pininfo_call.mk 25 "GND" (caps_of 0 0 0 0 0 0 0 0) (-1) (-1) (-1),
    pininfo_call.mk 26 "SPI0_CS1" (caps_of 1 1 0 0 1 0 0 0) (MRAA_UPXTREME_I11_CHIP_BASE + 23) 0 23,
    pininfo_call.mk 27 "ID_SD" (caps_of 1 1 0 0 0 1 0 0) (MRAA_UPXTREME_I11_CHIP_BASE + 134) 0 134,
    pininfo_call.mk 28 "ID_SC" (caps_of 1 1 0 0 0 1 0 0) (MRAA_UPXTREME_I11_CHIP_BASE + 135) 0 135,
    pininfo_call.mk 29 "GPIO5" (caps_of 1 1 0 0 0 0 0 0) (MRAA_UPXTREME_I11_CHIP_BASE + 178) 0 178,
    pininfo_call.mk 30 "GND" (caps_of 0 0 0 0 0 0 0 0) (-1) (-1) (-1),
    pininfo_call.mk 31 "GPIO6" (caps_of 1 1 0 0 0 0 0 0) (MRAA_UPXTREME_I11_CHIP_BASE + 335) 0 335,
    pininfo_call.mk 32 "GPIO12" (caps_of 1 1 0 0 0 0 0 0) (MRAA_UPXTREME_I11_CHIP_BASE + 160) 0 160,
    pininfo_call.mk 33 "GPIO13" (caps_of 1 1 0 0 0 0 0 0) (MRAA_UPXTREME_I11_CHIP_BASE + 161) 0 161,
    pininfo_call.mk 34 "GND" (caps_of 0 0 0 0 0 0 0 0) (-1) (-1) (-1),
    pininfo_call.mk 35 "I2S_FRM" (caps_of 1 1 0 0 0 0 0 0) (MRAA_UPXTREME_I11_CHIP_BASE + 72) 0 72,
    pininfo_call.mk 36 "UART_CTS" (caps_of 1 1 0 0 0 0 0 1) (MRAA_UPXTREME_I11_CHIP_BASE + 267) 0 267,
    pininfo_call.mk 37 "GPIO26" (caps_of 1 1 0 0 0 0 0 0) (MRAA_UPXTREME_I11_CHIP_BASE + 321) 0 321,
    pininfo_call.mk 38 "I2S_DIN" (caps_of 1 1 0 0 0 0 0 0) (MRAA_UPXTREME_I11_CHIP_BASE + 74) 0 74,
    pininfo_call.mk 39 "GND" (caps_of 0 0 0 0 0 0 0 0) (-1) (-1) (-1),
    pininfo_call.mk 40 "I2S_DOUT" (caps_of 1 1 0 0 0 0 0 0) (MRAA_UPXTREME_I11_CHIP_BASE + 73) 0 73,
    pininfo_call.mk 41 "INVALID" (caps_of 0 0 0 0 0 0 0 0) (-1) (-1) (-1),
    pininfo_call.mk 42 "INVALID" (caps_of 0 0 0 0 0 0 0 0) (-1) (-1) (-1),
    pininfo_call.mk 43 "RPI_GPIO2" (caps_of 1 1 0 0 0 0 0 0) 2 1 2,
    pininfo_call.mk 44 "INVALID" (caps_of 0 0 0 0 0 0 0 0) (-1) (-1) (-1),
    pininfo_call.mk 45 "RPI_GPIO3" (caps_of 1 1 0 0 0 0 0 0) 3 1 3,
    pininfo_call.mk 46 "INVALID" (caps_of 0 0 0 0 0 0 0 0) (-1) (-1) (-1),
    pininfo_call.mk 47 "RPI_GPIO4" (caps_of 1 1 0 0 0 0 0 0) 4 1 4,
    pininfo_call.mk 48 "RPI_GPIO14" (caps_of 1 1 0 0 0 0 0 0) 14 1 14,
    pininfo_call.mk 49 "INVALID" (caps_of 0 0 0 0 0 0 0 0) (-1) (-1) (-1),
    pininfo_call.mk 50 "RPI_GPIO15" (caps_of 1 1 0 0 0 0 0 0) 15 1 15,
    pininfo_call.mk 51 "RPI_GPIO17" (caps_of 1 1 0 0 0 0 0 0) 17 1 17,
    pininfo_call.mk 52 "RPI_GPIO18" (caps_of 1 1 0 0 0 0 0 0) 18 1 18,
    pininfo_call.mk 53 "RPI_GPIO27" (caps_of 1 1 0 0 0 0 0 0) 27 1 27,
    pininfo_call.mk 54 "INVALID" (caps_of 0 0 0 0 0 0 0 0) (-1) (-1) (-1),
    pininfo_call.mk 55 "RPI_GPIO22" (caps_of 1 1 0 0 0 0 0 0) 22 1 22,
    pininfo_call.mk 56 "RPI_GPIO23" (caps_of 1 1 0 0 0 0 0 0) 23 1 23,
    pininfo_call.mk 57 "INVALID" (caps_of 0 0 0 0 0 0 0 0) (-1) (-1) (-1),
    pininfo_call.mk 58 "RPI_GPIO24" (caps_of 1 1 0 0 0 0 0 0) 24 1 24,
    pininfo_call.mk 59 "RPI_GPIO10" (caps_of 1 1 0 0 0 0 0 0) 10 1 10,
    pininfo_call.mk 60 "INVALID" (caps_of 0 0 0 0 0 0 0 0) (-1) (-1) (-1),
    pininfo_call.mk 61 "RPI_GPIO9" (caps_of 1 1 0 0 0 0 0 0) 9 1 9,
    pininfo_call.mk 62 "RPI_GPIO25" (caps_of 1 1 0 0 0 0 0 0) 25 1 25,
    pininfo_call.mk 63 "RPI_GPIO11" (caps_of 1 1 0 0 0 0 0 0) 11 1 11,
    pininfo_call.mk 64 "RPI_GPIO8" (caps_of 1 1 0 0 0 0 0 0) 8 1 8,
    pininfo_call.mk 65 "INVALID" (caps_of 0 0 0 0 0 0 0 0) (-1) (-1) (-1),
    pininfo_call.mk 66 "RPI_GPIO7" (caps_of 1 1 0 0 0 0 0 0) 7 1 7,
    pininfo_call.mk 67 "RPI_GPIO0" (caps_of 1 1 0 0 0 0 0 0) 0 1 0,
    pininfo_call.mk 68 "RPI_GPIO1" (caps_of 1 1 0 0 0 0 0 0) 1 1 1,
    pininfo_call.mk 69 "RPI_GPIO5" (caps_of 1 1 0 0 0 0 0 0) 5 1 5,
    pininfo_call.mk 70 "INVALID" (caps_of 0 0 0 0 0 0 0 0) (-1) (-1) (-1),
    pininfo_call.mk 71 "RPI_GPIO6" (caps_of 1 1 0 0 0 0 0 0) 6 1 6,
    pininfo_call.mk 72 "RPI_GPIO12" (caps_of 1 1 0 0 0 0 0 0) 12 1 12,
    pininfo_call.mk 73 "RPI_GPIO13" (caps_of 1 1 0 0 0 0 0 0) 13 1 13,
    pininfo_call.mk 74 "INVALID" (caps_of 0 0 0 0 0 0 0 0) (-1) (-1) (-1),
    pininfo_call.mk 75 "RPI_GPIO19" (caps_of 1 1 0 0 0 0 0 0) 19 1 19,
    pininfo_call.mk 76 "RPI_GPIO16" (caps_of 1 1 0 0 0 0 0 0) 16 1 16,
    pininfo_call.mk 77 "RPI_GPIO26" (caps_of 1 1 0 0 0 0 0 0) 26 1 26,
    pininfo_call.mk 78 "RPI_GPIO20" (caps_of 1 1 0 0 0 0 0 0) 20 1 20,
    pininfo_call.mk 79 "INVALID" (caps_of 0 0 0 0 0 0 0 0) (-1) (-1) (-1),
    pininfo_call.mk 80 "RPI_GPIO21" (caps_of 1 1 0 0 0 0 0 0) 21 1 21]

/-- Runs the `mraa_upxtreme_set_pininfo` calls one after the other; the
builder does not look at the returned codes. -/
def mraa_upxtreme_set_pins (MRAA_PIN_NAME_SIZE : Nat) :
    mraa_board_t → List pininfo_call → Option mraa_board_t
  | b, [] => some b
  | b, c :: rest =>
    match mraa_upxtreme_set_pininfo MRAA_PIN_NAME_SIZE b c.mraa_index c.name.toList c.caps
        c.sysfs_pin c.chip c.line with
    | none => none
    | some r => mraa_upxtreme_set_pins MRAA_PIN_NAME_SIZE r.board rest

/-- A call `mraa_upxtreme_get_pin_index(b, name, &field)` of the builder,
where `field` is a member of the board itself, given by its reader and its
writer. -/
def mraa_upxtreme_get_pin_index_into (MRAA_PIN_NAME_SIZE : Nat) (name : String)
    (field : mraa_board_t → Int) (set_field : mraa_board_t → Int → mraa_board_t)
    (st : build_state) : Option build_state :=
  match mraa_upxtreme_get_pin_index MRAA_PIN_NAME_SIZE st.b name.toList (field st.b) with
  | none => none
  | some r => some { b := set_field st.b r.pin_index, log := st.log ++ r.log }

/-- One `Configure I2C adaptor` block of `mraa_upxtreme_i11_board`, given
the number returned by `mraa_find_i2c_bus_pci`, the two pin names and the
warning of the `else` branch. -/
def mraa_upxtreme_i2c_adaptor (MRAA_PIN_NAME_SIZE : Nat) (st : build_state)
    (i2c_bus_num : Int) (sda_name scl_name : String) (warning : String) :
    Option build_state :=
  if i2c_bus_num ≠ -1 then do
    let i := st.b.i2c_bus_count.toNat
    let st := { st with b := write_i2c_bus st.b i (fun e => { e with bus_id := i2c_bus_num }) }
    let st ← mraa_upxtreme_get_pin_index_into MRAA_PIN_NAME_SIZE sda_name
      (fun b => (b.i2c_bus i).sda)
      (fun b v => write_i2c_bus b i (fun e => { e with sda := v })) st
    let st ← mraa_upxtreme_get_pin_index_into MRAA_PIN_NAME_SIZE scl_name
      (fun b => (b.i2c_bus i).scl)
      (fun b v => write_i2c_bus b i (fun e => { e with scl := v })) st
    some { st with b := { st.b with i2c_bus_count := st.b.i2c_bus_count + 1 } }
  else some { st with log := st.log ++ [syslog_entry.mk LOG_WARNING warning] }

/-- Lines 226 to 254: the two I2C adaptors. -/
def mraa_upxtreme_i2c (MRAA_PIN_NAME_SIZE : Nat) (env : platform_env) (st : build_state) :
    Option build_state := do
  let st := { st with b := { st.b with i2c_bus_count := 0, def_i2c_bus := 0 } }
  let st ← mraa_upxtreme_i2c_adaptor MRAA_PIN_NAME_SIZE st
    (env.mraa_find_i2c_bus_pci "0000:00" "0000:00:19.0" "i2c_designware.4") "I2C_SDA" "I2C_SCL"
    "UP Xtreme: Platform failed to find I2C0 controller"
  mraa_upxtreme_i2c_adaptor MRAA_PIN_NAME_SIZE st
    (env.mraa_find_i2c_bus_pci "0000:00" "0000:00:15.3" "i2c_designware.3") "ID_SD" "ID_SC"
    "UP Xtreme: Platform failed to find I2C1 controller"

/-- One `Configure SPI #0 CSx` block of `mraa_upxtreme_i11_board`. -/
def mraa_upxtreme_spi_bus (MRAA_PIN_NAME_SIZE : Nat) (st : build_state) (k : Nat)
    (bus_id slave_s : Int) (cs_name : String) : Option build_state := do
  let st := { st with b := write_spi_bus st.b k (fun e => { e with bus_id := bus_id }) }
  let st := { st with b := write_spi_bus st.b k (fun e => { e with slave_s := slave_s }) }
  let st ← mraa_upxtreme_get_pin_index_into MRAA_PIN_NAME_SIZE cs_name
    (fun b => (b.spi_bus k).cs)
    (fun b v => write_spi_bus b k (fun e => { e with cs := v })) st
  let st ← mraa_upxtreme_get_pin_index_into MRAA_PIN_NAME_SIZE "SPI0_MOSI"
    (fun b => (b.spi_bus k).mosi)
    (fun b v => write_spi_bus b k (fun e => { e with mosi := v })) st
  let st ← mraa_upxtreme_get_pin_index_into MRAA_PIN_NAME_SIZE "SPI0_MISO"
    (fun b => (b.spi_bus k).miso)
    (fun b v => write_spi_bus b k (fun e => { e with miso := v })) st
  let st ← mraa_upxtreme_get_pin_index_into MRAA_PIN_NAME_SIZE "SPI0_CLK"
    (fun b => (b.spi_bus k).sclk)
    (fun b v => write_spi_bus b k (fun e => { e with sclk := v })) st
  some { st with b := { st.b with spi_bus_count := st.b.spi_bus_count + 1 } }

/-- Lines 259 to 279: the two SPI entries. -/
def mraa_upxtreme_spi (MRAA_PIN_NAME_SIZE : Nat) (st : build_state) : Option build_state := do
  let st := { st with b := { st.b with spi_bus_count := 0, def_spi_bus := 0 } }
  let st ← mraa_upxtreme_spi_bus MRAA_PIN_NAME_SIZE st 0 0 0 "SPI0_CS0"
  mraa_upxtreme_spi_bus MRAA_PIN_NAME_SIZE st 1 0 1 "SPI0_CS1"

/-- Lines 281 to 295: the UART. -/
def mraa_upxtreme_uart (MRAA_PIN_NAME_SIZE : Nat) (env : platform_env) (st : build_state) :
    Option build_state :=
  let st := { st with b := { st.b with uart_dev_count := 0, def_uart_dev := 0 } }
  let found := env.mraa_find_uart_bus_pci
    "/sys/bus/pci/devices/0000:00:1e.0/dw-apb-uart.6/tty/" (st.b.uart_dev 0).device_path
  let st := { st with b := write_uart_dev st.b 0 (fun e => { e with device_path := found.2 }) }
  if found.1 ≠ MRAA_SUCCESS then
    some { st with log := st.log ++ [syslog_entry.mk LOG_WARNING
      "UP Xtreme: Platform failed to find uart controller"] }
  else do
    let st ← mraa_upxtreme_get_pin_index_into MRAA_PIN_NAME_SIZE "UART_RX"
      (fun b => (b.uart_dev 0).rx)
      (fun b v => write_uart_dev b 0 (fun e => { e with rx := v })) st
    let st ← mraa_upxtreme_get_pin_index_into MRAA_PIN_NAME_SIZE "UART_TX"
      (fun b => (b.uart_dev 0).tx)
      (fun b v => write_uart_dev b 0 (fun e => { e with tx := v })) st
    let st ← mraa_upxtreme_get_pin_index_into MRAA_PIN_NAME_SIZE "UART_CTS"
      (fun b => (b.uart_dev 0).cts)
      (fun b v => write_uart_dev b 0 (fun e => { e with cts := v })) st
    let st ← mraa_upxtreme_get_pin_index_into MRAA_PIN_NAME_SIZE "UART_RTS"
      (fun b => (b.uart_dev 0).rts)
      (fun b v => write_uart_dev b 0 (fun e => { e with rts := v })) st
    some { st with b := { st.b with uart_dev_count := st.b.uart_dev_count + 1 } }

/-- Lines 297 to 302: `Configure ADC #0`. -/
def mraa_upxtreme_adc (MRAA_PIN_NAME_SIZE : Nat) (st : build_state) : Option build_state :=
  let st := { st with b := { st.b with aio_count := 1, adc_raw := 8, adc_supported := 8,
                                       aio_non_seq := 1 } }
  mraa_upxtreme_get_pin_index_into MRAA_PIN_NAME_SIZE "ADC0"
    (fun b => (b.aio_dev 0).pin)
    (fun b v => write_aio_dev b 0 (fun e => { e with pin := v })) st

/-- Lines 143 to 302 of `mraa_upxtreme_i11_board`: everything between the
allocations and the final driver check. -/
def mraa_upxtreme_configure (MRAA_PIN_NAME_SIZE : Nat) (env : platform_env)
    (b : mraa_board_t) : Option build_state := do
  let b ← mraa_upxtreme_set_pins MRAA_PIN_NAME_SIZE b mraa_upxtreme_pininfo_calls
  let st ← mraa_upxtreme_i2c MRAA_PIN_NAME_SIZE env { b := b, log := [] }
  let st := { st with b := { st.b with pwm_dev_count := 0 } }
  let st ← mraa_upxtreme_spi MRAA_PIN_NAME_SIZE st
  let st ← mraa_upxtreme_uart MRAA_PIN_NAME_SIZE env st
  mraa_upxtreme_adc MRAA_PIN_NAME_SIZE st

/-- The `error:` label of `mraa_upxtreme_i11_board`, reached with the heap
`h`: log, `free(b)`, return NULL. -/
def mraa_upxtreme_error (log : List syslog_entry) (h : heap_state) : board_ret :=
  let log := log ++
    [syslog_entry.mk LOG_CRIT ("UP Xtreme i11: Platform failed to initialise")]
  let h := heap_free h heap_block.board
  { ret := none, log := log, allocated := h.allocated, freed := h.freed }

/-- Lines 304 to 312 of `mraa_upxtreme_i11_board`: the two notices and the
final `if (have_pinctrl || have_wmi) return b;` with the `error:` label
after it. -/
def mraa_upxtreme_finish (have_pinctrl have_wmi : Bool) (h : heap_state) (st : build_state) :
    board_ret :=
  let log := st.log ++
    [syslog_entry.mk LOG_NOTICE ("UP Xtreme i11: UP pinctrl driver " ++
       (if have_pinctrl then "" else "un") ++ "available"),
     syslog_entry.mk LOG_NOTICE ("UP Xtreme i11: wmi driver " ++
       (if have_wmi then "" else "un") ++ "available")]
  if have_pinctrl || have_wmi then
    { ret := some st.b, log := log, allocated := h.allocated, freed := h.freed }
  else mraa_upxtreme_error log h

/-- The builder `mraa_upxtreme_i11_board()`.  The result is `none` when the run writes
outside the pin array. -/
def mraa_upxtreme_i11_board (MRAA_PIN_NAME_SIZE : Nat) (env : platform_env) :
    Option board_ret :=
  let have_pinctrl : Bool := env.access "/sys/bus/platform/drivers/upboard-pinctrl" != -1
  let have_wmi : Bool := env.access "/sys/bus/platform/drivers/gpio-aaeon" != -1
  let h := heap_alloc heap_empty env.calloc_board heap_block.board
  if env.calloc_board = false then
    some { ret := none, log := [], allocated := h.allocated, freed := h.freed }
  else
    let b := calloc_mraa_board_t
    let b := { b with platform_name := some "UPXTREME_I11", platform_version := some "1.0.0",
                      phy_pin_count := MRAA_UPXTREME_I11_PINCOUNT,
                      gpio_count := MRAA_UPXTREME_I11_GPIOCOUNT, chardev_capable := 0 }
    let h := heap_alloc h env.malloc_pins heap_block.pins
    if env.malloc_pins = false then
      some (mraa_upxtreme_error [] h)
    else
      let b := { b with pins := malloc_pins_block env MRAA_UPXTREME_I11_PINCOUNT }
      let h := heap_alloc h env.calloc_adv_func heap_block.adv_func
      if env.calloc_adv_func = false then
        some (mraa_upxtreme_error [] (heap_free h heap_block.pins))
      else
        let hooks : mraa_adv_func_t := { aio_get_valid_fp := some "mraa_up_aio_get_valid_fp" }
        let b := { b with adv_func := some hooks }
        (mraa_upxtreme_configure MRAA_PIN_NAME_SIZE env b).map
          (mraa_upxtreme_finish have_pinctrl have_wmi h)

/-! ## Closed forms used by the proofs -/

/-- The resolver loop run over a table of names as given to the pin setter,
with plain equality in place of `strncmp`. -/
def lookup_name (names : List (List Char)) (q : List Char) : Nat → Nat → Option (Option Nat)
  | 0, _ => some none
  | left + 1, i =>
    match names[i]? with
    | none => none
    | some s => if q = s then some (some i) else lookup_name names q left (i + 1)

/-- The names of a list of `set_pininfo` calls, as byte lists. -/
def call_names (calls : List pininfo_call) : List (List Char) :=
  calls.map (fun c => c.name.toList)

/-- The pin descriptor after the writes of one `set_pininfo` call. -/
def written_pin (MRAA_PIN_NAME_SIZE : Nat) (c : pininfo_call) (pin : mraa_pininfo_t) :
    mraa_pininfo_t :=
  mraa_up2_6000_set_pininfo_writes MRAA_PIN_NAME_SIZE pin c.name.toList c.caps
    c.sysfs_pin c.chip c.line

/-- The board after one `Configure I2C adaptor` block whose two pin names
resolve to `sda` and `scl`. -/
def i2c_adaptor_bound (b : mraa_board_t) (i2c_bus_num sda scl : Int) : mraa_board_t :=
  if i2c_bus_num ≠ -1 then
    { b with
      i2c_bus := Function.update b.i2c_bus b.i2c_bus_count.toNat
        { bus_id := i2c_bus_num, sda := sda, scl := scl },
      i2c_bus_count := b.i2c_bus_count + 1 }
  else b

/-- The board after one `Configure SPI #0 CSx` block whose pin names resolve
to `cs`, `mosi`, `miso` and `sclk`. -/
def spi_bus_bound (b : mraa_board_t) (k : Nat) (bus_id slave_s cs mosi miso sclk : Int) :
    mraa_board_t :=
  { b with
    spi_bus := Function.update b.spi_bus k
      { bus_id := bus_id, slave_s := slave_s, cs := cs, mosi := mosi, miso := miso,
        sclk := sclk },
    spi_bus_count := b.spi_bus_count + 1 }

/-- The board after the UART block, given the answer of
`mraa_find_uart_bus_pci` and the indices the four pin names resolve to. -/
def uart_bound (b : mraa_board_t) (found : mraa_result_t × Option String)
    (rx tx cts rts : Int) : mraa_board_t :=
  if found.1 ≠ mraa_result_t.MRAA_SUCCESS then
    { b with
      uart_dev_count := 0, def_uart_dev := 0,
      uart_dev := Function.update b.uart_dev 0
        { b.uart_dev 0 with device_path := found.2 } }
  else
    { b with
      uart_dev_count := 0 + 1, def_uart_dev := 0,
      uart_dev := Function.update b.uart_dev 0
        { rx := rx, tx := tx, cts := cts, rts := rts, device_path := found.2 } }

/-- The board after one PWM channel assignment of the `Configure PWM` block. -/
def pwm_channel_bound (b : mraa_board_t) (k : Nat) (channel : Nat) : mraa_board_t :=
  { b with
    pins := b.pins.modify
      (fun p => { p with pwm := { p.pwm with parent_id := 0, pinmap := channel } }) k,
    pwm_dev_count := b.pwm_dev_count + 1 }

/-- The pin array holds the names of the calls: the count is the number of
calls, every name given to the setter is NUL-free and at most ten bytes long,
the name size is at least ten, and pin `k` stores the name of call `k`. -/
def populated (MRAA_PIN_NAME_SIZE : Nat) (calls : List pininfo_call) (b : mraa_board_t) :
    Prop :=
  10 ≤ MRAA_PIN_NAME_SIZE ∧
  (∀ s ∈ call_names calls, NUL ∉ s ∧ s.length ≤ 10) ∧
  b.phy_pin_count = (calls.length : Int) ∧
  b.pins.map (fun p => p.name) = (call_names calls).map (fun s => strncpy s MRAA_PIN_NAME_SIZE)

/-- The string literal `q` is NUL-free, at most ten bytes long, and first
occurs at position `j` among the names of the calls. -/
def resolves_to (calls : List pininfo_call) (q : String) (j : Nat) : Prop :=
  NUL ∉ q.toList ∧ q.toList.length ≤ 10 ∧
  lookup_name (call_names calls) q.toList calls.length 0 = some (some j)

/-- The board record of `mraa_up2_6000_board` after its three allocations,
for `MRAA_UP2_6000_PINCOUNT = 81`. -/
def mraa_up2_6000_allocated (env : platform_env) : mraa_board_t :=
  { calloc_mraa_board_t with
    platform_name := some "UP2_6000", platform_version := some "1.0.0",
    phy_pin_count := 81, gpio_count := MRAA_UP2_6000_GPIOCOUNT, chardev_capable := 0,
    pins := malloc_pins_block env 81,
    adv_func := some { aio_get_valid_fp := none } }

/-- The answer of `mraa_find_uart_bus_pci` in `mraa_up2_6000_board`. -/
def mraa_up2_6000_uart_found (env : platform_env) (b : mraa_board_t) :
    mraa_result_t × Option String :=
  env.mraa_find_uart_bus_pci "/sys/bus/pci/devices/0000:00:1e.1/dw-apb-uart.9/tty/"
    (b.uart_dev 0).device_path

/-- Closed form of lines 202 to 237 of `mraa_up2_6000_board`. -/
def mraa_up2_6000_i2c_bound (env : platform_env) (b : mraa_board_t) : mraa_board_t :=
  let b := { b with i2c_bus_count := 0, def_i2c_bus := 0 }
  let b := i2c_adaptor_bound b
    (env.mraa_find_i2c_bus_pci "0000:00" "0000:00:15.3" "i2c_designware.4") 3 5
  let b := i2c_adaptor_bound b
    (env.mraa_find_i2c_bus_pci "0000:00" "0000:00:19.1" "i2c_designware.6") 27 28
  i2c_adaptor_bound b
    (env.mraa_find_i2c_bus_pci "0000:00" "0000:00:15.2" "i2c_designware.3") 79 80

/-- Closed form of lines 239 to 264 of `mraa_up2_6000_board`. -/
def mraa_up2_6000_pwm_bound (b : mraa_board_t) : mraa_board_t :=
  let b := { b with pwm_dev_count := 0, def_pwm_dev := 0, pwm_default_period := 5000,
                    pwm_max_period := 218453, pwm_min_period := 1 }
  let b := pwm_channel_bound b 32 1
  let b := pwm_channel_bound b 33 2
  let b := pwm_channel_bound b 68 3
  let b := pwm_channel_bound b 70 4
  let b := pwm_channel_bound b 66 5
  pwm_channel_bound b 69 6

/-- Closed form of lines 266 to 286 of `mraa_up2_6000_board`. -/
def mraa_up2_6000_spi_bound (b : mraa_board_t) : mraa_board_t :=
  let b := { b with spi_bus_count := 0, def_spi_bus := 0 }
  let b := spi_bus_bound b 0 2 0 24 19 21 23
  spi_bus_bound b 1 1 1 26 19 21 23

/-- Closed form of lines 119 to 305 of `mraa_up2_6000_board` on a board with
81 pins: the board it leaves. -/
def mraa_up2_6000_configured (MRAA_PIN_NAME_SIZE : Nat) (env : platform_env)
    (b0 : mraa_board_t) : mraa_board_t :=
  let pins := List.zipWith (written_pin MRAA_PIN_NAME_SIZE) mraa_up2_6000_pininfo_calls b0.pins
  let b := { b0 with pins := pins }
  let b := mraa_up2_6000_i2c_bound env b
  let b := mraa_up2_6000_pwm_bound b
  let b := mraa_up2_6000_spi_bound b
  let b := uart_bound b (mraa_up2_6000_uart_found env b0) 10 8 36 11
  { b with aio_count := 0 }

/-- The messages of lines 119 to 305 of `mraa_up2_6000_board` on a board
with 81 pins. -/
def mraa_up2_6000_configured_log (env : platform_env) (b : mraa_board_t) : List syslog_entry :=
  if (mraa_up2_6000_uart_found env b).1 ≠ mraa_result_t.MRAA_SUCCESS then
    [syslog_entry.mk syslog_priority.LOG_WARNING
      "UP2 6000: Platform failed to find uart controller"]
  else []

/-- The board record of `mraa_upxtreme_i11_board` after its three
allocations. -/
def mraa_upxtreme_allocated (env : platform_env) : mraa_board_t :=
  { calloc_mraa_board_t with
    platform_name := some "UPXTREME_I11", platform_version := some "1.0.0",
    phy_pin_count := MRAA_UPXTREME_I11_PINCOUNT, gpio_count := MRAA_UPXTREME_I11_GPIOCOUNT,
    chardev_capable := 0,
    pins := malloc_pins_block env MRAA_UPXTREME_I11_PINCOUNT,
    adv_func := some { aio_get_valid_fp := some "mraa_up_aio_get_valid_fp" } }

/-- The answer of `mraa_find_uart_bus_pci` in `mraa_upxtreme_i11_board`. -/
def mraa_upxtreme_uart_found (env : platform_env) (b : mraa_board_t) :
    mraa_result_t × Option String :=
  env.mraa_find_uart_bus_pci "/sys/bus/pci/devices/0000:00:1e.0/dw-apb-uart.6/tty/"
    (b.uart_dev 0).device_path

/-- Closed form of lines 226 to 254 of `mraa_upxtreme_i11_board`. -/
def mraa_upxtreme_i2c_bound (env : platform_env) (b : mraa_board_t) : mraa_board_t :=
  let b := { b with i2c_bus_count := 0, def_i2c_bus := 0 }
  let b := i2c_adaptor_bound b
    (env.mraa_find_i2c_bus_pci "0000:00" "0000:00:19.0" "i2c_designware.4") 3 5
  i2c_adaptor_bound b
    (env.mraa_find_i2c_bus_pci "0000:00" "0000:00:15.3" "i2c_designware.3") 27 28

/-- The warnings of lines 226 to 254 of `mraa_upxtreme_i11_board`. -/
def mraa_upxtreme_i2c_log (env : platform_env) : List syslog_entry :=
  (if env.mraa_find_i2c_bus_pci "0000:00" "0000:00:19.0" "i2c_designware.4" ≠ -1 then []
   else [syslog_entry.mk syslog_priority.LOG_WARNING
     "UP Xtreme: Platform failed to find I2C0 controller"]) ++
  (if env.mraa_find_i2c_bus_pci "0000:00" "0000:00:15.3" "i2c_designware.3" ≠ -1 then []
   else [syslog_entry.mk syslog_priority.LOG_WARNING
     "UP Xtreme: Platform failed to find I2C1 controller"])

/-- Closed form of lines 259 to 279 of `mraa_upxtreme_i11_board`. -/
def mraa_upxtreme_spi_bound (b : mraa_board_t) : mraa_board_t :=
  let b := { b with spi_bus_count := 0, def_spi_bus := 0 }
  let b := spi_bus_bound b 0 0 0 24 19 21 23
  spi_bus_bound b 1 0 1 26 19 21 23

/-- Closed form of lines 143 to 302 of `mraa_upxtreme_i11_board`: the board
it leaves. -/
def mraa_upxtreme_configured (MRAA_PIN_NAME_SIZE : Nat) (env : platform_env)
    (b0 : mraa_board_t) : mraa_board_t :=
  let pins := List.zipWith (written_pin MRAA_PIN_NAME_SIZE) mraa_upxtreme_pininfo_calls b0.pins
  let b := { b0 with pins := pins }
  let b := mraa_upxtreme_i2c_bound env b
  let b := { b with pwm_dev_count := 0 }
  let b := mraa_upxtreme_spi_bound b
  let b := uart_bound b (mraa_upxtreme_uart_found env b0) 10 8 36 11
  { b with aio_count := 1, adc_raw := 8, adc_supported := 8, aio_non_seq := 1,
           aio_dev := Function.update b.aio_dev 0 { pin := 7 } }

/-- The messages of lines 143 to 302 of `mraa_upxtreme_i11_board`. -/
def mraa_upxtreme_configured_log (env : platform_env) (b : mraa_board_t) :
    List syslog_entry :=
  mraa_upxtreme_i2c_log env ++
  (if (mraa_upxtreme_uart_found env b).1 ≠ mraa_result_t.MRAA_SUCCESS then
    [syslog_entry.mk syslog_priority.LOG_WARNING
      "UP Xtreme: Platform failed to find uart controller"]
   else [])

/-- The board returned by `mraa_up2_6000_board` when its allocations succeed,
for `MRAA_UP2_6000_PINCOUNT = 81` and a name size of at least ten. -/
def mraa_up2_6000_built (MRAA_PIN_NAME_SIZE : Nat) (env : platform_env) : mraa_board_t :=
  mraa_up2_6000_configured MRAA_PIN_NAME_SIZE env (mraa_up2_6000_allocated env)

/-- The messages of `mraa_up2_6000_board` when its allocations succeed. -/
def mraa_up2_6000_built_log (env : platform_env) : List syslog_entry :=
  mraa_up2_6000_configured_log env (mraa_up2_6000_allocated env) ++
  [syslog_entry.mk syslog_priority.LOG_NOTICE ("up2 6000: kernel WMI pinctrl driver " ++
    (if (env.access "/sys/bus/platform/drivers/gpio-aaeon" != -1) = true then "" else "un")
    ++ "available")]

/-- The board built by `mraa_upxtreme_i11_board` when its allocations
succeed, for a name size of at least ten. -/
def mraa_upxtreme_built (MRAA_PIN_NAME_SIZE : Nat) (env : platform_env) : mraa_board_t :=
  mraa_upxtreme_configured MRAA_PIN_NAME_SIZE env (mraa_upxtreme_allocated env)

/-- Whether one of the two drivers probed by `mraa_upxtreme_i11_board` is
present. -/
def mraa_upxtreme_have_driver (env : platform_env) : Bool :=
  (env.access "/sys/bus/platform/drivers/upboard-pinctrl" != -1) ||
  (env.access "/sys/bus/platform/drivers/gpio-aaeon" != -1)

/-- The messages of `mraa_upxtreme_i11_board` up to the final driver check,
when its allocations succeed. -/
def mraa_upxtreme_built_log (env : platform_env) : List syslog_entry :=
  mraa_upxtreme_configured_log env (mraa_upxtreme_allocated env) ++
  [syslog_entry.mk syslog_priority.LOG_NOTICE ("UP Xtreme i11: UP pinctrl driver " ++
     (if (env.access "/sys/bus/platform/drivers/upboard-pinctrl" != -1) = true then ""
      else "un") ++ "available"),
   syslog_entry.mk syslog_priority.LOG_NOTICE ("UP Xtreme i11: wmi driver " ++
     (if (env.access "/sys/bus/platform/drivers/gpio-aaeon" != -1) = true then ""
      else "un") ++ "available")]

/-- Pin `i` of the board exists and its stored name compares equal to `name`
under `strncmp(name, pins[i].name, MRAA_PIN_NAME_SIZE)`. -/
def name_matches (MRAA_PIN_NAME_SIZE : Nat) (board : mraa_board_t) (name : List Char)
    (i : Nat) : Prop :=
  ∃ pin, board.pins[i]? = some pin ∧ strncmp name pin.name MRAA_PIN_NAME_SIZE = 0

/-! ## Concrete inputs -/

/-- A pin descriptor as found in a fresh heap block: stale bytes. -/
def stale_pin : mraa_pininfo_t :=
  { name := "stale".toList, capabilities := caps_of 1 1 1 1 1 1 1 1,
    gpio := ⟨7, 7, 7, 7, 7⟩, pwm := ⟨7, 7, 7, 7, 7⟩, aio := ⟨7, 7, 7, 7, 7⟩,
    i2c := ⟨7, 7, 7, 7, 7⟩, spi := ⟨7, 7, 7, 7, 7⟩, uart := ⟨7, 7, 7, 7, 7⟩ }

/-- A pin whose name was stored with a name size of twelve. -/
def pin_named (s : String) : mraa_pininfo_t :=
  { stale_pin with name := strncpy s.toList 12 }

/-- A board of three pins named `INVALID`, `5v`, `5v`. -/
def sample_board : mraa_board_t :=
  { calloc_mraa_board_t with
    phy_pin_count := 3, pins := [pin_named "INVALID", pin_named "5v", pin_named "5v"] }

/-- A system where every allocation succeeds, every adapter and the UART
are found, and both drivers are present. -/
def env_all_present : platform_env :=
  { calloc_board := true, malloc_pins := true, calloc_adv_func := true,
    malloc_bytes := fun _ => stale_pin,
    mraa_find_i2c_bus_pci := fun _ _ driver =>
      if driver = "i2c_designware.4" then 1 else if driver = "i2c_designware.6" then 2 else 0,
    mraa_find_uart_bus_pci := fun _ _ => (MRAA_SUCCESS, some "/dev/ttyS4"),
    access := fun _ => 0 }

/-- As `env_all_present`, but only the primary I2C adapter of each board
(driver instance `i2c_designware.4`) is found. -/
def env_primary_i2c_only : platform_env :=
  { env_all_present with
    mraa_find_i2c_bus_pci := fun _ _ driver => if driver = "i2c_designware.4" then 1 else -1 }

/-- As `env_all_present`, but no I2C adapter is found. -/
def env_no_i2c : platform_env :=
  { env_all_present with mraa_find_i2c_bus_pci := fun _ _ _ => -1 }

/-- As `env_no_i2c`, and neither driver directory exists. -/
def env_no_i2c_no_driver : platform_env :=
  { env_no_i2c with access := fun _ => -1 }

/-- As `env_all_present`, but the UART is not found. -/
def env_no_uart : platform_env :=
  { env_all_present with
    mraa_find_uart_bus_pci := fun _ old => (MRAA_ERROR_INVALID_RESOURCE, old) }

/-! ## Properties stated by the claims -/

/-- The capability set with all eight flags false. -/
def no_capabilities : mraa_pincapabilities_t :=
  { valid := false, gpio := false, pwm := false, fast_gpio := false, spi := false,
    i2c := false, aio := false, uart := false }

/-- Pin 0 is the invalid sentinel: it is named `INVALID` and has no flag set. -/
def has_invalid_sentinel (b : mraa_board_t) : Prop :=
  ∃ pin, b.pins[0]? = some pin ∧ c_str pin.name = "INVALID".toList ∧
    pin.capabilities = no_capabilities

/-- The value `index` is the index of a pin of the board whose capability `flag` is
set. -/
def pin_has (b : mraa_board_t) (index : Int) (flag : mraa_pincapabilities_t → Bool) : Prop :=
  0 ≤ index ∧ ∃ pin, b.pins[index.toNat]? = some pin ∧ flag pin.capabilities = true

/-- The value `index` is the index of a pin of the board whose stored name reads
`name`. -/
def pin_named_at (b : mraa_board_t) (index : Int) (name : String) : Prop :=
  0 ≤ index ∧ ∃ pin, b.pins[index.toNat]? = some pin ∧ c_str pin.name = name.toList

/-- Every bus entry below its count refers to pins that have the flag of
the bus: I2C entries to `i2c` pins, SPI entries to `spi` pins, UART entries
to `uart` pins, analog entries to `aio` pins. -/
def bus_pins_have_capabilities (b : mraa_board_t) : Prop :=
  (∀ k : Nat, (k : Int) < b.i2c_bus_count →
    pin_has b (b.i2c_bus k).sda (fun c => c.i2c) ∧
    pin_has b (b.i2c_bus k).scl (fun c => c.i2c)) ∧
  (∀ k : Nat, (k : Int) < b.spi_bus_count →
    pin_has b (b.spi_bus k).cs (fun c => c.spi) ∧
    pin_has b (b.spi_bus k).mosi (fun c => c.spi) ∧
    pin_has b (b.spi_bus k).miso (fun c => c.spi) ∧
    pin_has b (b.spi_bus k).sclk (fun c => c.spi)) ∧
  (∀ k : Nat, (k : Int) < b.uart_dev_count →
    pin_has b (b.uart_dev k).rx (fun c => c.uart) ∧
    pin_has b (b.uart_dev k).tx (fun c => c.uart) ∧
    pin_has b (b.uart_dev k).cts (fun c => c.uart) ∧
    pin_has b (b.uart_dev k).rts (fun c => c.uart)) ∧
  (∀ k : Nat, (k : Int) < b.aio_count → pin_has b (b.aio_dev k).pin (fun c => c.aio))

/-- Call `index` of the table has the capability `flag`. -/
def call_has (calls : List pininfo_call) (index : Int) (flag : mraa_pincapabilities_t → Bool) :
    Prop :=
  0 ≤ index ∧ (calls[index.toNat]?).map (fun c => flag c.caps) = some true


/-- Resolving the name stored in pin `i` succeeds with the first index `j`
(at or below `i`) whose pin stores the same name. -/
def resolves_to_first_same_name
    (resolver : mraa_board_t → List Char → Int → Option get_pin_index_ret)
    (b : mraa_board_t) (i : Nat) : Prop :=
  ∃ (j : Nat) (pin_i : mraa_pininfo_t), b.pins[i]? = some pin_i ∧ j ≤ i ∧
    (∃ pin_j, b.pins[j]? = some pin_j ∧ pin_j.name = pin_i.name) ∧
    (∀ k, k < j → ∀ pin_k, b.pins[k]? = some pin_k → pin_k.name ≠ pin_i.name) ∧
    ∀ old : Int, resolver b pin_i.name old
      = some { result := MRAA_SUCCESS, pin_index := (j : Int), log := [] }

/-! ## Further inputs -/

/-- As `env_all_present`, but neither driver directory exists. -/
def env_no_driver : platform_env :=
  { env_all_present with access := fun _ => -1 }

/-- As `env_all_present`, but `calloc` of the board record fails. -/
def env_no_board_memory : platform_env :=
  { env_all_present with calloc_board := false }

/-- As `env_all_present`, but `malloc` of the pin array fails. -/
def env_no_pins_memory : platform_env :=
  { env_all_present with malloc_pins := false }

/-- As `env_all_present`, but `calloc` of the advanced-function table
fails. -/
def env_no_adv_func_memory : platform_env :=
  { env_all_present with calloc_adv_func := false }

/-! ## Properties stated by the claims on construction and on the setter -/

/-- The three allocations of a builder run succeed. -/
def allocations_succeed (env : platform_env) : Prop :=
  env.calloc_board = true ∧ env.malloc_pins = true ∧ env.calloc_adv_func = true

/-- The builder run ends and hands a board to its caller. -/
def returns_board (run : Option board_ret) : Prop :=
  ∃ (r : board_ret) (b : mraa_board_t), run = some r ∧ r.ret = some b

/-- The builder run ends and hands NULL to its caller, having released
every block it obtained, each of them once. -/
def returns_null_and_releases (run : Option board_ret) : Prop :=
  ∃ r : board_ret, run = some r ∧ r.ret = none ∧ r.freed.Perm r.allocated

/-- The name is one of `GND`, `3.3v` and `5v`, the names the pin tables give
to ground and power pins. -/
def ground_or_power_name (s : List Char) : Bool :=
  s == "GND".toList || s == "3.3v".toList || s == "5v".toList

/-- The builder run ends and hands NULL to its caller; the blocks it has
obtained are `obtained` and the blocks it has released are `released`, in
the order of the calls. -/
def returns_null_with_heap (run : Option board_ret) (obtained released : List heap_block) :
    Prop :=
  ∃ r : board_ret, run = some r ∧ r.ret = none ∧ r.allocated = obtained ∧
    r.freed = released

/-- The stored name of the pin reads `GND`, `3.3v` or `5v`. -/
def is_ground_or_power (pin : mraa_pininfo_t) : Prop :=
  ground_or_power_name (c_str pin.name) = true

/-- The six bindings of `pin` are those of `old`. -/
def same_bindings (old pin : mraa_pininfo_t) : Prop :=
  pin.gpio = old.gpio ∧ pin.pwm = old.pwm ∧ pin.aio = old.aio ∧ pin.i2c = old.i2c ∧
  pin.spi = old.spi ∧ pin.uart = old.uart

/-- Every ground or power pin of the board has no capability flag set, and
its six bindings still hold the bytes the pin array had when `malloc`
returned it. -/
def ground_and_power_pins_untouched (env : platform_env) (b : mraa_board_t) : Prop :=
  ∀ (k : Nat) (pin : mraa_pininfo_t), b.pins[k]? = some pin → is_ground_or_power pin →
    pin.capabilities = no_capabilities ∧ same_bindings (env.malloc_bytes k) pin

/-- Nothing but pin `i` differs between the two boards. -/
def only_pin_changed (before after : mraa_board_t) (i : Nat) : Prop :=
  after = { before with pins := after.pins } ∧
  after.pins.length = before.pins.length ∧
  ∀ k : Nat, k ≠ i → after.pins[k]? = before.pins[k]?

/-- Each binding of `pin` whose flag is false in `caps` is the one of `old`. -/
def unflagged_bindings_kept (caps : mraa_pincapabilities_t) (old pin : mraa_pininfo_t) :
    Prop :=
  (caps.gpio = false → pin.gpio = old.gpio) ∧
  (caps.pwm = false → pin.pwm = old.pwm) ∧
  (caps.aio = false → pin.aio = old.aio) ∧
  (caps.i2c = false → pin.i2c = old.i2c) ∧
  (caps.spi = false → pin.spi = old.spi) ∧
  (caps.uart = false → pin.uart = old.uart)

/-- Each binding of `pin` whose flag is set in `caps` holds the values the
setter writes for it; the three gpio arguments are C `int`s stored in
`unsigned int` fields. -/
def flagged_bindings_written (caps : mraa_pincapabilities_t) (sysfs_pin chip line : Int)
    (pin : mraa_pininfo_t) : Prop :=
  (caps.gpio = true → pin.gpio.pinmap = unsigned_int sysfs_pin ∧
    pin.gpio.gpio_chip = unsigned_int chip ∧ pin.gpio.gpio_line = unsigned_int line ∧
    pin.gpio.mux_total = 0) ∧
  (caps.pwm = true → pin.pwm.parent_id = 0 ∧ pin.pwm.pinmap = 0 ∧ pin.pwm.mux_total = 0) ∧
  (caps.aio = true → pin.aio.pinmap = 0 ∧ pin.aio.mux_total = 0) ∧
  (caps.i2c = true → pin.i2c.pinmap = 1 ∧ pin.i2c.mux_total = 0) ∧
  (caps.spi = true → pin.spi.mux_total = 0) ∧
  (caps.uart = true → pin.uart.mux_total = 0)

/-- The code and the index of a resolver run, and the priorities of its
messages: everything but the message text. -/
def get_pin_index_outcome (g : get_pin_index_ret) :
    mraa_result_t × Int × List syslog_priority :=
  (g.result, g.pin_index, g.log.map (fun e => e.priority))

/-! ## Properties stated by the claims on the bus tables and the pin array -/

/-- An I2C adapter as a builder declares it: the number `mraa_find_i2c_bus_pci`
returned for it (-1 when it is absent) and the names of its two pins. -/
structure declared_adaptor where
  i2c_bus_num : Int
  sda_name : String
  scl_name : String
  deriving DecidableEq, Repr

/-- The three adapters of `mraa_up2_6000_board` in the order of the source,
with the numbers discovery returns for them. -/
def mraa_up2_6000_declared_adaptors (env : platform_env) : List declared_adaptor :=
  [declared_adaptor.mk
      (env.mraa_find_i2c_bus_pci "0000:00" "0000:00:15.3" "i2c_designware.4")
      "I2C_SDA" "I2C_SCL",
   declared_adaptor.mk
      (env.mraa_find_i2c_bus_pci "0000:00" "0000:00:19.1" "i2c_designware.6")
      "ID_SD" "ID_SC",
   declared_adaptor.mk
      (env.mraa_find_i2c_bus_pci "0000:00" "0000:00:15.2" "i2c_designware.3")
      "I2C2_SDA" "I2C2_SCL"]

/-- The two adapters of `mraa_upxtreme_i11_board` in the order of the source,
with the numbers discovery returns for them. -/
def mraa_upxtreme_declared_adaptors (env : platform_env) : List declared_adaptor :=
  [declared_adaptor.mk
      (env.mraa_find_i2c_bus_pci "0000:00" "0000:00:19.0" "i2c_designware.4")
      "I2C_SDA" "I2C_SCL",
   declared_adaptor.mk
      (env.mraa_find_i2c_bus_pci "0000:00" "0000:00:15.3" "i2c_designware.3")
      "ID_SD" "ID_SC"]

/-- The declared adapters for which discovery returned a number other than
-1, in declaration order. -/
def found_adaptors (declared : List declared_adaptor) : List declared_adaptor :=
  declared.filter (fun a => a.i2c_bus_num != -1)

/-- The I2C table of the board is the list `found`: the count is its length,
and entry `k` has the number of adapter `k` as `bus_id` and, as `sda` and
`scl`, the indices the resolver gives for the two pin names of adapter `k`,
which are indices of pins storing those names. -/
def i2c_buses_are (resolver : mraa_board_t → List Char → Int → Option get_pin_index_ret)
    (b : mraa_board_t) (found : List declared_adaptor) : Prop :=
  b.i2c_bus_count = (found.length : Int) ∧
  ∀ (k : Nat) (a : declared_adaptor), found[k]? = some a →
    (b.i2c_bus k).bus_id = a.i2c_bus_num ∧
    (∀ old : Int, resolver b a.sda_name.toList old
      = some { result := MRAA_SUCCESS, pin_index := (b.i2c_bus k).sda, log := [] }) ∧
    (∀ old : Int, resolver b a.scl_name.toList old
      = some { result := MRAA_SUCCESS, pin_index := (b.i2c_bus k).scl, log := [] }) ∧
    pin_named_at b (b.i2c_bus k).sda a.sda_name ∧
    pin_named_at b (b.i2c_bus k).scl a.scl_name

/-- The first entries of the I2C table of the board are the entries of the
list, and the count is the length of the list. -/
def i2c_entries_hold (b : mraa_board_t) (entries : List mraa_i2c_bus_t) : Prop :=
  b.i2c_bus_count = (entries.length : Int) ∧
  ∀ (k : Nat) (e : mraa_i2c_bus_t), entries[k]? = some e → b.i2c_bus k = e

/-- An adapter together with the indices its two pin names resolve to. -/
structure resolved_adaptor where
  adaptor : declared_adaptor
  sda : Int
  scl : Int

/-- The I2C entry a found adapter gives. -/
def resolved_adaptor.entry (x : resolved_adaptor) : mraa_i2c_bus_t :=
  { bus_id := x.adaptor.i2c_bus_num, sda := x.sda, scl := x.scl }

/-- The adaptor blocks of a builder in closed form, one after the other. -/
def i2c_adaptors_bound (b : mraa_board_t) (adaptors : List resolved_adaptor) : mraa_board_t :=
  adaptors.foldl (fun b x => i2c_adaptor_bound b x.adaptor.i2c_bus_num x.sda x.scl) b

/-- As `env_all_present`, but the primary I2C adapter of each board (driver
instance `i2c_designware.4`) is absent; every other adapter gets number 6. -/
def env_no_primary_i2c : platform_env :=
  { env_all_present with
    mraa_find_i2c_bus_pci := fun _ _ driver => if driver = "i2c_designware.4" then -1 else 6 }

/-- Runs the `set_pininfo` calls of a table one after the other, as the
builders do, and collects the code each call returns. -/
def set_pins_codes
    (set_pininfo : mraa_board_t → Int → List Char → mraa_pincapabilities_t → Int → Int → Int →
      Option set_pininfo_ret) :
    mraa_board_t → List pininfo_call → Option (mraa_board_t × List mraa_result_t)
  | b, [] => some (b, [])
  | b, c :: rest =>
    match set_pininfo b c.mraa_index c.name.toList c.caps c.sysfs_pin c.chip c.line with
    | none => none
    | some r => (set_pins_codes set_pininfo r.board rest).map (fun p => (p.1, r.result :: p.2))

/-- The pin array has `phy_pin_count` descriptors, and the descriptor at
every index below the count carries the name and the capabilities of the
call of the table made for that index. -/
def every_pin_populated (MRAA_PIN_NAME_SIZE : Nat) (calls : List pininfo_call)
    (b : mraa_board_t) : Prop :=
  b.phy_pin_count = (b.pins.length : Int) ∧
  ∀ k : Nat, (k : Int) < b.phy_pin_count →
    ∃ (pin : mraa_pininfo_t) (c : pininfo_call), b.pins[k]? = some pin ∧
      calls[k]? = some c ∧ c.mraa_index = (k : Int) ∧
      pin.name = strncpy c.name.toList MRAA_PIN_NAME_SIZE ∧ pin.capabilities = c.caps


/-- The adapters of `mraa_up2_6000_board` with the indices their pin names
resolve to on the table of the board. -/
def mraa_up2_6000_resolved_adaptors (env : platform_env) : List resolved_adaptor :=
  List.zipWith (fun a (p : Int × Int) => resolved_adaptor.mk a p.1 p.2)
    (mraa_up2_6000_declared_adaptors env) [(3, 5), (27, 28), (79, 80)]

/-- The adapters of `mraa_upxtreme_i11_board` with the indices their pin names
resolve to on the table of the board. -/
def mraa_upxtreme_resolved_adaptors (env : platform_env) : List resolved_adaptor :=
  List.zipWith (fun a (p : Int × Int) => resolved_adaptor.mk a p.1 p.2)
    (mraa_upxtreme_declared_adaptors env) [(3, 5), (27, 28)]

/-- The base of the raw GPIO numbers of a chip on the UP2 6000, as the table
pairs chips with community bases: chip 0 with `MRAA_UP2_6000_COMMUNITY0_BASE`, chip 1 with
`MRAA_UP2_6000_COMMUNITY1_BASE`, chip 3 with `MRAA_UP2_6000_COMMUNITY4_BASE`; no base for any other
chip. -/
def mraa_up2_6000_chip_base (chip : Nat) : Option Nat :=
  if chip = 0 then some MRAA_UP2_6000_COMMUNITY0_BASE.toNat
  else if chip = 1 then some MRAA_UP2_6000_COMMUNITY1_BASE.toNat
  else if chip = 3 then some MRAA_UP2_6000_COMMUNITY4_BASE.toNat
  else none

/-- The base of the raw GPIO numbers of a chip on the UP Xtreme i11: chip 0
starts at `MRAA_UPXTREME_I11_CHIP_BASE`, chip 1 at 0; no base for any other chip. -/
def mraa_upxtreme_chip_base (chip : Nat) : Option Nat :=
  if chip = 0 then some MRAA_UPXTREME_I11_CHIP_BASE.toNat
  else if chip = 1 then some 0
  else none

/-- A pin with the gpio flag has `gpio.pinmap = base(gpio_chip) + gpio_line`.
The fields are unsigned, so `gpio_chip` is never negative, and a chip
without a base fails the check. -/
def gpio_number_consistent (base : Nat → Option Nat) (pin : mraa_pininfo_t) : Bool :=
  !pin.capabilities.gpio ||
    match base pin.gpio.gpio_chip with
    | some chip_base => pin.gpio.pinmap == chip_base + pin.gpio.gpio_line
    | none => false

/-- The valid flag is set exactly when one of the seven function flags is. -/
def valid_flag_consistent (pin : mraa_pininfo_t) : Bool :=
  pin.capabilities.valid ==
    (pin.capabilities.gpio || pin.capabilities.pwm || pin.capabilities.fast_gpio ||
      pin.capabilities.spi || pin.capabilities.i2c || pin.capabilities.aio ||
      pin.capabilities.uart)

/-- The indices of the pins for which the check fails, in increasing order. -/
def failing_pins (check : mraa_pininfo_t → Bool) (b : mraa_board_t) : List Nat :=
  (b.pins.enum.filter (fun x => !check x.2)).map (fun x => x.1)

/-- The pairs of indices `i < j` of gpio-capable pins with the same
`gpio.pinmap`. -/
def shared_pinmaps (b : mraa_board_t) : List (Nat × Nat) :=
  let gpio_pins := (b.pins.enum.filter (fun x => x.2.capabilities.gpio)).map
    (fun x => (x.1, x.2.gpio.pinmap))
  (gpio_pins.map (fun x => (gpio_pins.filter
    (fun y => decide (x.1 < y.1) && x.2 == y.2)).map (fun y => (x.1, y.1)))).flatten

/-! ## `strncmp` and `strncpy` -/

theorem char_sub_eq_zero_iff (a b : Char) : ((a.toNat : Int) - (b.toNat : Int) = 0) ↔ a = b := by
  constructor
  · intro h
    have h2 : a.toNat = b.toNat := by omega
    calc a = Char.ofNat a.toNat := (Char.ofNat_toNat a).symm
      _ = Char.ofNat b.toNat := by rw [h2]
      _ = b := Char.ofNat_toNat b
  · rintro rfl
    omega

theorem c_str_nil : c_str [] = [] := rfl

theorem c_str_cons_nul (s : List Char) : c_str (NUL :: s) = [] := by
  simp [c_str]

theorem c_str_cons_of_ne {c : Char} (h : c ≠ NUL) (s : List Char) :
    c_str (c :: s) = c :: c_str s := by
  simp [c_str, h]

theorem c_str_of_byte_at_nul {s : List Char} (h : byte_at s = NUL) : c_str s = [] := by
  cases s with
  | nil => rfl
  | cons c cs =>
    have : c = NUL := h
    subst this
    exact c_str_cons_nul cs

theorem c_str_of_byte_at_ne {s : List Char} (h : byte_at s ≠ NUL) :
    c_str s = byte_at s :: c_str s.tail := by
  cases s with
  | nil => exact absurd rfl h
  | cons c cs => exact c_str_cons_of_ne h cs

theorem c_str_of_clean {s : List Char} (h : NUL ∉ s) : c_str s = s := by
  induction s with
  | nil => rfl
  | cons c cs ih =>
    have hc : c ≠ NUL := fun hh => h (by simp [hh])
    have hcs : NUL ∉ cs := fun hh => h (by simp [hh])
    rw [c_str_cons_of_ne hc, ih hcs]

/-- The comparison `strncmp` returns `0` exactly when the two C strings agree on their
first `n` bytes. -/
theorem strncmp_eq_zero_iff (n : Nat) : ∀ (a b : List Char),
    strncmp a b n = 0 ↔ (c_str a).take n = (c_str b).take n := by
  induction n with
  | zero => intro a b; simp [strncmp]
  | succ n ih =>
    intro a b
    rw [strncmp]
    by_cases hne : byte_at a = byte_at b
    · by_cases hz : byte_at a = NUL
      · have hzb : byte_at b = NUL := hne ▸ hz
        simp [hne, hzb, c_str_of_byte_at_nul hz, c_str_of_byte_at_nul hzb]
      · have hzb : byte_at b ≠ NUL := hne ▸ hz
        rw [c_str_of_byte_at_ne hz, c_str_of_byte_at_ne hzb]
        simp only [hne, ne_eq, not_true_eq_false, if_false, hzb, List.take_succ_cons,
          List.cons.injEq, true_and]
        exact ih a.tail b.tail
    · simp only [ne_eq, hne, not_false_eq_true, if_true, char_sub_eq_zero_iff, false_iff]
      by_cases hza : byte_at a = NUL
      · have hzb : byte_at b ≠ NUL := fun h => hne (hza.trans h.symm)
        rw [c_str_of_byte_at_nul hza, c_str_of_byte_at_ne hzb]
        simp
      · rw [c_str_of_byte_at_ne hza]
        by_cases hzb : byte_at b = NUL
        · rw [c_str_of_byte_at_nul hzb]
          simp
        · rw [c_str_of_byte_at_ne hzb]
          simp [hne]

theorem strncpy_length (n : Nat) : ∀ s : List Char, (strncpy s n).length = n := by
  induction n with
  | zero => intro s; rfl
  | succ n ih =>
    intro s
    rw [strncpy]
    split <;> simp [ih]

/-- The C string left in the array by `strncpy` is the source cut after
`n` bytes. -/
theorem c_str_strncpy_take (n : Nat) : ∀ s : List Char,
    (c_str (strncpy s n)).take n = (c_str s).take n := by
  induction n with
  | zero => intro s; simp
  | succ n ih =>
    intro s
    rw [strncpy]
    by_cases hz : byte_at s = NUL
    · simp [hz, c_str_cons_nul, c_str_of_byte_at_nul hz]
    · simp only [hz, if_false]
      rw [c_str_cons_of_ne hz, c_str_of_byte_at_ne hz]
      simp [ih]

/-- Comparing a query with a name stored by `strncpy`: they match exactly
when query and given name agree on their first `n` bytes. -/
theorem strncmp_strncpy_eq_zero_iff (n : Nat) (q s : List Char) :
    strncmp q (strncpy s n) n = 0 ↔ (c_str q).take n = (c_str s).take n := by
  rw [strncmp_eq_zero_iff, c_str_strncpy_take]

theorem strncmp_strncpy_clean (n : Nat) (q s : List Char) (hq : NUL ∉ q) (hs : NUL ∉ s)
    (hql : q.length ≤ n) (hsl : s.length ≤ n) :
    strncmp q (strncpy s n) n = 0 ↔ q = s := by
  rw [strncmp_strncpy_eq_zero_iff, c_str_of_clean hq, c_str_of_clean hs,
    List.take_of_length_le hql, List.take_of_length_le hsl]

/-! ## The resolver loop -/

theorem upxtreme_loop_eq_up2_loop (N : Nat) (pins : List mraa_pininfo_t) (name : List Char) :
    ∀ left i, mraa_upxtreme_get_pin_index_loop N pins name left i =
      mraa_up2_6000_get_pin_index_loop N pins name left i := by
  intro left
  induction left with
  | zero => intro i; rfl
  | succ left ih =>
    intro i
    simp only [mraa_upxtreme_get_pin_index_loop, mraa_up2_6000_get_pin_index_loop, ih]

theorem name_matches_lt_length {N : Nat} {board : mraa_board_t} {name : List Char} {j : Nat}
    (h : name_matches N board name j) : j < board.pins.length := by
  obtain ⟨pin, hp, _⟩ := h
  by_contra hlt
  rw [List.getElem?_eq_none (Nat.le_of_not_lt hlt)] at hp
  cases hp

theorem loop_found (N : Nat) (board : mraa_board_t) (name : List Char) :
    ∀ (left i j : Nat), i ≤ j → j < i + left → name_matches N board name j →
      (∀ k, i ≤ k → k < j → ¬ name_matches N board name k) →
      mraa_up2_6000_get_pin_index_loop N board.pins name left i = some (some j) := by
  intro left
  induction left with
  | zero => intro i j h1 h2; omega
  | succ left ih =>
    intro i j hij hlt hm hfirst
    have hjlen := name_matches_lt_length hm
    have hilen : i < board.pins.length := by omega
    rw [mraa_up2_6000_get_pin_index_loop, List.getElem?_eq_getElem hilen]
    by_cases hc : strncmp name board.pins[i].name N = 0
    · have hmi : name_matches N board name i := ⟨_, List.getElem?_eq_getElem hilen, hc⟩
      have : i = j := by
        by_contra hne
        exact hfirst i (Nat.le_refl i) (by omega) hmi
      subst this
      simp only [hc, if_true]
    · have hne : i ≠ j := by
        rintro rfl
        obtain ⟨pin, hp, hz⟩ := hm
        rw [List.getElem?_eq_getElem hilen] at hp
        cases hp
        exact hc hz
      simp only [hc, if_false]
      exact ih (i + 1) j (by omega) (by omega) hm (fun k hk1 hk2 => hfirst k (by omega) hk2)

theorem loop_not_found (N : Nat) (board : mraa_board_t) (name : List Char) :
    ∀ (left i : Nat), i + left ≤ board.pins.length →
      (∀ k, i ≤ k → k < i + left → ¬ name_matches N board name k) →
      mraa_up2_6000_get_pin_index_loop N board.pins name left i = some none := by
  intro left
  induction left with
  | zero => intro i _ _; rfl
  | succ left ih =>
    intro i hlen hno
    have hilen : i < board.pins.length := by omega
    rw [mraa_up2_6000_get_pin_index_loop, List.getElem?_eq_getElem hilen]
    have hc : ¬ strncmp name board.pins[i].name N = 0 := fun hz =>
      hno i (Nat.le_refl i) (by omega) ⟨_, List.getElem?_eq_getElem hilen, hz⟩
    simp only [hc, if_false]
    exact ih (i + 1) (by omega) (fun k hk1 hk2 => hno k (by omega) (by omega))

theorem first_match_exists {N : Nat} {board : mraa_board_t} {name : List Char} {i : Nat}
    (hm : name_matches N board name i) :
    ∃ j, j ≤ i ∧ name_matches N board name j ∧ ∀ k, k < j → ¬ name_matches N board name k := by
  classical
  have hex : ∃ j, name_matches N board name j := ⟨i, hm⟩
  exact ⟨Nat.find hex, Nat.find_min' hex hm, Nat.find_spec hex, fun k hk => Nat.find_min hex hk⟩

/-- When some pin below the count matches, the loop returns the first
matching index. -/
theorem loop_first_match (N : Nat) (board : mraa_board_t) (name : List Char) (i : Nat)
    (hi : (i : Int) < board.phy_pin_count) (hm : name_matches N board name i) :
    ∃ j : Nat, j ≤ i ∧ name_matches N board name j ∧
      (∀ k, k < j → ¬ name_matches N board name k) ∧
      mraa_up2_6000_get_pin_index_loop N board.pins name board.phy_pin_count.toNat 0
        = some (some j) := by
  obtain ⟨j, hji, hmj, hfirst⟩ := first_match_exists hm
  exact ⟨j, hji, hmj, hfirst,
    loop_found N board name _ 0 j (Nat.zero_le j) (by omega) hmj (fun k _ hk => hfirst k hk)⟩

theorem getElem?_names_of_map_eq {N : Nat} {pins : List mraa_pininfo_t}
    {names : List (List Char)}
    (hn : pins.map (fun p => p.name) = names.map (fun s => strncpy s N)) (i : Nat) :
    (pins[i]?).map (fun p => p.name) = (names[i]?).map (fun s => strncpy s N) := by
  rw [← List.getElem?_map, ← List.getElem?_map, hn]

theorem loop_eq_lookup_name (N : Nat) (pins : List mraa_pininfo_t) (names : List (List Char))
    (q : List Char)
    (hn : pins.map (fun p => p.name) = names.map (fun s => strncpy s N))
    (hclean : ∀ s ∈ names, NUL ∉ s ∧ s.length ≤ N) (hq : NUL ∉ q) (hql : q.length ≤ N) :
    ∀ left i, mraa_up2_6000_get_pin_index_loop N pins q left i = lookup_name names q left i := by
  intro left
  induction left with
  | zero => intro i; rfl
  | succ left ih =>
    intro i
    rw [mraa_up2_6000_get_pin_index_loop, lookup_name]
    have h := getElem?_names_of_map_eq hn i
    cases hp : pins[i]? with
    | none =>
      rw [hp] at h
      cases hs : names[i]? with
      | none => rfl
      | some s => rw [hs] at h; cases h
    | some pin =>
      rw [hp] at h
      cases hs : names[i]? with
      | none => rw [hs] at h; cases h
      | some s =>
        rw [hs] at h
        have hname : pin.name = strncpy s N := by simpa using h
        have hmem : s ∈ names := List.getElem?_mem hs
        have hiff := strncmp_strncpy_clean N q s hq (hclean s hmem).1 hql (hclean s hmem).2
        simp only [hname, hiff, ih]

theorem up2_get_pin_index_of_loop {N : Nat} {board : mraa_board_t} {name : List Char} {j : Nat}
    (old : Int)
    (h : mraa_up2_6000_get_pin_index_loop N board.pins name board.phy_pin_count.toNat 0
      = some (some j)) :
    mraa_up2_6000_get_pin_index N board name old
      = some { result := MRAA_SUCCESS, pin_index := (j : Int), log := [] } := by
  simp [mraa_up2_6000_get_pin_index, h]

theorem upxtreme_get_pin_index_of_loop {N : Nat} {board : mraa_board_t} {name : List Char}
    {j : Nat} (old : Int)
    (h : mraa_up2_6000_get_pin_index_loop N board.pins name board.phy_pin_count.toNat 0
      = some (some j)) :
    mraa_upxtreme_get_pin_index N board name old
      = some { result := MRAA_SUCCESS, pin_index := (j : Int), log := [] } := by
  simp [mraa_upxtreme_get_pin_index, upxtreme_loop_eq_up2_loop, h]

/-! ## The `set_pininfo` calls of a builder -/

theorem upxtreme_writes_eq (N : Nat) (pin : mraa_pininfo_t) (name : List Char)
    (caps : mraa_pincapabilities_t) (sysfs_pin chip line : Int) :
    mraa_upxtreme_set_pininfo_writes N pin name caps sysfs_pin chip line
      = mraa_up2_6000_set_pininfo_writes N pin name caps sysfs_pin chip line := rfl

theorem upxtreme_set_pininfo_eq (N : Nat) (board : mraa_board_t) (mraa_index : Int)
    (name : List Char) (caps : mraa_pincapabilities_t) (sysfs_pin chip line : Int) :
    mraa_upxtreme_set_pininfo N board mraa_index name caps sysfs_pin chip line
      = mraa_up2_6000_set_pininfo N board mraa_index name caps sysfs_pin chip line := rfl

theorem upxtreme_set_pins_eq (N : Nat) (calls : List pininfo_call) :
    ∀ b, mraa_upxtreme_set_pins N b calls = mraa_up2_6000_set_pins N b calls := by
  induction calls with
  | nil => intro b; rfl
  | cons c rest ih =>
    intro b
    simp only [mraa_upxtreme_set_pins, mraa_up2_6000_set_pins, upxtreme_set_pininfo_eq, ih]

theorem written_pin_name (N : Nat) (c : pininfo_call) (pin : mraa_pininfo_t) :
    (written_pin N c pin).name = strncpy c.name.toList N := by
  obtain ⟨idx, nm, ⟨v, g, p, f, s, i, a, u⟩, sp, ch, ln⟩ := c
  cases g <;> cases p <;> cases s <;> cases i <;> cases a <;> cases u <;> rfl

theorem written_pin_capabilities (N : Nat) (c : pininfo_call) (pin : mraa_pininfo_t) :
    (written_pin N c pin).capabilities = c.caps := by
  obtain ⟨idx, nm, ⟨v, g, p, f, s, i, a, u⟩, sp, ch, ln⟩ := c
  cases g <;> cases p <;> cases s <;> cases i <;> cases a <;> cases u <;> rfl

/-- Calls whose indices count up from the current position fill the array
one descriptor after the other. -/
theorem set_pins_seq (N : Nat) : ∀ (calls : List pininfo_call) (pre post : List mraa_pininfo_t)
    (b : mraa_board_t), b.pins = pre ++ post → post.length = calls.length →
    calls.map (fun c => c.mraa_index)
      = (List.range' pre.length calls.length).map (fun (k : Nat) => (k : Int)) →
    b.phy_pin_count = ((pre.length + calls.length : Nat) : Int) →
    mraa_up2_6000_set_pins N b calls
      = some { b with pins := pre ++ List.zipWith (written_pin N) calls post } := by
  intro calls
  induction calls with
  | nil =>
    intro pre post b hp hlen _ _
    have : post = [] := List.length_eq_zero.mp hlen
    subst this
    have hp2 : pre = b.pins := by simpa using hp.symm
    subst hp2
    simp [mraa_up2_6000_set_pins]
  | cons c rest ih =>
    intro pre post b hp hlen hidx hcnt
    cases post with
    | nil => simp at hlen
    | cons p ps =>
      simp only [List.length_cons, List.map_cons, List.range'_succ, List.cons.injEq] at hlen hidx hcnt
      obtain ⟨hc, hrest⟩ := hidx
      have hlt : c.mraa_index < b.phy_pin_count := by rw [hc, hcnt]; omega
      have hnn : ¬ c.mraa_index < 0 := by rw [hc]; omega
      have hget : b.pins[c.mraa_index.toNat]? = some p := by
        rw [hc, hp, Int.toNat_ofNat, List.getElem?_append_right (Nat.le_refl _)]
        simp
      have hset : b.pins.set c.mraa_index.toNat (written_pin N c p)
          = (pre ++ [written_pin N c p]) ++ ps := by
        rw [hc, hp]
        simp
      rw [mraa_up2_6000_set_pins, mraa_up2_6000_set_pininfo]
      simp only [hlt, hnn, if_true, if_false, hget]
      have h := ih (pre ++ [written_pin N c p]) ps
        { b with pins := b.pins.set c.mraa_index.toNat (written_pin N c p) } hset
        (by omega) (by simpa using hrest) (by simp [hcnt]; omega)
      simp only [written_pin] at h ⊢
      rw [h]
      simp
      rfl

/-! ## The bus blocks of the builders, once the pin names resolve -/

theorem populated_loop {N : Nat} {calls : List pininfo_call} {b : mraa_board_t} {q : String}
    {j : Nat} (hpop : populated N calls b) (hres : resolves_to calls q j) :
    mraa_up2_6000_get_pin_index_loop N b.pins q.toList b.phy_pin_count.toNat 0
      = some (some j) := by
  obtain ⟨hN, hclean, hcnt, hnames⟩ := hpop
  obtain ⟨hq, hql, hj⟩ := hres
  rw [loop_eq_lookup_name N b.pins (call_names calls) q.toList hnames
    (fun s hs => ⟨(hclean s hs).1, Nat.le_trans (hclean s hs).2 hN⟩) hq (Nat.le_trans hql hN),
    hcnt, Int.toNat_ofNat]
  exact hj

theorem populated_congr {N : Nat} {calls : List pininfo_call} (b : mraa_board_t)
    {b2 : mraa_board_t}
    (hp : b2.pins = b.pins) (hc : b2.phy_pin_count = b.phy_pin_count)
    (h : populated N calls b) : populated N calls b2 := by
  unfold populated at h ⊢
  rw [hp, hc]
  exact h

theorem up2_get_pin_index_into_eq {N : Nat} {calls : List pininfo_call} {q : String} {j : Nat}
    (hres : resolves_to calls q j) (field : mraa_board_t → Int)
    (set_field : mraa_board_t → Int → mraa_board_t) (st : build_state)
    (hpop : populated N calls st.b) :
    mraa_up2_6000_get_pin_index_into N q field set_field st
      = some { b := set_field st.b (j : Int), log := st.log } := by
  unfold mraa_up2_6000_get_pin_index_into
  rw [up2_get_pin_index_of_loop _ (populated_loop hpop hres)]
  simp

theorem upxtreme_get_pin_index_into_eq {N : Nat} {calls : List pininfo_call} {q : String}
    {j : Nat} (hres : resolves_to calls q j) (field : mraa_board_t → Int)
    (set_field : mraa_board_t → Int → mraa_board_t) (st : build_state)
    (hpop : populated N calls st.b) :
    mraa_upxtreme_get_pin_index_into N q field set_field st
      = some { b := set_field st.b (j : Int), log := st.log } := by
  unfold mraa_upxtreme_get_pin_index_into
  rw [upxtreme_get_pin_index_of_loop _ (populated_loop hpop hres)]
  simp

theorem up2_i2c_adaptor_eq {N : Nat} {calls : List pininfo_call} {sda scl : String}
    {jsda jscl : Nat} (h1 : resolves_to calls sda jsda) (h2 : resolves_to calls scl jscl)
    (st : build_state) (num : Int) (hpop : populated N calls st.b) :
    mraa_up2_6000_i2c_adaptor N st num sda scl
      = some { b := i2c_adaptor_bound st.b num jsda jscl, log := st.log } := by
  unfold mraa_up2_6000_i2c_adaptor i2c_adaptor_bound
  by_cases hnum : num = -1
  · simp [hnum]
  · simp only [ne_eq, hnum, not_false_eq_true, if_true, Option.bind_eq_bind]
    rw [up2_get_pin_index_into_eq h1, Option.some_bind,
      up2_get_pin_index_into_eq h2, Option.some_bind]
    · simp [write_i2c_bus]
    all_goals (unfold populated at hpop ⊢; simpa only [write_i2c_bus] using hpop)

theorem upxtreme_i2c_adaptor_eq {N : Nat} {calls : List pininfo_call} {sda scl : String}
    {jsda jscl : Nat} (h1 : resolves_to calls sda jsda) (h2 : resolves_to calls scl jscl)
    (st : build_state) (num : Int) (warning : String) (hpop : populated N calls st.b) :
    mraa_upxtreme_i2c_adaptor N st num sda scl warning
      = some { b := i2c_adaptor_bound st.b num jsda jscl,
               log := st.log ++
                 (if num ≠ -1 then [] else [syslog_entry.mk LOG_WARNING warning]) } := by
  unfold mraa_upxtreme_i2c_adaptor i2c_adaptor_bound
  by_cases hnum : num = -1
  · simp [hnum]
  · simp only [ne_eq, hnum, not_false_eq_true, if_true, Option.bind_eq_bind]
    rw [upxtreme_get_pin_index_into_eq h1, Option.some_bind,
      upxtreme_get_pin_index_into_eq h2, Option.some_bind]
    · simp [write_i2c_bus]
    all_goals (unfold populated at hpop ⊢; simpa only [write_i2c_bus] using hpop)

theorem up2_spi_bus_eq {N : Nat} {calls : List pininfo_call} {cs_name : String}
    {jcs jmosi jmiso jsclk : Nat} (h1 : resolves_to calls cs_name jcs)
    (h2 : resolves_to calls "SPI0_MOSI" jmosi) (h3 : resolves_to calls "SPI0_MISO" jmiso)
    (h4 : resolves_to calls "SPI0_CLK" jsclk) (st : build_state) (k : Nat)
    (bus_id slave_s : Int) (hpop : populated N calls st.b) :
    mraa_up2_6000_spi_bus N st k bus_id slave_s cs_name
      = some { b := spi_bus_bound st.b k bus_id slave_s jcs jmosi jmiso jsclk,
               log := st.log } := by
  unfold mraa_up2_6000_spi_bus spi_bus_bound
  simp only [Option.bind_eq_bind]
  rw [up2_get_pin_index_into_eq h1, Option.some_bind,
    up2_get_pin_index_into_eq h2, Option.some_bind,
    up2_get_pin_index_into_eq h3, Option.some_bind,
    up2_get_pin_index_into_eq h4, Option.some_bind]
  · simp [write_spi_bus]
  all_goals (unfold populated at hpop ⊢; simpa only [write_spi_bus] using hpop)

theorem upxtreme_spi_bus_eq {N : Nat} {calls : List pininfo_call} {cs_name : String}
    {jcs jmosi jmiso jsclk : Nat} (h1 : resolves_to calls cs_name jcs)
    (h2 : resolves_to calls "SPI0_MOSI" jmosi) (h3 : resolves_to calls "SPI0_MISO" jmiso)
    (h4 : resolves_to calls "SPI0_CLK" jsclk) (st : build_state) (k : Nat)
    (bus_id slave_s : Int) (hpop : populated N calls st.b) :
    mraa_upxtreme_spi_bus N st k bus_id slave_s cs_name
      = some { b := spi_bus_bound st.b k bus_id slave_s jcs jmosi jmiso jsclk,
               log := st.log } := by
  unfold mraa_upxtreme_spi_bus spi_bus_bound
  simp only [Option.bind_eq_bind]
  rw [upxtreme_get_pin_index_into_eq h1, Option.some_bind,
    upxtreme_get_pin_index_into_eq h2, Option.some_bind,
    upxtreme_get_pin_index_into_eq h3, Option.some_bind,
    upxtreme_get_pin_index_into_eq h4, Option.some_bind]
  · simp [write_spi_bus]
  all_goals (unfold populated at hpop ⊢; simpa only [write_spi_bus] using hpop)

theorem up2_uart_eq {N : Nat} {calls : List pininfo_call} {jrx jtx jcts jrts : Nat}
    (h1 : resolves_to calls "UART_RX" jrx)
    (h2 : resolves_to calls "UART_TX" jtx) (h3 : resolves_to calls "UART_CTS" jcts)
    (h4 : resolves_to calls "UART_RTS" jrts) (env : platform_env) (st : build_state)
    (hpop : populated N calls st.b) :
    mraa_up2_6000_uart N env st
      = some { b := uart_bound st.b (mraa_up2_6000_uart_found env st.b) jrx jtx jcts jrts,
               log := st.log ++ mraa_up2_6000_configured_log env st.b } := by
  unfold mraa_up2_6000_uart uart_bound mraa_up2_6000_configured_log mraa_up2_6000_uart_found
  dsimp only
  generalize env.mraa_find_uart_bus_pci _ _ = found
  obtain ⟨r, dp⟩ := found
  by_cases hf : r = MRAA_SUCCESS
  · subst hf
    simp only [ne_eq, not_true_eq_false, if_false, Option.bind_eq_bind]
    rw [up2_get_pin_index_into_eq h1, Option.some_bind,
      up2_get_pin_index_into_eq h2, Option.some_bind,
      up2_get_pin_index_into_eq h3, Option.some_bind,
      up2_get_pin_index_into_eq h4, Option.some_bind]
    · simp [write_uart_dev]
    all_goals (unfold populated at hpop ⊢; simpa only [write_uart_dev] using hpop)
  · simp only [ne_eq, hf, not_false_eq_true, if_true, write_uart_dev]

theorem upxtreme_uart_eq {N : Nat} {calls : List pininfo_call} {jrx jtx jcts jrts : Nat}
    (h1 : resolves_to calls "UART_RX" jrx)
    (h2 : resolves_to calls "UART_TX" jtx) (h3 : resolves_to calls "UART_CTS" jcts)
    (h4 : resolves_to calls "UART_RTS" jrts) (env : platform_env) (st : build_state)
    (hpop : populated N calls st.b) :
    mraa_upxtreme_uart N env st
      = some { b := uart_bound st.b (mraa_upxtreme_uart_found env st.b) jrx jtx jcts jrts,
               log := st.log ++
                 (if (mraa_upxtreme_uart_found env st.b).1 ≠ MRAA_SUCCESS then
                    [syslog_entry.mk LOG_WARNING
                      "UP Xtreme: Platform failed to find uart controller"]
                  else []) } := by
  unfold mraa_upxtreme_uart uart_bound mraa_upxtreme_uart_found
  dsimp only
  generalize env.mraa_find_uart_bus_pci _ _ = found
  obtain ⟨r, dp⟩ := found
  by_cases hf : r = MRAA_SUCCESS
  · subst hf
    simp only [ne_eq, not_true_eq_false, if_false, Option.bind_eq_bind]
    rw [upxtreme_get_pin_index_into_eq h1, Option.some_bind,
      upxtreme_get_pin_index_into_eq h2, Option.some_bind,
      upxtreme_get_pin_index_into_eq h3, Option.some_bind,
      upxtreme_get_pin_index_into_eq h4, Option.some_bind]
    · simp [write_uart_dev]
    all_goals (unfold populated at hpop ⊢; simpa only [write_uart_dev] using hpop)
  · simp only [ne_eq, hf, not_false_eq_true, if_true, write_uart_dev]

theorem upxtreme_adc_eq {N : Nat} {calls : List pininfo_call} {jadc : Nat}
    (h1 : resolves_to calls "ADC0" jadc) (st : build_state)
    (hpop : populated N calls st.b) :
    mraa_upxtreme_adc N st
      = some { b := { st.b with aio_count := 1, adc_raw := 8, adc_supported := 8,
                                aio_non_seq := 1,
                                aio_dev := Function.update st.b.aio_dev 0 { pin := jadc } },
               log := st.log } := by
  unfold mraa_upxtreme_adc
  dsimp only
  rw [upxtreme_get_pin_index_into_eq h1]
  · simp [write_aio_dev]
  · unfold populated at hpop ⊢; simpa only [write_aio_dev] using hpop

theorem write_pin_eq (b : mraa_board_t) (k : Nat) (f : mraa_pininfo_t → mraa_pininfo_t)
    (hk : k < b.pins.length) :
    write_pin b k f = some { b with pins := b.pins.modify f k } := by
  unfold write_pin
  rw [List.getElem?_eq_getElem hk]
  simp only [Option.some.injEq]
  congr 1
  exact (List.modify_eq_set_get f hk).symm

theorem up2_pwm_channel_eq (b : mraa_board_t) (k : Nat) (channel : Nat)
    (hk : k < b.pins.length) :
    mraa_up2_6000_pwm_channel b k channel = some (pwm_channel_bound b k channel) := by
  unfold mraa_up2_6000_pwm_channel pwm_channel_bound
  rw [write_pin_eq b k _ hk]
  simp only [Option.bind_eq_bind, Option.some_bind]
  rw [write_pin_eq _ k _ (by simpa using hk)]
  simp only [Option.some_bind, Option.some.injEq]
  congr 1
  apply List.ext_getElem?
  intro n
  by_cases hn : k = n
  · subst hn
    simp [List.getElem?_modify_eq, Option.map_map]
    cases b.pins[k]? <;> rfl
  · simp [List.getElem?_modify_ne, hn]

/-! ## Where the names used by the builders first occur in their tables -/

theorem up2_resolves_I2C_SDA : resolves_to mraa_up2_6000_pininfo_calls "I2C_SDA" 3 :=
  ⟨by decide, by decide, by decide⟩

theorem up2_resolves_I2C_SCL : resolves_to mraa_up2_6000_pininfo_calls "I2C_SCL" 5 :=
  ⟨by decide, by decide, by decide⟩

theorem up2_resolves_ID_SD : resolves_to mraa_up2_6000_pininfo_calls "ID_SD" 27 :=
  ⟨by decide, by decide, by decide⟩

theorem up2_resolves_ID_SC : resolves_to mraa_up2_6000_pininfo_calls "ID_SC" 28 :=
  ⟨by decide, by decide, by decide⟩

theorem up2_resolves_I2C2_SDA : resolves_to mraa_up2_6000_pininfo_calls "I2C2_SDA" 79 :=
  ⟨by decide, by decide, by decide⟩

theorem up2_resolves_I2C2_SCL : resolves_to mraa_up2_6000_pininfo_calls "I2C2_SCL" 80 :=
  ⟨by decide, by decide, by decide⟩

theorem up2_resolves_SPI0_CS0 : resolves_to mraa_up2_6000_pininfo_calls "SPI0_CS0" 24 :=
  ⟨by decide, by decide, by decide⟩

theorem up2_resolves_SPI0_CS1 : resolves_to mraa_up2_6000_pininfo_calls "SPI0_CS1" 26 :=
  ⟨by decide, by decide, by decide⟩

theorem up2_resolves_SPI0_MOSI : resolves_to mraa_up2_6000_pininfo_calls "SPI0_MOSI" 19 :=
  ⟨by decide, by decide, by decide⟩

theorem up2_resolves_SPI0_MISO : resolves_to mraa_up2_6000_pininfo_calls "SPI0_MISO" 21 :=
  ⟨by decide, by decide, by decide⟩

theorem up2_resolves_SPI0_CLK : resolves_to mraa_up2_6000_pininfo_calls "SPI0_CLK" 23 :=
  ⟨by decide, by decide, by decide⟩

theorem up2_resolves_UART_RX : resolves_to mraa_up2_6000_pininfo_calls "UART_RX" 10 :=
  ⟨by decide, by decide, by decide⟩

theorem up2_resolves_UART_TX : resolves_to mraa_up2_6000_pininfo_calls "UART_TX" 8 :=
  ⟨by decide, by decide, by decide⟩

theorem up2_resolves_UART_CTS : resolves_to mraa_up2_6000_pininfo_calls "UART_CTS" 36 :=
  ⟨by decide, by decide, by decide⟩

theorem up2_resolves_UART_RTS : resolves_to mraa_up2_6000_pininfo_calls "UART_RTS" 11 :=
  ⟨by decide, by decide, by decide⟩

theorem upxtreme_resolves_I2C_SDA : resolves_to mraa_upxtreme_pininfo_calls "I2C_SDA" 3 :=
  ⟨by decide, by decide, by decide⟩

theorem upxtreme_resolves_I2C_SCL : resolves_to mraa_upxtreme_pininfo_calls "I2C_SCL" 5 :=
  ⟨by decide, by decide, by decide⟩

theorem upxtreme_resolves_ID_SD : resolves_to mraa_upxtreme_pininfo_calls "ID_SD" 27 :=
  ⟨by decide, by decide, by decide⟩

theorem upxtreme_resolves_ID_SC : resolves_to mraa_upxtreme_pininfo_calls "ID_SC" 28 :=
  ⟨by decide, by decide, by decide⟩

theorem upxtreme_resolves_SPI0_CS0 : resolves_to mraa_upxtreme_pininfo_calls "SPI0_CS0" 24 :=
  ⟨by decide, by decide, by decide⟩

theorem upxtreme_resolves_SPI0_CS1 : resolves_to mraa_upxtreme_pininfo_calls "SPI0_CS1" 26 :=
  ⟨by decide, by decide, by decide⟩

theorem upxtreme_resolves_SPI0_MOSI : resolves_to mraa_upxtreme_pininfo_calls "SPI0_MOSI" 19 :=
  ⟨by decide, by decide, by decide⟩

theorem upxtreme_resolves_SPI0_MISO : resolves_to mraa_upxtreme_pininfo_calls "SPI0_MISO" 21 :=
  ⟨by decide, by decide, by decide⟩

theorem upxtreme_resolves_SPI0_CLK : resolves_to mraa_upxtreme_pininfo_calls "SPI0_CLK" 23 :=
  ⟨by decide, by decide, by decide⟩

theorem upxtreme_resolves_UART_RX : resolves_to mraa_upxtreme_pininfo_calls "UART_RX" 10 :=
  ⟨by decide, by decide, by decide⟩

theorem upxtreme_resolves_UART_TX : resolves_to mraa_upxtreme_pininfo_calls "UART_TX" 8 :=
  ⟨by decide, by decide, by decide⟩

theorem upxtreme_resolves_UART_CTS : resolves_to mraa_upxtreme_pininfo_calls "UART_CTS" 36 :=
  ⟨by decide, by decide, by decide⟩

theorem upxtreme_resolves_UART_RTS : resolves_to mraa_upxtreme_pininfo_calls "UART_RTS" 11 :=
  ⟨by decide, by decide, by decide⟩

theorem upxtreme_resolves_ADC0 : resolves_to mraa_upxtreme_pininfo_calls "ADC0" 7 :=
  ⟨by decide, by decide, by decide⟩

/-! ## Capabilities of the calls the bus tables refer to -/

theorem up2_call_3_has_i2c : call_has mraa_up2_6000_pininfo_calls 3 (fun c => c.i2c) :=
  ⟨by decide, by decide⟩

theorem up2_call_5_has_i2c : call_has mraa_up2_6000_pininfo_calls 5 (fun c => c.i2c) :=
  ⟨by decide, by decide⟩

theorem up2_call_27_has_i2c : call_has mraa_up2_6000_pininfo_calls 27 (fun c => c.i2c) :=
  ⟨by decide, by decide⟩

theorem up2_call_28_has_i2c : call_has mraa_up2_6000_pininfo_calls 28 (fun c => c.i2c) :=
  ⟨by decide, by decide⟩

theorem up2_call_79_has_i2c : call_has mraa_up2_6000_pininfo_calls 79 (fun c => c.i2c) :=
  ⟨by decide, by decide⟩

theorem up2_call_80_has_i2c : call_has mraa_up2_6000_pininfo_calls 80 (fun c => c.i2c) :=
  ⟨by decide, by decide⟩

theorem up2_call_24_has_spi : call_has mraa_up2_6000_pininfo_calls 24 (fun c => c.spi) :=
  ⟨by decide, by decide⟩

theorem up2_call_19_has_spi : call_has mraa_up2_6000_pininfo_calls 19 (fun c => c.spi) :=
  ⟨by decide, by decide⟩

theorem up2_call_21_has_spi : call_has mraa_up2_6000_pininfo_calls 21 (fun c => c.spi) :=
  ⟨by decide, by decide⟩

theorem up2_call_23_has_spi : call_has mraa_up2_6000_pininfo_calls 23 (fun c => c.spi) :=
  ⟨by decide, by decide⟩

theorem up2_call_26_has_spi : call_has mraa_up2_6000_pininfo_calls 26 (fun c => c.spi) :=
  ⟨by decide, by decide⟩

theorem up2_call_10_has_uart : call_has mraa_up2_6000_pininfo_calls 10 (fun c => c.uart) :=
  ⟨by decide, by decide⟩

theorem up2_call_8_has_uart : call_has mraa_up2_6000_pininfo_calls 8 (fun c => c.uart) :=
  ⟨by decide, by decide⟩

theorem up2_call_36_has_uart : call_has mraa_up2_6000_pininfo_calls 36 (fun c => c.uart) :=
  ⟨by decide, by decide⟩

theorem up2_call_11_has_uart : call_has mraa_up2_6000_pininfo_calls 11 (fun c => c.uart) :=
  ⟨by decide, by decide⟩

theorem upxtreme_call_3_has_i2c : call_has mraa_upxtreme_pininfo_calls 3 (fun c => c.i2c) :=
  ⟨by decide, by decide⟩

theorem upxtreme_call_5_has_i2c : call_has mraa_upxtreme_pininfo_calls 5 (fun c => c.i2c) :=
  ⟨by decide, by decide⟩

theorem upxtreme_call_27_has_i2c : call_has mraa_upxtreme_pininfo_calls 27 (fun c => c.i2c) :=
  ⟨by decide, by decide⟩

theorem upxtreme_call_28_has_i2c : call_has mraa_upxtreme_pininfo_calls 28 (fun c => c.i2c) :=
  ⟨by decide, by decide⟩

theorem upxtreme_call_24_has_spi : call_has mraa_upxtreme_pininfo_calls 24 (fun c => c.spi) :=
  ⟨by decide, by decide⟩

theorem upxtreme_call_19_has_spi : call_has mraa_upxtreme_pininfo_calls 19 (fun c => c.spi) :=
  ⟨by decide, by decide⟩

theorem upxtreme_call_21_has_spi : call_has mraa_upxtreme_pininfo_calls 21 (fun c => c.spi) :=
  ⟨by decide, by decide⟩

theorem upxtreme_call_23_has_spi : call_has mraa_upxtreme_pininfo_calls 23 (fun c => c.spi) :=
  ⟨by decide, by decide⟩

theorem upxtreme_call_26_has_spi : call_has mraa_upxtreme_pininfo_calls 26 (fun c => c.spi) :=
  ⟨by decide, by decide⟩

theorem upxtreme_call_10_has_uart : call_has mraa_upxtreme_pininfo_calls 10 (fun c => c.uart) :=
  ⟨by decide, by decide⟩

theorem upxtreme_call_8_has_uart : call_has mraa_upxtreme_pininfo_calls 8 (fun c => c.uart) :=
  ⟨by decide, by decide⟩

theorem upxtreme_call_36_has_uart : call_has mraa_upxtreme_pininfo_calls 36 (fun c => c.uart) :=
  ⟨by decide, by decide⟩

theorem upxtreme_call_11_has_uart : call_has mraa_upxtreme_pininfo_calls 11 (fun c => c.uart) :=
  ⟨by decide, by decide⟩

theorem upxtreme_call_7_has_aio : call_has mraa_upxtreme_pininfo_calls 7 (fun c => c.aio) :=
  ⟨by decide, by decide⟩

/-! ## Closed form of the two builders -/

theorem map_name_zipWith_written (N : Nat) : ∀ (calls : List pininfo_call)
    (pins : List mraa_pininfo_t), pins.length = calls.length →
    (List.zipWith (written_pin N) calls pins).map (fun p => p.name)
      = (call_names calls).map (fun s => strncpy s N) := by
  intro calls
  induction calls with
  | nil => intro pins _; simp [call_names]
  | cons c rest ih =>
    intro pins hlen
    cases pins with
    | nil => simp at hlen
    | cons p ps =>
      have h := ih ps (by simpa using hlen)
      simp only [call_names] at h ⊢
      simp [written_pin_name, h]

theorem map_capabilities_zipWith_written (N : Nat) : ∀ (calls : List pininfo_call)
    (pins : List mraa_pininfo_t), pins.length = calls.length →
    (List.zipWith (written_pin N) calls pins).map (fun p => p.capabilities)
      = calls.map (fun c => c.caps) := by
  intro calls
  induction calls with
  | nil => intro pins _; simp
  | cons c rest ih =>
    intro pins hlen
    cases pins with
    | nil => simp at hlen
    | cons p ps =>
      have h := ih ps (by simpa using hlen)
      simp [written_pin_capabilities, h]

theorem map_modify_of_fixed {β : Type} (g : mraa_pininfo_t → β)
    (f : mraa_pininfo_t → mraa_pininfo_t) (hf : ∀ p, g (f p) = g p) (k : Nat)
    (pins : List mraa_pininfo_t) : (pins.modify f k).map g = pins.map g := by
  apply List.ext_getElem?
  intro n
  by_cases hn : k = n
  · subst hn
    simp only [List.getElem?_map, List.getElem?_modify_eq, Option.map_map]
    cases pins[k]? <;> simp [hf]
  · simp [List.getElem?_modify_ne, hn]

theorem populated_of_same_names {N : Nat} {calls : List pininfo_call} (b : mraa_board_t)
    {b2 : mraa_board_t}
    (hp : b2.pins.map (fun p => p.name) = b.pins.map (fun p => p.name))
    (hc : b2.phy_pin_count = b.phy_pin_count)
    (h : populated N calls b) : populated N calls b2 := by
  unfold populated at h ⊢
  rw [hp, hc]
  exact h

@[simp] theorem i2c_adaptor_bound_pins (b : mraa_board_t) (n s c : Int) :
    (i2c_adaptor_bound b n s c).pins = b.pins := by
  unfold i2c_adaptor_bound; split <;> rfl

@[simp] theorem i2c_adaptor_bound_phy_pin_count (b : mraa_board_t) (n s c : Int) :
    (i2c_adaptor_bound b n s c).phy_pin_count = b.phy_pin_count := by
  unfold i2c_adaptor_bound; split <;> rfl

@[simp] theorem i2c_adaptor_bound_uart_dev (b : mraa_board_t) (n s c : Int) :
    (i2c_adaptor_bound b n s c).uart_dev = b.uart_dev := by
  unfold i2c_adaptor_bound; split <;> rfl

@[simp] theorem uart_bound_pins (b : mraa_board_t) (f : mraa_result_t × Option String)
    (rx tx cts rts : Int) : (uart_bound b f rx tx cts rts).pins = b.pins := by
  unfold uart_bound; split <;> rfl

@[simp] theorem uart_bound_phy_pin_count (b : mraa_board_t)
    (f : mraa_result_t × Option String) (rx tx cts rts : Int) :
    (uart_bound b f rx tx cts rts).phy_pin_count = b.phy_pin_count := by
  unfold uart_bound; split <;> rfl

theorem populated_i2c_adaptor_bound {N : Nat} {calls : List pininfo_call} {b : mraa_board_t}
    (n s c : Int) (h : populated N calls b) : populated N calls (i2c_adaptor_bound b n s c) :=
  populated_of_same_names b (by simp) (by simp) h

theorem populated_pwm_channel_bound {N : Nat} {calls : List pininfo_call} {b : mraa_board_t}
    (k : Nat) (ch : Nat) (h : populated N calls b) :
    populated N calls (pwm_channel_bound b k ch) :=
  populated_of_same_names b
    (by simp only [pwm_channel_bound]; apply map_modify_of_fixed; intro p; rfl)
    (by simp only [pwm_channel_bound]) h

theorem populated_spi_bus_bound {N : Nat} {calls : List pininfo_call} {b : mraa_board_t}
    (k : Nat) (a1 a2 a3 a4 a5 a6 : Int) (h : populated N calls b) :
    populated N calls (spi_bus_bound b k a1 a2 a3 a4 a5 a6) :=
  populated_of_same_names b (by simp only [spi_bus_bound]) (by simp only [spi_bus_bound]) h

theorem up2_calls_clean : ∀ s ∈ call_names mraa_up2_6000_pininfo_calls,
    NUL ∉ s ∧ s.length ≤ 10 := by decide

theorem upxtreme_calls_clean : ∀ s ∈ call_names mraa_upxtreme_pininfo_calls,
    NUL ∉ s ∧ s.length ≤ 10 := by decide

theorem up2_set_pins_eq (N : Nat) (b : mraa_board_t) (hcnt : b.phy_pin_count = 81)
    (hlen : b.pins.length = 81) :
    mraa_up2_6000_set_pins N b mraa_up2_6000_pininfo_calls
      = some { b with pins :=
          List.zipWith (written_pin N) mraa_up2_6000_pininfo_calls b.pins } := by
  have h := set_pins_seq N mraa_up2_6000_pininfo_calls [] b.pins b rfl
    (by rw [hlen]; rfl) (by decide) (by rw [hcnt]; rfl)
  simpa using h

theorem upxtreme_set_pins_eq2 (N : Nat) (b : mraa_board_t) (hcnt : b.phy_pin_count = 81)
    (hlen : b.pins.length = 81) :
    mraa_upxtreme_set_pins N b mraa_upxtreme_pininfo_calls
      = some { b with pins :=
          List.zipWith (written_pin N) mraa_upxtreme_pininfo_calls b.pins } := by
  have h := set_pins_seq N mraa_upxtreme_pininfo_calls [] b.pins b rfl
    (by rw [hlen]; rfl) (by decide) (by rw [hcnt]; rfl)
  rw [upxtreme_set_pins_eq]
  simpa using h

theorem up2_i2c_eq (N : Nat) (env : platform_env) (st : build_state)
    (hpop : populated N mraa_up2_6000_pininfo_calls st.b) :
    mraa_up2_6000_i2c N env st
      = some { b := mraa_up2_6000_i2c_bound env st.b, log := st.log } := by
  have hpop0 : populated N mraa_up2_6000_pininfo_calls
      { st.b with i2c_bus_count := 0, def_i2c_bus := 0 } :=
    populated_of_same_names st.b rfl rfl hpop
  unfold mraa_up2_6000_i2c mraa_up2_6000_i2c_bound
  simp only [Option.bind_eq_bind]
  rw [up2_i2c_adaptor_eq up2_resolves_I2C_SDA up2_resolves_I2C_SCL, Option.some_bind,
    up2_i2c_adaptor_eq up2_resolves_ID_SD up2_resolves_ID_SC, Option.some_bind,
    up2_i2c_adaptor_eq up2_resolves_I2C2_SDA up2_resolves_I2C2_SCL]
  · rfl
  · exact populated_i2c_adaptor_bound _ _ _ (populated_i2c_adaptor_bound _ _ _ hpop0)
  · exact populated_i2c_adaptor_bound _ _ _ hpop0
  · exact hpop0

theorem upxtreme_i2c_eq (N : Nat) (env : platform_env) (st : build_state)
    (hpop : populated N mraa_upxtreme_pininfo_calls st.b) :
    mraa_upxtreme_i2c N env st
      = some { b := mraa_upxtreme_i2c_bound env st.b,
               log := st.log ++ mraa_upxtreme_i2c_log env } := by
  have hpop0 : populated N mraa_upxtreme_pininfo_calls
      { st.b with i2c_bus_count := 0, def_i2c_bus := 0 } :=
    populated_of_same_names st.b rfl rfl hpop
  unfold mraa_upxtreme_i2c mraa_upxtreme_i2c_bound mraa_upxtreme_i2c_log
  simp only [Option.bind_eq_bind]
  rw [upxtreme_i2c_adaptor_eq upxtreme_resolves_I2C_SDA upxtreme_resolves_I2C_SCL,
    Option.some_bind,
    upxtreme_i2c_adaptor_eq upxtreme_resolves_ID_SD upxtreme_resolves_ID_SC]
  · simp only [List.append_assoc, Nat.cast_ofNat]
  · exact populated_i2c_adaptor_bound _ _ _ hpop0
  · exact hpop0

theorem up2_pwm_eq (b : mraa_board_t) (hlen : b.pins.length = 81) :
    mraa_up2_6000_pwm b = some (mraa_up2_6000_pwm_bound b) := by
  unfold mraa_up2_6000_pwm mraa_up2_6000_pwm_bound
  simp only [Option.bind_eq_bind]
  rw [up2_pwm_channel_eq _ 32 1, Option.some_bind, up2_pwm_channel_eq _ 33 2, Option.some_bind,
    up2_pwm_channel_eq _ 68 3, Option.some_bind, up2_pwm_channel_eq _ 70 4, Option.some_bind,
    up2_pwm_channel_eq _ 66 5, Option.some_bind, up2_pwm_channel_eq _ 69 6]
  all_goals simp [pwm_channel_bound, hlen]

theorem up2_spi_eq (N : Nat) (st : build_state)
    (hpop : populated N mraa_up2_6000_pininfo_calls st.b) :
    mraa_up2_6000_spi N st
      = some { b := mraa_up2_6000_spi_bound st.b, log := st.log } := by
  have hpop0 : populated N mraa_up2_6000_pininfo_calls
      { st.b with spi_bus_count := 0, def_spi_bus := 0 } :=
    populated_of_same_names st.b rfl rfl hpop
  unfold mraa_up2_6000_spi mraa_up2_6000_spi_bound
  simp only [Option.bind_eq_bind]
  rw [up2_spi_bus_eq up2_resolves_SPI0_CS0 up2_resolves_SPI0_MOSI up2_resolves_SPI0_MISO
      up2_resolves_SPI0_CLK, Option.some_bind,
    up2_spi_bus_eq up2_resolves_SPI0_CS1 up2_resolves_SPI0_MOSI up2_resolves_SPI0_MISO
      up2_resolves_SPI0_CLK]
  · rfl
  · exact populated_spi_bus_bound _ _ _ _ _ _ _ hpop0
  · exact hpop0

theorem upxtreme_spi_eq (N : Nat) (st : build_state)
    (hpop : populated N mraa_upxtreme_pininfo_calls st.b) :
    mraa_upxtreme_spi N st
      = some { b := mraa_upxtreme_spi_bound st.b, log := st.log } := by
  have hpop0 : populated N mraa_upxtreme_pininfo_calls
      { st.b with spi_bus_count := 0, def_spi_bus := 0 } :=
    populated_of_same_names st.b rfl rfl hpop
  unfold mraa_upxtreme_spi mraa_upxtreme_spi_bound
  simp only [Option.bind_eq_bind]
  rw [upxtreme_spi_bus_eq upxtreme_resolves_SPI0_CS0 upxtreme_resolves_SPI0_MOSI
      upxtreme_resolves_SPI0_MISO upxtreme_resolves_SPI0_CLK, Option.some_bind,
    upxtreme_spi_bus_eq upxtreme_resolves_SPI0_CS1 upxtreme_resolves_SPI0_MOSI
      upxtreme_resolves_SPI0_MISO upxtreme_resolves_SPI0_CLK]
  · rfl
  · exact populated_spi_bus_bound _ _ _ _ _ _ _ hpop0
  · exact hpop0

@[simp] theorem up2_i2c_bound_pins (env : platform_env) (b : mraa_board_t) :
    (mraa_up2_6000_i2c_bound env b).pins = b.pins := by
  simp [mraa_up2_6000_i2c_bound]

@[simp] theorem up2_i2c_bound_phy_pin_count (env : platform_env) (b : mraa_board_t) :
    (mraa_up2_6000_i2c_bound env b).phy_pin_count = b.phy_pin_count := by
  simp [mraa_up2_6000_i2c_bound]

@[simp] theorem up2_i2c_bound_uart_dev (env : platform_env) (b : mraa_board_t) :
    (mraa_up2_6000_i2c_bound env b).uart_dev = b.uart_dev := by
  simp [mraa_up2_6000_i2c_bound]

@[simp] theorem upxtreme_i2c_bound_pins (env : platform_env) (b : mraa_board_t) :
    (mraa_upxtreme_i2c_bound env b).pins = b.pins := by
  simp [mraa_upxtreme_i2c_bound]

@[simp] theorem upxtreme_i2c_bound_phy_pin_count (env : platform_env) (b : mraa_board_t) :
    (mraa_upxtreme_i2c_bound env b).phy_pin_count = b.phy_pin_count := by
  simp [mraa_upxtreme_i2c_bound]

@[simp] theorem upxtreme_i2c_bound_uart_dev (env : platform_env) (b : mraa_board_t) :
    (mraa_upxtreme_i2c_bound env b).uart_dev = b.uart_dev := by
  simp [mraa_upxtreme_i2c_bound]

@[simp] theorem up2_pwm_bound_phy_pin_count (b : mraa_board_t) :
    (mraa_up2_6000_pwm_bound b).phy_pin_count = b.phy_pin_count := by
  simp [mraa_up2_6000_pwm_bound, pwm_channel_bound]

@[simp] theorem up2_pwm_bound_uart_dev (b : mraa_board_t) :
    (mraa_up2_6000_pwm_bound b).uart_dev = b.uart_dev := by
  simp [mraa_up2_6000_pwm_bound, pwm_channel_bound]

@[simp] theorem up2_pwm_bound_pins_length (b : mraa_board_t) :
    (mraa_up2_6000_pwm_bound b).pins.length = b.pins.length := by
  simp [mraa_up2_6000_pwm_bound, pwm_channel_bound]

@[simp] theorem up2_spi_bound_pins (b : mraa_board_t) :
    (mraa_up2_6000_spi_bound b).pins = b.pins := by
  simp [mraa_up2_6000_spi_bound, spi_bus_bound]

@[simp] theorem up2_spi_bound_phy_pin_count (b : mraa_board_t) :
    (mraa_up2_6000_spi_bound b).phy_pin_count = b.phy_pin_count := by
  simp [mraa_up2_6000_spi_bound, spi_bus_bound]

@[simp] theorem up2_spi_bound_uart_dev (b : mraa_board_t) :
    (mraa_up2_6000_spi_bound b).uart_dev = b.uart_dev := by
  simp [mraa_up2_6000_spi_bound, spi_bus_bound]

@[simp] theorem upxtreme_spi_bound_pins (b : mraa_board_t) :
    (mraa_upxtreme_spi_bound b).pins = b.pins := by
  simp [mraa_upxtreme_spi_bound, spi_bus_bound]

@[simp] theorem upxtreme_spi_bound_phy_pin_count (b : mraa_board_t) :
    (mraa_upxtreme_spi_bound b).phy_pin_count = b.phy_pin_count := by
  simp [mraa_upxtreme_spi_bound, spi_bus_bound]

@[simp] theorem upxtreme_spi_bound_uart_dev (b : mraa_board_t) :
    (mraa_upxtreme_spi_bound b).uart_dev = b.uart_dev := by
  simp [mraa_upxtreme_spi_bound, spi_bus_bound]

theorem populated_up2_pwm_bound {N : Nat} {calls : List pininfo_call} {b : mraa_board_t}
    (h : populated N calls b) : populated N calls (mraa_up2_6000_pwm_bound b) := by
  unfold mraa_up2_6000_pwm_bound
  exact populated_pwm_channel_bound _ _ (populated_pwm_channel_bound _ _
    (populated_pwm_channel_bound _ _ (populated_pwm_channel_bound _ _
      (populated_pwm_channel_bound _ _ (populated_pwm_channel_bound _ _
        (populated_of_same_names b rfl rfl h))))))

theorem populated_after_set_pins {N : Nat} (hN : 10 ≤ N) (calls : List pininfo_call)
    (hclean : ∀ s ∈ call_names calls, NUL ∉ s ∧ s.length ≤ 10) (b : mraa_board_t)
    (hcnt : b.phy_pin_count = (calls.length : Int)) (hlen : b.pins.length = calls.length) :
    populated N calls { b with pins := List.zipWith (written_pin N) calls b.pins } :=
  ⟨hN, hclean, hcnt, map_name_zipWith_written N calls b.pins hlen⟩

theorem up2_configure_eq (N : Nat) (hN : 10 ≤ N) (env : platform_env) (b0 : mraa_board_t)
    (hcnt : b0.phy_pin_count = 81) (hlen : b0.pins.length = 81) :
    mraa_up2_6000_configure N env b0
      = some { b := mraa_up2_6000_configured N env b0,
               log := mraa_up2_6000_configured_log env b0 } := by
  have hpop1 := populated_after_set_pins hN mraa_up2_6000_pininfo_calls up2_calls_clean b0
    (by rw [hcnt]; rfl) (by rw [hlen]; rfl)
  have hpop2 : populated N mraa_up2_6000_pininfo_calls (mraa_up2_6000_i2c_bound env
      { b0 with pins := List.zipWith (written_pin N) mraa_up2_6000_pininfo_calls b0.pins }) :=
    populated_of_same_names _ (by simp) (by simp) hpop1
  have hpop3 := populated_up2_pwm_bound hpop2
  have hpop4 : populated N mraa_up2_6000_pininfo_calls (mraa_up2_6000_spi_bound
      (mraa_up2_6000_pwm_bound (mraa_up2_6000_i2c_bound env
      { b0 with pins := List.zipWith (written_pin N) mraa_up2_6000_pininfo_calls b0.pins }))) :=
    populated_of_same_names _ (by simp) (by simp) hpop3
  have hlen2 : (mraa_up2_6000_i2c_bound env
      { b0 with pins := List.zipWith (written_pin N) mraa_up2_6000_pininfo_calls b0.pins
      }).pins.length = 81 := by
    have hcl : mraa_up2_6000_pininfo_calls.length = 81 := rfl
    simp [hlen, hcl]
  unfold mraa_up2_6000_configure mraa_up2_6000_configured
  simp only [Option.bind_eq_bind]
  rw [up2_set_pins_eq N b0 hcnt hlen, Option.some_bind, up2_i2c_eq N env _ hpop1,
    Option.some_bind, up2_pwm_eq _ hlen2, Option.some_bind,
    up2_spi_eq N _ hpop3, Option.some_bind,
    up2_uart_eq up2_resolves_UART_RX up2_resolves_UART_TX up2_resolves_UART_CTS
      up2_resolves_UART_RTS env _ hpop4, Option.some_bind]
  simp [mraa_up2_6000_configured_log, mraa_up2_6000_uart_found]

theorem upxtreme_configure_eq (N : Nat) (hN : 10 ≤ N) (env : platform_env)
    (b0 : mraa_board_t) (hcnt : b0.phy_pin_count = 81) (hlen : b0.pins.length = 81) :
    mraa_upxtreme_configure N env b0
      = some { b := mraa_upxtreme_configured N env b0,
               log := mraa_upxtreme_configured_log env b0 } := by
  have hpop1 := populated_after_set_pins hN mraa_upxtreme_pininfo_calls upxtreme_calls_clean b0
    (by rw [hcnt]; rfl) (by rw [hlen]; rfl)
  have hpop2 : populated N mraa_upxtreme_pininfo_calls
      { (mraa_upxtreme_i2c_bound env
      { b0 with pins := List.zipWith (written_pin N) mraa_upxtreme_pininfo_calls b0.pins })
        with pwm_dev_count := 0 } :=
    populated_of_same_names _ (by simp) (by simp) hpop1
  have hpop3 : populated N mraa_upxtreme_pininfo_calls (mraa_upxtreme_spi_bound
      { (mraa_upxtreme_i2c_bound env
      { b0 with pins := List.zipWith (written_pin N) mraa_upxtreme_pininfo_calls b0.pins })
        with pwm_dev_count := 0 }) :=
    populated_of_same_names _ (by simp) (by simp) hpop2
  have hpop4 : populated N mraa_upxtreme_pininfo_calls (uart_bound (mraa_upxtreme_spi_bound
      { (mraa_upxtreme_i2c_bound env
      { b0 with pins := List.zipWith (written_pin N) mraa_upxtreme_pininfo_calls b0.pins })
        with pwm_dev_count := 0 }) (mraa_upxtreme_uart_found env b0) 10 8 36 11) :=
    populated_of_same_names _ (by simp) (by simp) hpop3
  unfold mraa_upxtreme_configure mraa_upxtreme_configured
  simp only [Option.bind_eq_bind]
  rw [upxtreme_set_pins_eq2 N b0 hcnt hlen, Option.some_bind, upxtreme_i2c_eq N env _ hpop1,
    Option.some_bind, upxtreme_spi_eq N _ hpop2, Option.some_bind,
    upxtreme_uart_eq upxtreme_resolves_UART_RX upxtreme_resolves_UART_TX
      upxtreme_resolves_UART_CTS upxtreme_resolves_UART_RTS env _ hpop3, Option.some_bind]
  have hfound : mraa_upxtreme_uart_found env (mraa_upxtreme_spi_bound
      { (mraa_upxtreme_i2c_bound env
      { b0 with pins := List.zipWith (written_pin N) mraa_upxtreme_pininfo_calls b0.pins })
        with pwm_dev_count := 0 }) = mraa_upxtreme_uart_found env b0 := by
    simp [mraa_upxtreme_uart_found]
  simp only [hfound]
  rw [upxtreme_adc_eq upxtreme_resolves_ADC0 _ hpop4]
  simp [mraa_upxtreme_configured_log]

theorem malloc_pins_block_length (env : platform_env) (n : Nat) :
    (malloc_pins_block env (n : Int)).length = n := by
  simp [malloc_pins_block]

theorem up2_board_eq (N : Nat) (hN : 10 ≤ N) (env : platform_env)
    (h1 : env.calloc_board = true) (h2 : env.malloc_pins = true)
    (h3 : env.calloc_adv_func = true) :
    mraa_up2_6000_board N 81 env
      = some { ret := some (mraa_up2_6000_built N env), log := mraa_up2_6000_built_log env,
               allocated := [heap_block.board, heap_block.pins, heap_block.adv_func],
               freed := [] } := by
  have hc := up2_configure_eq N hN env (mraa_up2_6000_allocated env) rfl
    (malloc_pins_block_length env 81)
  have hb : mraa_up2_6000_board N 81 env
      = (mraa_up2_6000_configure N env (mraa_up2_6000_allocated env)).map
          (mraa_up2_6000_finish env
            (heap_state.mk [heap_block.board, heap_block.pins, heap_block.adv_func] [])) := by
    obtain ⟨cb, mp, ca, mb, fi, fu, ac⟩ := env
    simp only at h1 h2 h3
    subst h1 h2 h3
    rfl
  rw [hb, hc]
  rfl

theorem upxtreme_board_eq (N : Nat) (hN : 10 ≤ N) (env : platform_env)
    (h1 : env.calloc_board = true) (h2 : env.malloc_pins = true)
    (h3 : env.calloc_adv_func = true) :
    mraa_upxtreme_i11_board N env
      = some (if mraa_upxtreme_have_driver env = true then
          { ret := some (mraa_upxtreme_built N env), log := mraa_upxtreme_built_log env,
            allocated := [heap_block.board, heap_block.pins, heap_block.adv_func],
            freed := [] }
        else
          mraa_upxtreme_error (mraa_upxtreme_built_log env)
            (heap_state.mk [heap_block.board, heap_block.pins, heap_block.adv_func] [])) := by
  have hc := upxtreme_configure_eq N hN env (mraa_upxtreme_allocated env) rfl
    (malloc_pins_block_length env 81)
  have hb : mraa_upxtreme_i11_board N env
      = (mraa_upxtreme_configure N env (mraa_upxtreme_allocated env)).map
          (mraa_upxtreme_finish (env.access "/sys/bus/platform/drivers/upboard-pinctrl" != -1)
            (env.access "/sys/bus/platform/drivers/gpio-aaeon" != -1)
            (heap_state.mk [heap_block.board, heap_block.pins, heap_block.adv_func] [])) := by
    obtain ⟨cb, mp, ca, mb, fi, fu, ac⟩ := env
    simp only at h1 h2 h3
    subst h1 h2 h3
    rfl
  rw [hb, hc]
  rfl

/-! ## What the builders return -/

theorem up2_board_calloc_failed (N : Nat) (P : Int) (env : platform_env)
    (h1 : env.calloc_board = false) :
    mraa_up2_6000_board N P env
      = some { ret := none, log := [], allocated := [], freed := [] } := by
  obtain ⟨cb, mp, ca, mb, fi, fu, ac⟩ := env
  simp only at h1
  subst h1
  rfl

theorem up2_board_malloc_failed (N : Nat) (P : Int) (env : platform_env)
    (h1 : env.calloc_board = true) (h2 : env.malloc_pins = false) :
    mraa_up2_6000_board N P env
      = some (mraa_up2_6000_error [] (heap_state.mk [heap_block.board] [])) := by
  obtain ⟨cb, mp, ca, mb, fi, fu, ac⟩ := env
  simp only at h1 h2
  subst h1 h2
  rfl

theorem up2_board_adv_func_failed (N : Nat) (P : Int) (env : platform_env)
    (h1 : env.calloc_board = true) (h2 : env.malloc_pins = true)
    (h3 : env.calloc_adv_func = false) :
    mraa_up2_6000_board N P env
      = some (mraa_up2_6000_error []
          (heap_state.mk [heap_block.board, heap_block.pins] [heap_block.pins])) := by
  obtain ⟨cb, mp, ca, mb, fi, fu, ac⟩ := env
  simp only at h1 h2 h3
  subst h1 h2 h3
  rfl

theorem upxtreme_board_calloc_failed (N : Nat) (env : platform_env)
    (h1 : env.calloc_board = false) :
    mraa_upxtreme_i11_board N env
      = some { ret := none, log := [], allocated := [], freed := [] } := by
  obtain ⟨cb, mp, ca, mb, fi, fu, ac⟩ := env
  simp only at h1
  subst h1
  rfl

theorem upxtreme_board_malloc_failed (N : Nat) (env : platform_env)
    (h1 : env.calloc_board = true) (h2 : env.malloc_pins = false) :
    mraa_upxtreme_i11_board N env
      = some (mraa_upxtreme_error [] (heap_state.mk [heap_block.board] [])) := by
  obtain ⟨cb, mp, ca, mb, fi, fu, ac⟩ := env
  simp only at h1 h2
  subst h1 h2
  rfl

theorem upxtreme_board_adv_func_failed (N : Nat) (env : platform_env)
    (h1 : env.calloc_board = true) (h2 : env.malloc_pins = true)
    (h3 : env.calloc_adv_func = false) :
    mraa_upxtreme_i11_board N env
      = some (mraa_upxtreme_error []
          (heap_state.mk [heap_block.board, heap_block.pins] [heap_block.pins])) := by
  obtain ⟨cb, mp, ca, mb, fi, fu, ac⟩ := env
  simp only at h1 h2 h3
  subst h1 h2 h3
  rfl

/-- A board returned by `mraa_up2_6000_board` is the closed form, and the
three allocations succeeded. -/
theorem up2_ret_some {N : Nat} (hN : 10 ≤ N) {env : platform_env} {r : board_ret}
    {b : mraa_board_t} (hr : mraa_up2_6000_board N 81 env = some r) (hb : r.ret = some b) :
    b = mraa_up2_6000_built N env ∧ r.log = mraa_up2_6000_built_log env ∧
    env.calloc_board = true ∧ env.malloc_pins = true ∧ env.calloc_adv_func = true := by
  cases h1 : env.calloc_board with
  | false =>
    rw [up2_board_calloc_failed N 81 env h1] at hr
    cases hr
    cases hb
  | true =>
    cases h2 : env.malloc_pins with
    | false =>
      rw [up2_board_malloc_failed N 81 env h1 h2] at hr
      cases hr
      cases hb
    | true =>
      cases h3 : env.calloc_adv_func with
      | false =>
        rw [up2_board_adv_func_failed N 81 env h1 h2 h3] at hr
        cases hr
        cases hb
      | true =>
        rw [up2_board_eq N hN env h1 h2 h3] at hr
        cases hr
        cases hb
        exact ⟨rfl, rfl, rfl, rfl, rfl⟩

/-- A board returned by `mraa_upxtreme_i11_board` is the closed form, the
three allocations succeeded and one of the two drivers is present. -/
theorem upxtreme_ret_some {N : Nat} (hN : 10 ≤ N) {env : platform_env} {r : board_ret}
    {b : mraa_board_t} (hr : mraa_upxtreme_i11_board N env = some r) (hb : r.ret = some b) :
    b = mraa_upxtreme_built N env ∧ r.log = mraa_upxtreme_built_log env ∧
    env.calloc_board = true ∧ env.malloc_pins = true ∧ env.calloc_adv_func = true ∧
    mraa_upxtreme_have_driver env = true := by
  cases h1 : env.calloc_board with
  | false =>
    rw [upxtreme_board_calloc_failed N env h1] at hr
    cases hr
    cases hb
  | true =>
    cases h2 : env.malloc_pins with
    | false =>
      rw [upxtreme_board_malloc_failed N env h1 h2] at hr
      cases hr
      cases hb
    | true =>
      cases h3 : env.calloc_adv_func with
      | false =>
        rw [upxtreme_board_adv_func_failed N env h1 h2 h3] at hr
        cases hr
        cases hb
      | true =>
        rw [upxtreme_board_eq N hN env h1 h2 h3] at hr
        cases hd : mraa_upxtreme_have_driver env with
        | false =>
          rw [hd] at hr
          simp only [Bool.false_eq_true, if_false, Option.some.injEq] at hr
          subst hr
          cases hb
        | true =>
          rw [hd] at hr
          simp only [if_true, Option.some.injEq] at hr
          subst hr
          cases hb
          exact ⟨rfl, rfl, rfl, rfl, rfl, rfl⟩

theorem pwm_channel_bound_map_name (b : mraa_board_t) (k : Nat) (ch : Nat) :
    (pwm_channel_bound b k ch).pins.map (fun p => p.name) = b.pins.map (fun p => p.name) := by
  simp only [pwm_channel_bound]
  apply map_modify_of_fixed
  intro p
  rfl

theorem pwm_channel_bound_map_capabilities (b : mraa_board_t) (k : Nat) (ch : Nat) :
    (pwm_channel_bound b k ch).pins.map (fun p => p.capabilities)
      = b.pins.map (fun p => p.capabilities) := by
  simp only [pwm_channel_bound]
  apply map_modify_of_fixed
  intro p
  rfl

theorem up2_pwm_bound_map_name (b : mraa_board_t) :
    (mraa_up2_6000_pwm_bound b).pins.map (fun p => p.name) = b.pins.map (fun p => p.name) := by
  simp only [mraa_up2_6000_pwm_bound, pwm_channel_bound_map_name]

theorem up2_pwm_bound_map_capabilities (b : mraa_board_t) :
    (mraa_up2_6000_pwm_bound b).pins.map (fun p => p.capabilities)
      = b.pins.map (fun p => p.capabilities) := by
  simp only [mraa_up2_6000_pwm_bound, pwm_channel_bound_map_capabilities]

theorem up2_built_phy_pin_count (N : Nat) (env : platform_env) :
    (mraa_up2_6000_built N env).phy_pin_count = 81 := by
  simp [mraa_up2_6000_built, mraa_up2_6000_configured, mraa_up2_6000_allocated]

theorem upxtreme_built_phy_pin_count (N : Nat) (env : platform_env) :
    (mraa_upxtreme_built N env).phy_pin_count = 81 := by
  simp [mraa_upxtreme_built, mraa_upxtreme_configured, mraa_upxtreme_allocated,
    MRAA_UPXTREME_I11_PINCOUNT]

theorem up2_built_map_name (N : Nat) (env : platform_env) :
    (mraa_up2_6000_built N env).pins.map (fun p => p.name)
      = (call_names mraa_up2_6000_pininfo_calls).map (fun s => strncpy s N) := by
  simp only [mraa_up2_6000_built, mraa_up2_6000_configured, uart_bound_pins,
    up2_spi_bound_pins, up2_pwm_bound_map_name, up2_i2c_bound_pins]
  exact map_name_zipWith_written N _ _ (malloc_pins_block_length env 81)

theorem up2_built_map_capabilities (N : Nat) (env : platform_env) :
    (mraa_up2_6000_built N env).pins.map (fun p => p.capabilities)
      = mraa_up2_6000_pininfo_calls.map (fun c => c.caps) := by
  simp only [mraa_up2_6000_built, mraa_up2_6000_configured, uart_bound_pins,
    up2_spi_bound_pins, up2_pwm_bound_map_capabilities, up2_i2c_bound_pins]
  exact map_capabilities_zipWith_written N _ _ (malloc_pins_block_length env 81)

theorem upxtreme_built_map_name (N : Nat) (env : platform_env) :
    (mraa_upxtreme_built N env).pins.map (fun p => p.name)
      = (call_names mraa_upxtreme_pininfo_calls).map (fun s => strncpy s N) := by
  simp only [mraa_upxtreme_built, mraa_upxtreme_configured, uart_bound_pins,
    upxtreme_spi_bound_pins, upxtreme_i2c_bound_pins]
  exact map_name_zipWith_written N _ _ (malloc_pins_block_length env 81)

theorem upxtreme_built_map_capabilities (N : Nat) (env : platform_env) :
    (mraa_upxtreme_built N env).pins.map (fun p => p.capabilities)
      = mraa_upxtreme_pininfo_calls.map (fun c => c.caps) := by
  simp only [mraa_upxtreme_built, mraa_upxtreme_configured, uart_bound_pins,
    upxtreme_spi_bound_pins, upxtreme_i2c_bound_pins]
  exact map_capabilities_zipWith_written N _ _ (malloc_pins_block_length env 81)

theorem up2_built_populated {N : Nat} (hN : 10 ≤ N) (env : platform_env) :
    populated N mraa_up2_6000_pininfo_calls (mraa_up2_6000_built N env) :=
  ⟨hN, up2_calls_clean, up2_built_phy_pin_count N env, up2_built_map_name N env⟩

theorem upxtreme_built_populated {N : Nat} (hN : 10 ≤ N) (env : platform_env) :
    populated N mraa_upxtreme_pininfo_calls (mraa_upxtreme_built N env) :=
  ⟨hN, upxtreme_calls_clean, upxtreme_built_phy_pin_count N env,
    upxtreme_built_map_name N env⟩

/-! ## Names stored in a populated pin array -/

theorem populated_pins_length {N : Nat} {calls : List pininfo_call} {b : mraa_board_t}
    (hpop : populated N calls b) : b.pins.length = calls.length := by
  have h := congrArg List.length hpop.2.2.2
  simpa [call_names] using h

theorem populated_stored_name {N : Nat} {calls : List pininfo_call} {b : mraa_board_t}
    (hpop : populated N calls b) {k : Nat} {pin : mraa_pininfo_t}
    (hk : b.pins[k]? = some pin) :
    ∃ s, (call_names calls)[k]? = some s ∧ pin.name = strncpy s N ∧ NUL ∉ s ∧
      s.length ≤ N := by
  have h := getElem?_names_of_map_eq hpop.2.2.2 k
  rw [hk] at h
  cases hs : (call_names calls)[k]? with
  | none => rw [hs] at h; cases h
  | some s =>
    rw [hs] at h
    have hname : pin.name = strncpy s N := by simpa using h
    have hmem : s ∈ call_names calls := List.getElem?_mem hs
    exact ⟨s, rfl, hname, (hpop.2.1 s hmem).1, Nat.le_trans (hpop.2.1 s hmem).2 hpop.1⟩

theorem eq_of_strncmp_strncpy (N : Nat) (s t : List Char) (hs : NUL ∉ s) (ht : NUL ∉ t)
    (hsl : s.length ≤ N) (htl : t.length ≤ N)
    (h : strncmp (strncpy s N) (strncpy t N) N = 0) : s = t := by
  rw [strncmp_eq_zero_iff, c_str_strncpy_take, c_str_strncpy_take, c_str_of_clean hs,
    c_str_of_clean ht, List.take_of_length_le hsl, List.take_of_length_le htl] at h
  exact h

theorem strncmp_self (N : Nat) (s : List Char) : strncmp s s N = 0 :=
  (strncmp_eq_zero_iff N s s).mpr rfl

/-- On a populated board, resolving the name stored in pin `i` gives the
first pin that stores the same name. -/
theorem populated_round_trip {N : Nat} {calls : List pininfo_call} {b : mraa_board_t}
    (hpop : populated N calls b) (i : Nat) (hi : i < calls.length) :
    resolves_to_first_same_name (mraa_up2_6000_get_pin_index N) b i ∧
    resolves_to_first_same_name (mraa_upxtreme_get_pin_index N) b i := by
  have hlen := populated_pins_length hpop
  have hil : i < b.pins.length := by omega
  have hgi : b.pins[i]? = some b.pins[i] := List.getElem?_eq_getElem hil
  have hmi : name_matches N b b.pins[i].name i := ⟨_, hgi, strncmp_self N _⟩
  have hcnt : (i : Int) < b.phy_pin_count := by rw [hpop.2.2.1]; omega
  obtain ⟨j, hji, hmj, hfirst, hloop⟩ := loop_first_match N b b.pins[i].name i hcnt hmi
  obtain ⟨si, _, hni, hsi, hsil⟩ := populated_stored_name hpop hgi
  have hsame : ∀ (k : Nat) (pin_k : mraa_pininfo_t), b.pins[k]? = some pin_k →
      (strncmp b.pins[i].name pin_k.name N = 0 ↔ pin_k.name = b.pins[i].name) := by
    intro k pin_k hk
    obtain ⟨sk, _, hnk, hsk, hskl⟩ := populated_stored_name hpop hk
    constructor
    · intro h
      rw [hni, hnk] at h
      rw [hni, hnk, eq_of_strncmp_strncpy N si sk hsi hsk hsil hskl h]
    · intro h
      rw [h]
      exact strncmp_self N _
  obtain ⟨pin_j, hpj, hzj⟩ := hmj
  have hcore : (∃ pin_j, b.pins[j]? = some pin_j ∧ pin_j.name = b.pins[i].name) ∧
      (∀ k, k < j → ∀ pin_k, b.pins[k]? = some pin_k → pin_k.name ≠ b.pins[i].name) :=
    ⟨⟨pin_j, hpj, (hsame j pin_j hpj).mp hzj⟩,
     fun k hk pin_k hpk hne => hfirst k hk ⟨pin_k, hpk, (hsame k pin_k hpk).mpr hne⟩⟩
  exact ⟨⟨j, b.pins[i], hgi, hji, hcore.1, hcore.2,
      fun old => up2_get_pin_index_of_loop old hloop⟩,
    ⟨j, b.pins[i], hgi, hji, hcore.1, hcore.2,
      fun old => upxtreme_get_pin_index_of_loop old hloop⟩⟩

/-! ## The pin setter -/

theorem written_name (N : Nat) (pin : mraa_pininfo_t) (name : List Char)
    (caps : mraa_pincapabilities_t) (sysfs_pin chip line : Int) :
    (mraa_up2_6000_set_pininfo_writes N pin name caps sysfs_pin chip line).name
      = strncpy name N := by
  obtain ⟨v, g, p, f, s, i, a, u⟩ := caps
  cases g <;> cases p <;> cases s <;> cases i <;> cases a <;> cases u <;> rfl

@[simp] theorem uart_bound_i2c_bus_count (b : mraa_board_t) (f : mraa_result_t × Option String)
    (rx tx cts rts : Int) :
    (uart_bound b f rx tx cts rts).i2c_bus_count = b.i2c_bus_count := by
  unfold uart_bound; split <;> rfl

@[simp] theorem uart_bound_i2c_bus (b : mraa_board_t) (f : mraa_result_t × Option String)
    (rx tx cts rts : Int) : (uart_bound b f rx tx cts rts).i2c_bus = b.i2c_bus := by
  unfold uart_bound; split <;> rfl

@[simp] theorem uart_bound_spi_bus_count (b : mraa_board_t) (f : mraa_result_t × Option String)
    (rx tx cts rts : Int) :
    (uart_bound b f rx tx cts rts).spi_bus_count = b.spi_bus_count := by
  unfold uart_bound; split <;> rfl

@[simp] theorem uart_bound_spi_bus (b : mraa_board_t) (f : mraa_result_t × Option String)
    (rx tx cts rts : Int) : (uart_bound b f rx tx cts rts).spi_bus = b.spi_bus := by
  unfold uart_bound; split <;> rfl

theorem uart_bound_found (b : mraa_board_t) (f : mraa_result_t × Option String)
    (rx tx cts rts : Int) (h : f.1 = MRAA_SUCCESS) :
    (uart_bound b f rx tx cts rts).uart_dev_count = 1 ∧
    (uart_bound b f rx tx cts rts).uart_dev 0
      = { rx := rx, tx := tx, cts := cts, rts := rts, device_path := f.2 } := by
  unfold uart_bound
  simp [h]

theorem uart_bound_not_found (b : mraa_board_t) (f : mraa_result_t × Option String)
    (rx tx cts rts : Int) (h : f.1 ≠ MRAA_SUCCESS) :
    (uart_bound b f rx tx cts rts).uart_dev_count = 0 := by
  unfold uart_bound
  simp [h]

@[simp] theorem up2_pwm_bound_i2c_bus_count (b : mraa_board_t) :
    (mraa_up2_6000_pwm_bound b).i2c_bus_count = b.i2c_bus_count := by
  simp [mraa_up2_6000_pwm_bound, pwm_channel_bound]

@[simp] theorem up2_pwm_bound_i2c_bus (b : mraa_board_t) :
    (mraa_up2_6000_pwm_bound b).i2c_bus = b.i2c_bus := by
  simp [mraa_up2_6000_pwm_bound, pwm_channel_bound]

@[simp] theorem up2_spi_bound_i2c_bus_count (b : mraa_board_t) :
    (mraa_up2_6000_spi_bound b).i2c_bus_count = b.i2c_bus_count := by
  simp [mraa_up2_6000_spi_bound, spi_bus_bound]

@[simp] theorem up2_spi_bound_i2c_bus (b : mraa_board_t) :
    (mraa_up2_6000_spi_bound b).i2c_bus = b.i2c_bus := by
  simp [mraa_up2_6000_spi_bound, spi_bus_bound]

@[simp] theorem upxtreme_spi_bound_i2c_bus_count (b : mraa_board_t) :
    (mraa_upxtreme_spi_bound b).i2c_bus_count = b.i2c_bus_count := by
  simp [mraa_upxtreme_spi_bound, spi_bus_bound]

@[simp] theorem upxtreme_spi_bound_i2c_bus (b : mraa_board_t) :
    (mraa_upxtreme_spi_bound b).i2c_bus = b.i2c_bus := by
  simp [mraa_upxtreme_spi_bound, spi_bus_bound]

/-- One adaptor block appends at most one entry: a property that holds for
the entries so far and for the new entry holds for all entries after it. -/
theorem i2c_adaptor_bound_entries (Q : mraa_i2c_bus_t → Prop) (b : mraa_board_t)
    (num sda scl : Int) (h0 : 0 ≤ b.i2c_bus_count)
    (hP : ∀ k : Nat, (k : Int) < b.i2c_bus_count → Q (b.i2c_bus k))
    (hq : Q { bus_id := num, sda := sda, scl := scl }) :
    0 ≤ (i2c_adaptor_bound b num sda scl).i2c_bus_count ∧
    ∀ k : Nat, (k : Int) < (i2c_adaptor_bound b num sda scl).i2c_bus_count →
      Q ((i2c_adaptor_bound b num sda scl).i2c_bus k) := by
  unfold i2c_adaptor_bound
  by_cases hnum : num = -1
  · simp only [hnum, ne_eq, not_true_eq_false, if_false]
    exact ⟨h0, hP⟩
  · simp only [ne_eq, hnum, not_false_eq_true, if_true]
    refine ⟨by omega, fun k hk => ?_⟩
    by_cases hkc : k = b.i2c_bus_count.toNat
    · rw [hkc, Function.update_same]
      exact hq
    · rw [Function.update_noteq hkc]
      exact hP k (by omega)

theorem up2_i2c_bound_entries (Q : mraa_i2c_bus_t → Prop) (env : platform_env)
    (b : mraa_board_t)
    (h1 : ∀ n, Q { bus_id := n, sda := 3, scl := 5 })
    (h2 : ∀ n, Q { bus_id := n, sda := 27, scl := 28 })
    (h3 : ∀ n, Q { bus_id := n, sda := 79, scl := 80 }) :
    ∀ k : Nat, (k : Int) < (mraa_up2_6000_i2c_bound env b).i2c_bus_count →
      Q ((mraa_up2_6000_i2c_bound env b).i2c_bus k) := by
  unfold mraa_up2_6000_i2c_bound
  have s0 : (0 : Int) ≤ ({ b with i2c_bus_count := 0, def_i2c_bus := 0 } :
      mraa_board_t).i2c_bus_count ∧
      ∀ k : Nat, (k : Int) < ({ b with i2c_bus_count := 0, def_i2c_bus := 0 } :
        mraa_board_t).i2c_bus_count →
        Q (({ b with i2c_bus_count := 0, def_i2c_bus := 0 } : mraa_board_t).i2c_bus k) :=
    ⟨Int.le_refl 0, fun k hk => absurd hk (by simp)⟩
  have s1 := i2c_adaptor_bound_entries Q _
    (env.mraa_find_i2c_bus_pci "0000:00" "0000:00:15.3" "i2c_designware.4") 3 5
    s0.1 s0.2 (h1 _)
  have s2 := i2c_adaptor_bound_entries Q _
    (env.mraa_find_i2c_bus_pci "0000:00" "0000:00:19.1" "i2c_designware.6") 27 28
    s1.1 s1.2 (h2 _)
  exact (i2c_adaptor_bound_entries Q _
    (env.mraa_find_i2c_bus_pci "0000:00" "0000:00:15.2" "i2c_designware.3") 79 80
    s2.1 s2.2 (h3 _)).2

theorem upxtreme_i2c_bound_entries (Q : mraa_i2c_bus_t → Prop) (env : platform_env)
    (b : mraa_board_t)
    (h1 : ∀ n, Q { bus_id := n, sda := 3, scl := 5 })
    (h2 : ∀ n, Q { bus_id := n, sda := 27, scl := 28 }) :
    ∀ k : Nat, (k : Int) < (mraa_upxtreme_i2c_bound env b).i2c_bus_count →
      Q ((mraa_upxtreme_i2c_bound env b).i2c_bus k) := by
  unfold mraa_upxtreme_i2c_bound
  have s0 : (0 : Int) ≤ ({ b with i2c_bus_count := 0, def_i2c_bus := 0 } :
      mraa_board_t).i2c_bus_count ∧
      ∀ k : Nat, (k : Int) < ({ b with i2c_bus_count := 0, def_i2c_bus := 0 } :
        mraa_board_t).i2c_bus_count →
        Q (({ b with i2c_bus_count := 0, def_i2c_bus := 0 } : mraa_board_t).i2c_bus k) :=
    ⟨Int.le_refl 0, fun k hk => absurd hk (by simp)⟩
  have s1 := i2c_adaptor_bound_entries Q _
    (env.mraa_find_i2c_bus_pci "0000:00" "0000:00:19.0" "i2c_designware.4") 3 5
    s0.1 s0.2 (h1 _)
  exact (i2c_adaptor_bound_entries Q _
    (env.mraa_find_i2c_bus_pci "0000:00" "0000:00:15.3" "i2c_designware.3") 27 28
    s1.1 s1.2 (h2 _)).2

theorem up2_built_i2c_entries (Q : mraa_i2c_bus_t → Prop) (N : Nat) (env : platform_env)
    (h1 : ∀ n, Q { bus_id := n, sda := 3, scl := 5 })
    (h2 : ∀ n, Q { bus_id := n, sda := 27, scl := 28 })
    (h3 : ∀ n, Q { bus_id := n, sda := 79, scl := 80 }) :
    ∀ k : Nat, (k : Int) < (mraa_up2_6000_built N env).i2c_bus_count →
      Q ((mraa_up2_6000_built N env).i2c_bus k) := by
  simp only [mraa_up2_6000_built, mraa_up2_6000_configured, uart_bound_i2c_bus_count,
    uart_bound_i2c_bus, up2_spi_bound_i2c_bus_count, up2_spi_bound_i2c_bus,
    up2_pwm_bound_i2c_bus_count, up2_pwm_bound_i2c_bus]
  exact up2_i2c_bound_entries Q env _ h1 h2 h3

theorem upxtreme_built_i2c_entries (Q : mraa_i2c_bus_t → Prop) (N : Nat) (env : platform_env)
    (h1 : ∀ n, Q { bus_id := n, sda := 3, scl := 5 })
    (h2 : ∀ n, Q { bus_id := n, sda := 27, scl := 28 }) :
    ∀ k : Nat, (k : Int) < (mraa_upxtreme_built N env).i2c_bus_count →
      Q ((mraa_upxtreme_built N env).i2c_bus k) := by
  simp only [mraa_upxtreme_built, mraa_upxtreme_configured, uart_bound_i2c_bus_count,
    uart_bound_i2c_bus, upxtreme_spi_bound_i2c_bus_count, upxtreme_spi_bound_i2c_bus]
  exact upxtreme_i2c_bound_entries Q env _ h1 h2

theorem up2_built_spi (N : Nat) (env : platform_env) :
    (mraa_up2_6000_built N env).spi_bus_count = 2 ∧
    (mraa_up2_6000_built N env).spi_bus 0
      = { bus_id := 2, slave_s := 0, cs := 24, mosi := 19, miso := 21, sclk := 23 } ∧
    (mraa_up2_6000_built N env).spi_bus 1
      = { bus_id := 1, slave_s := 1, cs := 26, mosi := 19, miso := 21, sclk := 23 } := by
  simp [mraa_up2_6000_built, mraa_up2_6000_configured, mraa_up2_6000_spi_bound, spi_bus_bound]

theorem upxtreme_built_spi (N : Nat) (env : platform_env) :
    (mraa_upxtreme_built N env).spi_bus_count = 2 ∧
    (mraa_upxtreme_built N env).spi_bus 0
      = { bus_id := 0, slave_s := 0, cs := 24, mosi := 19, miso := 21, sclk := 23 } ∧
    (mraa_upxtreme_built N env).spi_bus 1
      = { bus_id := 0, slave_s := 1, cs := 26, mosi := 19, miso := 21, sclk := 23 } := by
  simp [mraa_upxtreme_built, mraa_upxtreme_configured, mraa_upxtreme_spi_bound, spi_bus_bound]

theorem up2_built_uart_found (N : Nat) (env : platform_env)
    (h : (mraa_up2_6000_uart_found env (mraa_up2_6000_allocated env)).1 = MRAA_SUCCESS) :
    (mraa_up2_6000_built N env).uart_dev_count = 1 ∧
    (mraa_up2_6000_built N env).uart_dev 0
      = { rx := 10, tx := 8, cts := 36, rts := 11,
          device_path := (mraa_up2_6000_uart_found env (mraa_up2_6000_allocated env)).2 } := by
  simp only [mraa_up2_6000_built, mraa_up2_6000_configured]
  exact uart_bound_found _ _ _ _ _ _ h

theorem up2_built_uart_not_found (N : Nat) (env : platform_env)
    (h : (mraa_up2_6000_uart_found env (mraa_up2_6000_allocated env)).1 ≠ MRAA_SUCCESS) :
    (mraa_up2_6000_built N env).uart_dev_count = 0 := by
  simp only [mraa_up2_6000_built, mraa_up2_6000_configured]
  exact uart_bound_not_found _ _ _ _ _ _ h

theorem upxtreme_built_uart_found (N : Nat) (env : platform_env)
    (h : (mraa_upxtreme_uart_found env (mraa_upxtreme_allocated env)).1 = MRAA_SUCCESS) :
    (mraa_upxtreme_built N env).uart_dev_count = 1 ∧
    (mraa_upxtreme_built N env).uart_dev 0
      = { rx := 10, tx := 8, cts := 36, rts := 11,
          device_path := (mraa_upxtreme_uart_found env (mraa_upxtreme_allocated env)).2 } := by
  simp only [mraa_upxtreme_built, mraa_upxtreme_configured]
  exact uart_bound_found _ _ _ _ _ _ h

theorem upxtreme_built_uart_not_found (N : Nat) (env : platform_env)
    (h : (mraa_upxtreme_uart_found env (mraa_upxtreme_allocated env)).1 ≠ MRAA_SUCCESS) :
    (mraa_upxtreme_built N env).uart_dev_count = 0 := by
  simp only [mraa_upxtreme_built, mraa_upxtreme_configured]
  exact uart_bound_not_found _ _ _ _ _ _ h

theorem up2_built_aio_count (N : Nat) (env : platform_env) :
    (mraa_up2_6000_built N env).aio_count = 0 := by
  simp [mraa_up2_6000_built, mraa_up2_6000_configured]

theorem upxtreme_built_aio (N : Nat) (env : platform_env) :
    (mraa_upxtreme_built N env).aio_count = 1 ∧
    (mraa_upxtreme_built N env).aio_dev 0 = { pin := 7 } := by
  simp [mraa_upxtreme_built, mraa_upxtreme_configured]

/-! ## Pins of the built boards, read off the table of calls -/

theorem c_str_length_le (s : List Char) : (c_str s).length ≤ s.length := by
  induction s with
  | nil => simp [c_str]
  | cons c cs ih =>
    by_cases hc : c = NUL
    · subst hc
      rw [c_str_cons_nul]
      simp
    · rw [c_str_cons_of_ne hc]
      simp only [List.length_cons]
      omega

theorem c_str_strncpy_of_clean (N : Nat) (s : List Char) (hs : NUL ∉ s) (hl : s.length ≤ N) :
    c_str (strncpy s N) = s := by
  have h := c_str_strncpy_take N s
  rw [c_str_of_clean hs, List.take_of_length_le hl] at h
  have hle : (c_str (strncpy s N)).length ≤ N := by
    have := c_str_length_le (strncpy s N)
    rw [strncpy_length] at this
    exact this
  rw [List.take_of_length_le hle] at h
  exact h

/-- A pin of a board filled from a table carries the name and the
capabilities of its call. -/
theorem pin_of_call {N : Nat} {calls : List pininfo_call} {b : mraa_board_t}
    (hpop : populated N calls b)
    (hcaps : b.pins.map (fun p => p.capabilities) = calls.map (fun c => c.caps))
    {k : Nat} {c : pininfo_call} (hk : calls[k]? = some c) :
    ∃ pin, b.pins[k]? = some pin ∧ c_str pin.name = c.name.toList ∧
      pin.capabilities = c.caps := by
  have hlen := populated_pins_length hpop
  have hkl : k < calls.length := by
    by_contra hge
    rw [List.getElem?_eq_none (Nat.le_of_not_lt hge)] at hk
    cases hk
  have hkp : k < b.pins.length := by omega
  have hgk : b.pins[k]? = some b.pins[k] := List.getElem?_eq_getElem hkp
  obtain ⟨s, hs, hname, hclean, hshort⟩ := populated_stored_name hpop hgk
  have hs2 : s = c.name.toList := by
    have : (call_names calls)[k]? = some c.name.toList := by
      simp [call_names, hk]
    rw [this] at hs
    exact (Option.some.inj hs).symm
  have hc : b.pins[k].capabilities = c.caps := by
    have h1 : (b.pins.map (fun p => p.capabilities))[k]? = some c.caps := by
      rw [hcaps]
      simp [hk]
    rw [List.getElem?_map, hgk] at h1
    exact Option.some.inj h1
  refine ⟨b.pins[k], hgk, ?_, hc⟩
  rw [hname, c_str_strncpy_of_clean N s hclean hshort, hs2]

theorem pin_has_of_call {N : Nat} {calls : List pininfo_call} {b : mraa_board_t}
    (hpop : populated N calls b)
    (hcaps : b.pins.map (fun p => p.capabilities) = calls.map (fun c => c.caps))
    {index : Int} {flag : mraa_pincapabilities_t → Bool}
    (h : call_has calls index flag) : pin_has b index flag := by
  obtain ⟨h0, hc⟩ := h
  cases hk : calls[index.toNat]? with
  | none => rw [hk] at hc; cases hc
  | some c =>
    rw [hk] at hc
    obtain ⟨pin, hp, _, hcap⟩ := pin_of_call hpop hcaps hk
    refine ⟨h0, pin, hp, ?_⟩
    rw [hcap]
    exact Option.some.inj hc

/-- On a board filled from a table, the bus tables refer to pins of the
right kind as soon as the table says so at the indices they hold. -/
theorem bus_pins_of_calls {N : Nat} {calls : List pininfo_call} {b : mraa_board_t}
    (hpop : populated N calls b)
    (hcaps : b.pins.map (fun p => p.capabilities) = calls.map (fun c => c.caps))
    (hi2c : ∀ k : Nat, (k : Int) < b.i2c_bus_count →
      call_has calls (b.i2c_bus k).sda (fun c => c.i2c) ∧
      call_has calls (b.i2c_bus k).scl (fun c => c.i2c))
    (hspi : ∀ k : Nat, (k : Int) < b.spi_bus_count →
      call_has calls (b.spi_bus k).cs (fun c => c.spi) ∧
      call_has calls (b.spi_bus k).mosi (fun c => c.spi) ∧
      call_has calls (b.spi_bus k).miso (fun c => c.spi) ∧
      call_has calls (b.spi_bus k).sclk (fun c => c.spi))
    (huart : ∀ k : Nat, (k : Int) < b.uart_dev_count →
      call_has calls (b.uart_dev k).rx (fun c => c.uart) ∧
      call_has calls (b.uart_dev k).tx (fun c => c.uart) ∧
      call_has calls (b.uart_dev k).cts (fun c => c.uart) ∧
      call_has calls (b.uart_dev k).rts (fun c => c.uart))
    (haio : ∀ k : Nat, (k : Int) < b.aio_count →
      call_has calls (b.aio_dev k).pin (fun c => c.aio)) :
    bus_pins_have_capabilities b := by
  refine ⟨fun k hk => ?_, fun k hk => ?_, fun k hk => ?_, fun k hk => ?_⟩
  · exact ⟨pin_has_of_call hpop hcaps (hi2c k hk).1, pin_has_of_call hpop hcaps (hi2c k hk).2⟩
  · exact ⟨pin_has_of_call hpop hcaps (hspi k hk).1,
      pin_has_of_call hpop hcaps (hspi k hk).2.1,
      pin_has_of_call hpop hcaps (hspi k hk).2.2.1,
      pin_has_of_call hpop hcaps (hspi k hk).2.2.2⟩
  · exact ⟨pin_has_of_call hpop hcaps (huart k hk).1,
      pin_has_of_call hpop hcaps (huart k hk).2.1,
      pin_has_of_call hpop hcaps (huart k hk).2.2.1,
      pin_has_of_call hpop hcaps (huart k hk).2.2.2⟩
  · exact pin_has_of_call hpop hcaps (haio k hk)

theorem up2_built_bus_pins {N : Nat} (hN : 10 ≤ N) (env : platform_env) :
    bus_pins_have_capabilities (mraa_up2_6000_built N env) := by
  refine bus_pins_of_calls (up2_built_populated hN env) (up2_built_map_capabilities N env)
    ?_ ?_ ?_ ?_
  · exact up2_built_i2c_entries
      (fun e => call_has mraa_up2_6000_pininfo_calls e.sda (fun c => c.i2c) ∧
        call_has mraa_up2_6000_pininfo_calls e.scl (fun c => c.i2c)) N env
      (fun _ => ⟨up2_call_3_has_i2c, up2_call_5_has_i2c⟩)
      (fun _ => ⟨up2_call_27_has_i2c, up2_call_28_has_i2c⟩)
      (fun _ => ⟨up2_call_79_has_i2c, up2_call_80_has_i2c⟩)
  · intro k hk
    obtain ⟨hc, h0, h1⟩ := up2_built_spi N env
    rw [hc] at hk
    have hk2 : k < 2 := by omega
    interval_cases k
    · rw [h0]
      exact ⟨up2_call_24_has_spi, up2_call_19_has_spi, up2_call_21_has_spi,
        up2_call_23_has_spi⟩
    · rw [h1]
      exact ⟨up2_call_26_has_spi, up2_call_19_has_spi, up2_call_21_has_spi,
        up2_call_23_has_spi⟩
  · intro k hk
    by_cases hf : (mraa_up2_6000_uart_found env (mraa_up2_6000_allocated env)).1 = MRAA_SUCCESS
    · obtain ⟨hc, h0⟩ := up2_built_uart_found N env hf
      rw [hc] at hk
      have hk0 : k = 0 := by omega
      subst hk0
      rw [h0]
      exact ⟨up2_call_10_has_uart, up2_call_8_has_uart, up2_call_36_has_uart,
        up2_call_11_has_uart⟩
    · rw [up2_built_uart_not_found N env hf] at hk
      omega
  · intro k hk
    rw [up2_built_aio_count] at hk
    omega

theorem upxtreme_built_bus_pins {N : Nat} (hN : 10 ≤ N) (env : platform_env) :
    bus_pins_have_capabilities (mraa_upxtreme_built N env) := by
  refine bus_pins_of_calls (upxtreme_built_populated hN env)
    (upxtreme_built_map_capabilities N env) ?_ ?_ ?_ ?_
  · exact upxtreme_built_i2c_entries
      (fun e => call_has mraa_upxtreme_pininfo_calls e.sda (fun c => c.i2c) ∧
        call_has mraa_upxtreme_pininfo_calls e.scl (fun c => c.i2c)) N env
      (fun _ => ⟨upxtreme_call_3_has_i2c, upxtreme_call_5_has_i2c⟩)
      (fun _ => ⟨upxtreme_call_27_has_i2c, upxtreme_call_28_has_i2c⟩)
  · intro k hk
    obtain ⟨hc, h0, h1⟩ := upxtreme_built_spi N env
    rw [hc] at hk
    have hk2 : k < 2 := by omega
    interval_cases k
    · rw [h0]
      exact ⟨upxtreme_call_24_has_spi, upxtreme_call_19_has_spi, upxtreme_call_21_has_spi,
        upxtreme_call_23_has_spi⟩
    · rw [h1]
      exact ⟨upxtreme_call_26_has_spi, upxtreme_call_19_has_spi, upxtreme_call_21_has_spi,
        upxtreme_call_23_has_spi⟩
  · intro k hk
    by_cases hf : (mraa_upxtreme_uart_found env (mraa_upxtreme_allocated env)).1
        = MRAA_SUCCESS
    · obtain ⟨hc, h0⟩ := upxtreme_built_uart_found N env hf
      rw [hc] at hk
      have hk0 : k = 0 := by omega
      subst hk0
      rw [h0]
      exact ⟨upxtreme_call_10_has_uart, upxtreme_call_8_has_uart, upxtreme_call_36_has_uart,
        upxtreme_call_11_has_uart⟩
    · rw [upxtreme_built_uart_not_found N env hf] at hk
      omega
  · intro k hk
    obtain ⟨hc, h0⟩ := upxtreme_built_aio N env
    rw [hc] at hk
    have hk0 : k = 0 := by omega
    subst hk0
    rw [h0]
    exact upxtreme_call_7_has_aio

theorem up2_built_sentinel {N : Nat} (hN : 10 ≤ N) (env : platform_env) :
    has_invalid_sentinel (mraa_up2_6000_built N env) := by
  obtain ⟨pin, hp, hname, hcaps⟩ := pin_of_call (up2_built_populated hN env)
    (up2_built_map_capabilities N env)
    (show mraa_up2_6000_pininfo_calls[0]?
      = some (pininfo_call.mk 0 "INVALID" (caps_of 0 0 0 0 0 0 0 0) (-1) (-1) (-1)) from rfl)
  exact ⟨pin, hp, hname, hcaps⟩

theorem upxtreme_built_sentinel {N : Nat} (hN : 10 ≤ N) (env : platform_env) :
    has_invalid_sentinel (mraa_upxtreme_built N env) := by
  obtain ⟨pin, hp, hname, hcaps⟩ := pin_of_call (upxtreme_built_populated hN env)
    (upxtreme_built_map_capabilities N env)
    (show mraa_upxtreme_pininfo_calls[0]?
      = some (pininfo_call.mk 0 "INVALID" (caps_of 0 0 0 0 0 0 0 0) (-1) (-1) (-1)) from rfl)
  exact ⟨pin, hp, hname, hcaps⟩

theorem pin_named_at_of_call {N : Nat} {calls : List pininfo_call} {b : mraa_board_t}
    (hpop : populated N calls b)
    (hcaps : b.pins.map (fun p => p.capabilities) = calls.map (fun c => c.caps))
    (k : Nat) {c : pininfo_call} (hk : calls[k]? = some c) :
    pin_named_at b (k : Int) c.name := by
  obtain ⟨pin, hp, hname, _⟩ := pin_of_call hpop hcaps hk
  exact ⟨by omega, pin, by simpa using hp, hname⟩

theorem up2_built_pin_named {N : Nat} (hN : 10 ≤ N) (env : platform_env) (k : Nat)
    {c : pininfo_call} (hk : mraa_up2_6000_pininfo_calls[k]? = some c) :
    pin_named_at (mraa_up2_6000_built N env) (k : Int) c.name :=
  pin_named_at_of_call (up2_built_populated hN env) (up2_built_map_capabilities N env) k hk

theorem upxtreme_built_pin_named {N : Nat} (hN : 10 ≤ N) (env : platform_env) (k : Nat)
    {c : pininfo_call} (hk : mraa_upxtreme_pininfo_calls[k]? = some c) :
    pin_named_at (mraa_upxtreme_built N env) (k : Int) c.name :=
  pin_named_at_of_call (upxtreme_built_populated hN env)
    (upxtreme_built_map_capabilities N env) k hk

theorem up2_built_i2c_bus_count (N : Nat) (env : platform_env) :
    (mraa_up2_6000_built N env).i2c_bus_count
      = (mraa_up2_6000_i2c_bound env calloc_mraa_board_t).i2c_bus_count := by
  simp [mraa_up2_6000_built, mraa_up2_6000_configured, mraa_up2_6000_i2c_bound,
    i2c_adaptor_bound]
  split <;> split <;> split <;> rfl

theorem up2_built_i2c_bus (N : Nat) (env : platform_env) :
    (mraa_up2_6000_built N env).i2c_bus
      = (mraa_up2_6000_i2c_bound env calloc_mraa_board_t).i2c_bus := by
  simp [mraa_up2_6000_built, mraa_up2_6000_configured, mraa_up2_6000_i2c_bound,
    i2c_adaptor_bound, mraa_up2_6000_allocated]
  split <;> split <;> split <;> rfl

theorem upxtreme_built_i2c_bus_count (N : Nat) (env : platform_env) :
    (mraa_upxtreme_built N env).i2c_bus_count
      = (mraa_upxtreme_i2c_bound env calloc_mraa_board_t).i2c_bus_count := by
  simp [mraa_upxtreme_built, mraa_upxtreme_configured, mraa_upxtreme_i2c_bound,
    i2c_adaptor_bound]
  split <;> split <;> rfl

theorem upxtreme_built_i2c_bus (N : Nat) (env : platform_env) :
    (mraa_upxtreme_built N env).i2c_bus
      = (mraa_upxtreme_i2c_bound env calloc_mraa_board_t).i2c_bus := by
  simp [mraa_upxtreme_built, mraa_upxtreme_configured, mraa_upxtreme_i2c_bound,
    i2c_adaptor_bound, mraa_upxtreme_allocated]
  split <;> split <;> rfl

/-! ## Frame and postcondition of the pin setter -/

/-- On an index inside the pin array the setter succeeds, and the board it
leaves differs from the one it got by the written descriptor. -/
theorem set_pininfo_in_range (N : Nat) (board : mraa_board_t) (i : Int) (name : List Char)
    (caps : mraa_pincapabilities_t) (sysfs_pin chip line : Int)
    (h0 : 0 ≤ i) (hi : i < board.phy_pin_count) (old : mraa_pininfo_t)
    (hold : board.pins[i.toNat]? = some old) :
    mraa_up2_6000_set_pininfo N board i name caps sysfs_pin chip line
      = some (set_pininfo_ret.mk MRAA_SUCCESS { board with pins := board.pins.set i.toNat (mraa_up2_6000_set_pininfo_writes N old name caps sysfs_pin chip line) }) := by
  unfold mraa_up2_6000_set_pininfo
  simp only [hi, if_true, not_lt.mpr h0, if_false, hold]

theorem set_pininfo_out_of_range (N : Nat) (board : mraa_board_t) (i : Int) (name : List Char)
    (caps : mraa_pincapabilities_t) (sysfs_pin chip line : Int)
    (hi : board.phy_pin_count ≤ i) :
    mraa_up2_6000_set_pininfo N board i name caps sysfs_pin chip line
      = some { result := MRAA_ERROR_INVALID_RESOURCE, board := board } := by
  unfold mraa_up2_6000_set_pininfo
  simp only [not_lt.mpr hi, if_false]

theorem writes_capabilities (N : Nat) (pin : mraa_pininfo_t) (name : List Char)
    (caps : mraa_pincapabilities_t) (sysfs_pin chip line : Int) :
    (mraa_up2_6000_set_pininfo_writes N pin name caps sysfs_pin chip line).capabilities
      = caps := by
  obtain ⟨v, g, p, f, s, i, a, u⟩ := caps
  cases g <;> cases p <;> cases s <;> cases i <;> cases a <;> cases u <;> rfl

theorem writes_unflagged (N : Nat) (pin : mraa_pininfo_t) (name : List Char)
    (caps : mraa_pincapabilities_t) (sysfs_pin chip line : Int) :
    unflagged_bindings_kept caps pin
      (mraa_up2_6000_set_pininfo_writes N pin name caps sysfs_pin chip line) := by
  obtain ⟨v, g, p, f, s, i, a, u⟩ := caps
  cases g <;> cases p <;> cases s <;> cases i <;> cases a <;> cases u <;>
    exact ⟨fun h => (by first | rfl | cases h), fun h => (by first | rfl | cases h),
      fun h => (by first | rfl | cases h), fun h => (by first | rfl | cases h),
      fun h => (by first | rfl | cases h), fun h => (by first | rfl | cases h)⟩

theorem writes_flagged (N : Nat) (pin : mraa_pininfo_t) (name : List Char)
    (caps : mraa_pincapabilities_t) (sysfs_pin chip line : Int) :
    flagged_bindings_written caps sysfs_pin chip line
      (mraa_up2_6000_set_pininfo_writes N pin name caps sysfs_pin chip line) := by
  obtain ⟨v, g, p, f, s, i, a, u⟩ := caps
  cases g <;> cases p <;> cases s <;> cases i <;> cases a <;> cases u <;>
    exact ⟨fun h => (by first | exact ⟨rfl, rfl, rfl, rfl⟩ | cases h),
      fun h => (by first | exact ⟨rfl, rfl, rfl⟩ | cases h),
      fun h => (by first | exact ⟨rfl, rfl⟩ | cases h),
      fun h => (by first | exact ⟨rfl, rfl⟩ | cases h),
      fun h => (by first | rfl | cases h), fun h => (by first | rfl | cases h)⟩

theorem writes_no_capabilities (N : Nat) (pin : mraa_pininfo_t) (name : List Char)
    (sysfs_pin chip line : Int) :
    mraa_up2_6000_set_pininfo_writes N pin name no_capabilities sysfs_pin chip line
      = { pin with name := strncpy name N, capabilities := no_capabilities } := rfl

theorem same_bindings_of_unflagged {caps : mraa_pincapabilities_t} {old pin : mraa_pininfo_t}
    (h : unflagged_bindings_kept caps old pin) (hc : caps = no_capabilities) :
    same_bindings old pin := by
  subst hc
  exact ⟨h.1 rfl, h.2.1 rfl, h.2.2.1 rfl, h.2.2.2.1 rfl, h.2.2.2.2.1 rfl, h.2.2.2.2.2 rfl⟩

/-- The bytes `strncpy` leaves in the name field read as the first bytes of
the given name. -/
theorem c_str_strncpy (N : Nat) (s : List Char) : c_str (strncpy s N) = (c_str s).take N := by
  have hle : (c_str (strncpy s N)).length ≤ N := by
    have h := c_str_length_le (strncpy s N)
    rw [strncpy_length] at h
    exact h
  rw [← c_str_strncpy_take, List.take_of_length_le hle]

theorem only_pin_changed_set (board : mraa_board_t) (k : Nat) (pin : mraa_pininfo_t) :
    only_pin_changed board { board with pins := board.pins.set k pin } k :=
  ⟨rfl, List.length_set _ _ _, fun _ hj => List.getElem?_set_ne (Ne.symm hj)⟩

theorem name_matches_set_below {N : Nat} {board : mraa_board_t} {name : List Char}
    {i k : Nat} (pin : mraa_pininfo_t) (hk : k < i) :
    name_matches N { board with pins := board.pins.set i pin } name k ↔
      name_matches N board name k := by
  unfold name_matches
  have h : (board.pins.set i pin)[k]? = board.pins[k]? :=
    List.getElem?_set_ne (by omega)
  simp only [h]

/-- After the setter has stored `name` in pin `i`, the resolver loop finds
`name` at the first matching index, which is at most `i`. -/
theorem loop_after_set (N : Nat) (board : mraa_board_t) (i : Int) (name : List Char)
    (caps : mraa_pincapabilities_t) (sysfs_pin chip line : Int)
    (h0 : 0 ≤ i) (hi : i < board.phy_pin_count) (old : mraa_pininfo_t)
    (hold : board.pins[i.toNat]? = some old) :
    ∃ j : Nat, j ≤ i.toNat ∧
      ((∀ k, k < i.toNat → ¬ name_matches N board name k) → j = i.toNat) ∧
      mraa_up2_6000_get_pin_index_loop N
        (board.pins.set i.toNat
          (mraa_up2_6000_set_pininfo_writes N old name caps sysfs_pin chip line))
        name board.phy_pin_count.toNat 0 = some (some j) := by
  have hlt : i.toNat < board.pins.length := by
    by_contra hge
    rw [List.getElem?_eq_none (Nat.le_of_not_lt hge)] at hold
    cases hold
  let pin := mraa_up2_6000_set_pininfo_writes N old name caps sysfs_pin chip line
  let after : mraa_board_t := { board with pins := board.pins.set i.toNat pin }
  have hm : name_matches N after name i.toNat := by
    refine ⟨pin, List.getElem?_set_self hlt, ?_⟩
    show strncmp name (mraa_up2_6000_set_pininfo_writes N old name caps sysfs_pin chip
      line).name N = 0
    rw [written_name]
    exact (strncmp_strncpy_eq_zero_iff N name name).mpr rfl
  have hcnt : ((i.toNat : Nat) : Int) < after.phy_pin_count := by
    show ((i.toNat : Nat) : Int) < board.phy_pin_count
    omega
  obtain ⟨j, hji, hmj, _, hloop⟩ := loop_first_match N after name i.toNat hcnt hm
  refine ⟨j, hji, ?_, hloop⟩
  intro hnone
  by_contra hne
  have hjlt : j < i.toNat := by omega
  exact hnone j hjlt ((name_matches_set_below pin hjlt).mp hmj)

theorem unsigned_int_of_nonneg (x : Int) (h0 : 0 ≤ x) (h1 : x < 4294967296) :
    ((unsigned_int x : Nat) : Int) = x := by
  unfold unsigned_int
  omega

theorem unsigned_int_of_neg (x : Int) (h0 : -4294967296 ≤ x) (h1 : x < 0) :
    ((unsigned_int x : Nat) : Int) = x + 4294967296 := by
  unfold unsigned_int
  omega

/-! ## Outcome of construction -/

theorem up2_board_alloc_failed (N : Nat) (P : Int) (env : platform_env)
    (hfail : ¬ allocations_succeed env) :
    returns_null_and_releases (mraa_up2_6000_board N P env) := by
  unfold allocations_succeed at hfail
  cases h1 : env.calloc_board with
  | false => exact ⟨_, up2_board_calloc_failed N P env h1, rfl, List.Perm.refl _⟩
  | true =>
    cases h2 : env.malloc_pins with
    | false => exact ⟨_, up2_board_malloc_failed N P env h1 h2, rfl, List.Perm.refl _⟩
    | true =>
      cases h3 : env.calloc_adv_func with
      | false =>
        exact ⟨_, up2_board_adv_func_failed N P env h1 h2 h3, rfl,
          List.Perm.swap heap_block.board heap_block.pins []⟩
      | true => exact absurd ⟨h1, h2, h3⟩ hfail

theorem upxtreme_board_alloc_failed (N : Nat) (env : platform_env)
    (hfail : ¬ allocations_succeed env) :
    returns_null_and_releases (mraa_upxtreme_i11_board N env) := by
  unfold allocations_succeed at hfail
  cases h1 : env.calloc_board with
  | false => exact ⟨_, upxtreme_board_calloc_failed N env h1, rfl, List.Perm.refl _⟩
  | true =>
    cases h2 : env.malloc_pins with
    | false => exact ⟨_, upxtreme_board_malloc_failed N env h1 h2, rfl, List.Perm.refl _⟩
    | true =>
      cases h3 : env.calloc_adv_func with
      | false =>
        exact ⟨_, upxtreme_board_adv_func_failed N env h1 h2 h3, rfl,
          List.Perm.swap heap_block.board heap_block.pins []⟩
      | true => exact absurd ⟨h1, h2, h3⟩ hfail

theorem not_returns_board_of_null {run : Option board_ret}
    (h : returns_null_and_releases run) : ¬ returns_board run := by
  obtain ⟨r, hr, hnone, _⟩ := h
  rintro ⟨r2, b, hr2, hb⟩
  rw [hr] at hr2
  cases hr2
  rw [hnone] at hb
  cases hb

/-- The UP2 6000 builder ends on every system, and hands out a board exactly
when its three allocations succeed. -/
theorem up2_returns_board_iff (N : Nat) (hN : 10 ≤ N) (env : platform_env) :
    (mraa_up2_6000_board N 81 env).isSome = true ∧
    (returns_board (mraa_up2_6000_board N 81 env) ↔ allocations_succeed env) := by
  by_cases ha : allocations_succeed env
  · have h := up2_board_eq N hN env ha.1 ha.2.1 ha.2.2
    refine ⟨by rw [h]; rfl, fun _ => ha, fun _ => ⟨_, _, h, rfl⟩⟩
  · have hnull := up2_board_alloc_failed N 81 env ha
    have hnot := not_returns_board_of_null hnull
    obtain ⟨r, hr, _, _⟩ := hnull
    refine ⟨by rw [hr]; rfl, fun h => absurd h hnot,
      fun h => absurd h ha⟩

/-- The UP Xtreme i11 builder ends on every system, and hands out a board
exactly when its three allocations succeed and one of the two drivers is
present. -/
theorem upxtreme_returns_board_iff (N : Nat) (hN : 10 ≤ N) (env : platform_env) :
    (mraa_upxtreme_i11_board N env).isSome = true ∧
    (returns_board (mraa_upxtreme_i11_board N env) ↔
      allocations_succeed env ∧ mraa_upxtreme_have_driver env = true) := by
  by_cases ha : allocations_succeed env
  · have h := upxtreme_board_eq N hN env ha.1 ha.2.1 ha.2.2
    refine ⟨by rw [h]; rfl, ?_, ?_⟩
    · rintro ⟨r, b, hr, hb⟩
      exact ⟨ha, (upxtreme_ret_some hN hr hb).2.2.2.2.2⟩
    · rintro ⟨_, hd⟩
      rw [hd] at h
      exact ⟨_, _, h, rfl⟩
  · have hnull := upxtreme_board_alloc_failed N env ha
    have hnot := not_returns_board_of_null hnull
    obtain ⟨r, hr, _, _⟩ := hnull
    refine ⟨by rw [hr]; rfl, fun h => absurd h hnot,
      fun h => absurd h.1 ha⟩

/-- Without a driver the UP Xtreme i11 builder ends with NULL. -/
theorem upxtreme_null_without_driver (N : Nat) (hN : 10 ≤ N) (env : platform_env)
    (ha : allocations_succeed env) (hd : mraa_upxtreme_have_driver env = false) :
    ∃ r : board_ret, mraa_upxtreme_i11_board N env = some r ∧ r.ret = none := by
  have h := upxtreme_board_eq N hN env ha.1 ha.2.1 ha.2.2
  rw [hd] at h
  exact ⟨_, h, rfl⟩

/-! ## Ground and power pins of the built boards -/

theorem up2_ground_power_rows : ∀ c ∈ mraa_up2_6000_pininfo_calls,
    ground_or_power_name c.name.toList = true → c.caps = no_capabilities := by
  decide

theorem upxtreme_ground_power_rows : ∀ c ∈ mraa_upxtreme_pininfo_calls,
    ground_or_power_name c.name.toList = true → c.caps = no_capabilities := by
  decide

/-- None of the pins written by the `Configure PWM` block of the UP2 6000 is
a ground or power pin. -/
theorem up2_pwm_rows : ∀ k ∈ [32, 33, 68, 70, 66, 69],
    (mraa_up2_6000_pininfo_calls[k]?).map (fun c => ground_or_power_name c.name.toList)
      = some false := by
  decide

theorem pwm_channel_bound_getElem_ne (b : mraa_board_t) (k : Nat) (ch : Nat) (j : Nat)
    (h : k ≠ j) : (pwm_channel_bound b k ch).pins[j]? = b.pins[j]? := by
  simp only [pwm_channel_bound]
  exact List.getElem?_modify_ne _ _ h

theorem up2_pwm_bound_getElem_ne (b : mraa_board_t) (j : Nat)
    (h : j ∉ [32, 33, 68, 70, 66, 69]) :
    (mraa_up2_6000_pwm_bound b).pins[j]? = b.pins[j]? := by
  simp only [List.mem_cons, List.mem_singleton, List.not_mem_nil, not_or, or_false] at h
  obtain ⟨h1, h2, h3, h4, h5, h6⟩ := h
  simp only [mraa_up2_6000_pwm_bound]
  rw [pwm_channel_bound_getElem_ne _ _ _ _ (Ne.symm h6),
    pwm_channel_bound_getElem_ne _ _ _ _ (Ne.symm h5),
    pwm_channel_bound_getElem_ne _ _ _ _ (Ne.symm h4),
    pwm_channel_bound_getElem_ne _ _ _ _ (Ne.symm h3),
    pwm_channel_bound_getElem_ne _ _ _ _ (Ne.symm h2),
    pwm_channel_bound_getElem_ne _ _ _ _ (Ne.symm h1)]

theorem malloc_pins_block_getElem {env : platform_env} {n : Int} {j : Nat}
    {old : mraa_pininfo_t} (h : (malloc_pins_block env n)[j]? = some old) :
    old = env.malloc_bytes j := by
  unfold malloc_pins_block at h
  rw [List.getElem?_map] at h
  cases hr : (List.range n.toNat)[j]? with
  | none => rw [hr] at h; cases h
  | some m =>
    rw [hr] at h
    have hm : m = j := by
      have hlt : j < (List.range n.toNat).length := by
        by_contra hge
        rw [List.getElem?_eq_none (Nat.le_of_not_lt hge)] at hr
        cases hr
      rw [List.getElem?_eq_getElem hlt, List.getElem_range] at hr
      exact (Option.some.inj hr).symm
    subst hm
    exact (Option.some.inj h).symm

/-- A pin of the array filled by the calls of a table from a fresh block is
the block's descriptor with the writes of its call. -/
theorem zipWith_written_getElem {N : Nat} {calls : List pininfo_call} {env : platform_env}
    {n : Int} {j : Nat} {pin : mraa_pininfo_t}
    (h : (List.zipWith (written_pin N) calls (malloc_pins_block env n))[j]? = some pin) :
    ∃ c, calls[j]? = some c ∧ pin = written_pin N c (env.malloc_bytes j) := by
  obtain ⟨c, old, hc, hold, hw⟩ := List.getElem?_zipWith_eq_some.mp h
  rw [malloc_pins_block_getElem hold] at hw
  exact ⟨c, hc, hw.symm⟩

theorem up2_built_getElem (N : Nat) (env : platform_env) (j : Nat)
    (h : j ∉ [32, 33, 68, 70, 66, 69]) :
    (mraa_up2_6000_built N env).pins[j]?
      = (List.zipWith (written_pin N) mraa_up2_6000_pininfo_calls
          (malloc_pins_block env 81))[j]? := by
  simp only [mraa_up2_6000_built, mraa_up2_6000_configured, uart_bound_pins,
    up2_spi_bound_pins]
  rw [up2_pwm_bound_getElem_ne _ j h]
  simp only [up2_i2c_bound_pins]
  rfl

theorem upxtreme_built_pins (N : Nat) (env : platform_env) :
    (mraa_upxtreme_built N env).pins
      = List.zipWith (written_pin N) mraa_upxtreme_pininfo_calls
          (malloc_pins_block env 81) := by
  simp only [mraa_upxtreme_built, mraa_upxtreme_configured, uart_bound_pins,
    upxtreme_spi_bound_pins, upxtreme_i2c_bound_pins]
  rfl

/-- A written pin whose call has the all-false capability set keeps the
bindings of the descriptor it was written over. -/
theorem written_pin_same_bindings (N : Nat) (c : pininfo_call) (old : mraa_pininfo_t)
    (hc : c.caps = no_capabilities) :
    (written_pin N c old).capabilities = no_capabilities ∧
      same_bindings old (written_pin N c old) := by
  unfold written_pin
  exact ⟨by rw [writes_capabilities, hc],
    same_bindings_of_unflagged (writes_unflagged N old _ c.caps _ _ _) hc⟩

/-- On a board filled from a table, a pin whose stored name reads as a
ground or power name comes from a call with such a name. -/
theorem ground_power_call {N : Nat} {calls : List pininfo_call} {b : mraa_board_t}
    (hpop : populated N calls b) {k : Nat} {pin : mraa_pininfo_t}
    (hk : b.pins[k]? = some pin) (hgp : is_ground_or_power pin) :
    ∃ c, calls[k]? = some c ∧ ground_or_power_name c.name.toList = true := by
  obtain ⟨s, hs, hname, hclean, hshort⟩ := populated_stored_name hpop hk
  unfold is_ground_or_power at hgp
  rw [hname, c_str_strncpy_of_clean N s hclean hshort] at hgp
  unfold call_names at hs
  rw [List.getElem?_map] at hs
  cases hc : calls[k]? with
  | none => rw [hc] at hs; cases hs
  | some c =>
    rw [hc] at hs
    have hcs : c.name.toList = s := Option.some.inj hs
    exact ⟨c, rfl, by rw [hcs]; exact hgp⟩

theorem up2_built_ground_power {N : Nat} (hN : 10 ≤ N) (env : platform_env) :
    ground_and_power_pins_untouched env (mraa_up2_6000_built N env) := by
  intro k pin hk hgp
  obtain ⟨c, hc, hcn⟩ := ground_power_call (up2_built_populated hN env) hk hgp
  have hcaps := up2_ground_power_rows c (List.getElem?_mem hc) hcn
  have hnot : k ∉ [32, 33, 68, 70, 66, 69] := by
    intro hmem
    have h := up2_pwm_rows k hmem
    rw [hc] at h
    have h2 : ground_or_power_name c.name.toList = false := Option.some.inj h
    rw [hcn] at h2
    cases h2
  rw [up2_built_getElem N env k hnot] at hk
  obtain ⟨c2, hc2, hpin⟩ := zipWith_written_getElem hk
  rw [hc] at hc2
  cases hc2
  rw [hpin]
  exact written_pin_same_bindings N c _ hcaps

theorem upxtreme_built_ground_power {N : Nat} (hN : 10 ≤ N) (env : platform_env) :
    ground_and_power_pins_untouched env (mraa_upxtreme_built N env) := by
  intro k pin hk hgp
  obtain ⟨c, hc, hcn⟩ := ground_power_call (upxtreme_built_populated hN env) hk hgp
  have hcaps := upxtreme_ground_power_rows c (List.getElem?_mem hc) hcn
  rw [upxtreme_built_pins N env] at hk
  obtain ⟨c2, hc2, hpin⟩ := zipWith_written_getElem hk
  rw [hc] at hc2
  cases hc2
  rw [hpin]
  exact written_pin_same_bindings N c _ hcaps

/-! ## The claims -/

/-- C1: when some pin below `phy_pin_count` has a stored name that matches
`name` (under `strncmp` bounded by `MRAA_PIN_NAME_SIZE`), both resolvers
return `MRAA_SUCCESS`, log nothing and write the smallest matching index;
a name whose only match is `i` therefore resolves to `i`, and with several
matches the earliest index wins. -/
theorem get_pin_index_returns_first_match (N : Nat) (board : mraa_board_t) (name : List Char)
    (old : Int) (i : Nat) (hi : (i : Int) < board.phy_pin_count)
    (hm : name_matches N board name i) :
    ∃ j : Nat, j ≤ i ∧ name_matches N board name j ∧
      (∀ k, k < j → ¬ name_matches N board name k) ∧
      ((∀ k, k < i → ¬ name_matches N board name k) → j = i) ∧
      mraa_up2_6000_get_pin_index N board name old
        = some { result := MRAA_SUCCESS, pin_index := (j : Int), log := [] } ∧
      mraa_upxtreme_get_pin_index N board name old
        = some { result := MRAA_SUCCESS, pin_index := (j : Int), log := [] } := by
  obtain ⟨j, hji, hmj, hfirst, hloop⟩ := loop_first_match N board name i hi hm
  refine ⟨j, hji, hmj, hfirst, ?_, ?_, ?_⟩
  · intro hnone
    by_contra hne
    exact hnone j (by omega) hmj
  · simp [mraa_up2_6000_get_pin_index, hloop]
  · simp [mraa_upxtreme_get_pin_index, upxtreme_loop_eq_up2_loop, hloop]

/-- C2: when every pin below `phy_pin_count` exists and none of their stored
names matches `name`, both resolvers return `MRAA_ERROR_INVALID_RESOURCE`
and `*pin_index` keeps the value it had; the only other effect is the one
`LOG_CRIT` message (the resolver has no write to the board). -/
theorem get_pin_index_not_found (N : Nat) (board : mraa_board_t) (name : List Char)
    (old : Int)
    (hno : ∀ i : Nat, (i : Int) < board.phy_pin_count →
      ∃ pin, board.pins[i]? = some pin ∧ strncmp name pin.name N ≠ 0) :
    mraa_up2_6000_get_pin_index N board name old
      = some { result := MRAA_ERROR_INVALID_RESOURCE, pin_index := old,
               log := [syslog_entry.mk LOG_CRIT
                 ("up2_6000: Failed to find pin name " ++ String.mk (c_str name))] } ∧
    mraa_upxtreme_get_pin_index N board name old
      = some { result := MRAA_ERROR_INVALID_RESOURCE, pin_index := old,
               log := [syslog_entry.mk LOG_CRIT
                 ("UP Xtreme: Failed to find pin name " ++ String.mk (c_str name))] } := by
  have hlen : 0 + board.phy_pin_count.toNat ≤ board.pins.length := by
    by_contra hlt
    obtain ⟨pin, hp, _⟩ := hno board.pins.length (by omega)
    rw [List.getElem?_eq_none (Nat.le_refl _)] at hp
    cases hp
  have hloop : mraa_up2_6000_get_pin_index_loop N board.pins name board.phy_pin_count.toNat 0
      = some none := by
    refine loop_not_found N board name _ 0 hlen (fun k _ hk hmk => ?_)
    obtain ⟨pin, hp, hne⟩ := hno k (by omega)
    obtain ⟨pin2, hp2, hz⟩ := hmk
    rw [hp] at hp2
    cases hp2
    exact hne hz
  constructor
  · simp [mraa_up2_6000_get_pin_index, hloop]
  · simp [mraa_upxtreme_get_pin_index, upxtreme_loop_eq_up2_loop, hloop]

/-- C1 on `sample_board`: pins 1 and 2 are both named `5v`, which matches at
index 2. -/
theorem get_pin_index_returns_first_match_witness :
    name_matches 12 sample_board "5v".toList 2 ∧
    ∃ j : Nat, j ≤ 2 ∧ name_matches 12 sample_board "5v".toList j ∧
      (∀ k, k < j → ¬ name_matches 12 sample_board "5v".toList k) ∧
      ((∀ k, k < 2 → ¬ name_matches 12 sample_board "5v".toList k) → j = 2) ∧
      mraa_up2_6000_get_pin_index 12 sample_board "5v".toList 0
        = some { result := MRAA_SUCCESS, pin_index := (j : Int), log := [] } ∧
      mraa_upxtreme_get_pin_index 12 sample_board "5v".toList 0
        = some { result := MRAA_SUCCESS, pin_index := (j : Int), log := [] } :=
  ⟨⟨pin_named "5v", rfl, by decide⟩,
   get_pin_index_returns_first_match 12 sample_board "5v".toList 0 2 (by decide)
     ⟨pin_named "5v", rfl, by decide⟩⟩

/-- C2 on `sample_board`: no pin is named `GND`. -/
theorem get_pin_index_not_found_witness :
    mraa_up2_6000_get_pin_index 12 sample_board "GND".toList 7
      = some { result := MRAA_ERROR_INVALID_RESOURCE, pin_index := 7,
               log := [syslog_entry.mk LOG_CRIT
                 ("up2_6000: Failed to find pin name " ++ String.mk (c_str "GND".toList))] } ∧
    mraa_upxtreme_get_pin_index 12 sample_board "GND".toList 7
      = some { result := MRAA_ERROR_INVALID_RESOURCE, pin_index := 7,
               log := [syslog_entry.mk LOG_CRIT
                 ("UP Xtreme: Failed to find pin name " ++ String.mk (c_str "GND".toList))] } :=
  get_pin_index_not_found 12 sample_board "GND".toList 7 (by
    intro i hi
    have hi3 : i < 3 := by
      have : (i : Int) < 3 := hi
      omega
    interval_cases i
    · exact ⟨pin_named "INVALID", rfl, by decide⟩
    · exact ⟨pin_named "5v", rfl, by decide⟩
    · exact ⟨pin_named "5v", rfl, by decide⟩)

/-- C3 (as stated, refuted): on the boards built with a name size of twelve
and 81 pins, pin 4 stores the name `5v`, and resolving that name gives
index 2, not 4: the round trip fails at the index the claim names. -/
theorem round_trip_fails_at_index_4 :
    (((mraa_up2_6000_board 12 81 env_all_present).bind (fun r => r.ret)).bind (fun b =>
        b.pins[4]?.bind (fun pin =>
          (mraa_up2_6000_get_pin_index 12 b pin.name 0).map (fun r => r.pin_index)))
      = some 2) ∧
    (((mraa_upxtreme_i11_board 12 env_all_present).bind (fun r => r.ret)).bind (fun b =>
        b.pins[4]?.bind (fun pin =>
          (mraa_upxtreme_get_pin_index 12 b pin.name 0).map (fun r => r.pin_index)))
      = some 2) := by
  constructor <;> decide

/-- C3 (amended): on every board returned by either builder (81 pins, name
size at least ten) and for every index `i` below 81, resolving the name
stored in pin `i` with the board's own resolver succeeds and returns the
first index `j ≤ i` whose pin stores the same name; it is `i` itself when
no earlier pin stores that name. -/
theorem built_board_resolves_stored_name_to_first (N : Nat) (hN : 10 ≤ N) (env : platform_env)
    (i : Nat) (hi : i < 81) :
    (∀ (P : Int) (r : board_ret) (b : mraa_board_t), P = 81 →
      mraa_up2_6000_board N P env = some r → r.ret = some b →
      resolves_to_first_same_name (mraa_up2_6000_get_pin_index N) b i) ∧
    (∀ (r : board_ret) (b : mraa_board_t),
      mraa_upxtreme_i11_board N env = some r → r.ret = some b →
      resolves_to_first_same_name (mraa_upxtreme_get_pin_index N) b i) := by
  constructor
  · intro P r b hP hr hb
    subst hP
    obtain ⟨hbuilt, _⟩ := up2_ret_some hN hr hb
    subst hbuilt
    exact (populated_round_trip (up2_built_populated hN env) i hi).1
  · intro r b hr hb
    obtain ⟨hbuilt, _⟩ := upxtreme_ret_some hN hr hb
    subst hbuilt
    exact (populated_round_trip (upxtreme_built_populated hN env) i hi).2

/-- C3 (amended) at index 4 of the two boards built on `env_all_present`. -/
theorem built_board_resolves_stored_name_to_first_witness :
    resolves_to_first_same_name (mraa_up2_6000_get_pin_index 12)
      (mraa_up2_6000_built 12 env_all_present) 4 ∧
    resolves_to_first_same_name (mraa_upxtreme_get_pin_index 12)
      (mraa_upxtreme_built 12 env_all_present) 4 :=
  ⟨(built_board_resolves_stored_name_to_first 12 (by decide) env_all_present 4
      (by decide)).1 81 _ _ rfl (up2_board_eq 12 (by decide) env_all_present rfl rfl rfl) rfl,
   (built_board_resolves_stored_name_to_first 12 (by decide) env_all_present 4
      (by decide)).2 _ _ (upxtreme_board_eq 12 (by decide) env_all_present rfl rfl rfl) rfl⟩

/-- C5: every board returned by a builder has `phy_pin_count` equal to the
declared pin count (the value of `MRAA_UP2_6000_PINCOUNT`, taken to be 81,
for the UP2 6000 and `80 + 1` for the UP Xtreme i11), and its pin 0 is the
invalid sentinel: named `INVALID`, all eight capability flags false. -/
theorem built_board_pin_count_and_sentinel (N : Nat) (hN : 10 ≤ N) (env : platform_env) :
    (∀ (P : Int) (r : board_ret) (b : mraa_board_t), P = 81 →
      mraa_up2_6000_board N P env = some r → r.ret = some b →
      b.phy_pin_count = P ∧ has_invalid_sentinel b) ∧
    (∀ (r : board_ret) (b : mraa_board_t),
      mraa_upxtreme_i11_board N env = some r → r.ret = some b →
      b.phy_pin_count = 80 + 1 ∧ has_invalid_sentinel b) := by
  constructor
  · intro P r b hP hr hb
    subst hP
    obtain ⟨hbuilt, _⟩ := up2_ret_some hN hr hb
    subst hbuilt
    exact ⟨up2_built_phy_pin_count N env, up2_built_sentinel hN env⟩
  · intro r b hr hb
    obtain ⟨hbuilt, _⟩ := upxtreme_ret_some hN hr hb
    subst hbuilt
    exact ⟨upxtreme_built_phy_pin_count N env, upxtreme_built_sentinel hN env⟩

/-- C5 on the two boards built on `env_all_present`. -/
theorem built_board_pin_count_and_sentinel_witness :
    ((mraa_up2_6000_built 12 env_all_present).phy_pin_count = 81 ∧
      has_invalid_sentinel (mraa_up2_6000_built 12 env_all_present)) ∧
    ((mraa_upxtreme_built 12 env_all_present).phy_pin_count = 80 + 1 ∧
      has_invalid_sentinel (mraa_upxtreme_built 12 env_all_present)) :=
  ⟨(built_board_pin_count_and_sentinel 12 (by decide) env_all_present).1 81 _ _ rfl
      (up2_board_eq 12 (by decide) env_all_present rfl rfl rfl) rfl,
   (built_board_pin_count_and_sentinel 12 (by decide) env_all_present).2 _ _
      (upxtreme_board_eq 12 (by decide) env_all_present rfl rfl rfl) rfl⟩

/-- C6: on every board returned by a builder, whatever discovery and the
driver probes answer, each I2C entry below `i2c_bus_count` has `sda` and
`scl` on pins with the `i2c` flag, each SPI entry below `spi_bus_count` has
`cs`, `mosi`, `miso`, `sclk` on pins with the `spi` flag, each UART entry
below `uart_dev_count` has `rx`, `tx`, `cts`, `rts` on pins with the `uart`
flag, and each analog entry below `aio_count` is a pin with the `aio` flag. -/
theorem built_board_bus_pins_have_capabilities (N : Nat) (hN : 10 ≤ N) (env : platform_env) :
    (∀ (P : Int) (r : board_ret) (b : mraa_board_t), P = 81 →
      mraa_up2_6000_board N P env = some r → r.ret = some b →
      bus_pins_have_capabilities b) ∧
    (∀ (r : board_ret) (b : mraa_board_t),
      mraa_upxtreme_i11_board N env = some r → r.ret = some b →
      bus_pins_have_capabilities b) := by
  constructor
  · intro P r b hP hr hb
    subst hP
    obtain ⟨hbuilt, _⟩ := up2_ret_some hN hr hb
    subst hbuilt
    exact up2_built_bus_pins hN env
  · intro r b hr hb
    obtain ⟨hbuilt, _⟩ := upxtreme_ret_some hN hr hb
    subst hbuilt
    exact upxtreme_built_bus_pins hN env

/-- C6 on the two boards built on `env_all_present`. -/
theorem built_board_bus_pins_have_capabilities_witness :
    bus_pins_have_capabilities (mraa_up2_6000_built 12 env_all_present) ∧
    bus_pins_have_capabilities (mraa_upxtreme_built 12 env_all_present) :=
  ⟨(built_board_bus_pins_have_capabilities 12 (by decide) env_all_present).1 81 _ _ rfl
      (up2_board_eq 12 (by decide) env_all_present rfl rfl rfl) rfl,
   (built_board_bus_pins_have_capabilities 12 (by decide) env_all_present).2 _ _
      (upxtreme_board_eq 12 (by decide) env_all_present rfl rfl rfl) rfl⟩

/-- C7 (the code at the failing input): on the UP2 6000 board built with 81
pins, the `Configure PWM` block has counted six channels; pin 66, named
`QEP_I3`, has no `pwm` flag and carries channel 5, while pin 67, named
`PWM4`, has the `pwm` flag and is left with the channel 0 of the setter. -/
theorem up2_6000_pwm_channel_on_pin_without_flag :
    ((mraa_up2_6000_board 12 81 env_all_present).bind (fun r => r.ret)).bind (fun b =>
        b.pins[66]?.map (fun pin =>
          (String.mk (c_str pin.name), pin.capabilities.pwm, pin.pwm.pinmap)))
      = some ("QEP_I3", false, 5) ∧
    ((mraa_up2_6000_board 12 81 env_all_present).bind (fun r => r.ret)).bind (fun b =>
        b.pins[67]?.map (fun pin =>
          (String.mk (c_str pin.name), pin.capabilities.pwm, pin.pwm.pinmap)))
      = some ("PWM4", true, 0) ∧
    ((mraa_up2_6000_board 12 81 env_all_present).bind (fun r => r.ret)).map
        (fun b => b.pwm_dev_count) = some 6 := by
  refine ⟨?_, ?_, ?_⟩ <;> decide

/-- C8: scenario A.  When discovery finds the primary I2C adapter and no
other, the board returned by either builder has `i2c_bus_count = 1`, and its
entry 0 holds the discovered number with `sda = 3` and `scl = 5`, the pins
named `I2C_SDA` and `I2C_SCL`. -/
theorem scenario_A_primary_i2c_only (N : Nat) (hN : 10 ≤ N) (env : platform_env) :
    (∀ (P : Int) (r : board_ret) (b : mraa_board_t), P = 81 →
      env.mraa_find_i2c_bus_pci "0000:00" "0000:00:15.3" "i2c_designware.4" ≠ -1 →
      env.mraa_find_i2c_bus_pci "0000:00" "0000:00:19.1" "i2c_designware.6" = -1 →
      env.mraa_find_i2c_bus_pci "0000:00" "0000:00:15.2" "i2c_designware.3" = -1 →
      mraa_up2_6000_board N P env = some r → r.ret = some b →
      b.i2c_bus_count = 1 ∧
      b.i2c_bus 0 = { bus_id := env.mraa_find_i2c_bus_pci "0000:00" "0000:00:15.3"
                        "i2c_designware.4", sda := 3, scl := 5 } ∧
      pin_named_at b 3 "I2C_SDA" ∧ pin_named_at b 5 "I2C_SCL") ∧
    (∀ (r : board_ret) (b : mraa_board_t),
      env.mraa_find_i2c_bus_pci "0000:00" "0000:00:19.0" "i2c_designware.4" ≠ -1 →
      env.mraa_find_i2c_bus_pci "0000:00" "0000:00:15.3" "i2c_designware.3" = -1 →
      mraa_upxtreme_i11_board N env = some r → r.ret = some b →
      b.i2c_bus_count = 1 ∧
      b.i2c_bus 0 = { bus_id := env.mraa_find_i2c_bus_pci "0000:00" "0000:00:19.0"
                        "i2c_designware.4", sda := 3, scl := 5 } ∧
      pin_named_at b 3 "I2C_SDA" ∧ pin_named_at b 5 "I2C_SCL") := by
  constructor
  · intro P r b hP h1 h2 h3 hr hb
    subst hP
    obtain ⟨hbuilt, _⟩ := up2_ret_some hN hr hb
    subst hbuilt
    refine ⟨?_, ?_, up2_built_pin_named hN env 3 rfl, up2_built_pin_named hN env 5 rfl⟩
    · rw [up2_built_i2c_bus_count]
      simp [mraa_up2_6000_i2c_bound, i2c_adaptor_bound, h1, h2, h3, calloc_mraa_board_t]
    · rw [up2_built_i2c_bus]
      simp [mraa_up2_6000_i2c_bound, i2c_adaptor_bound, h1, h2, h3, calloc_mraa_board_t]
  · intro r b h1 h2 hr hb
    obtain ⟨hbuilt, _⟩ := upxtreme_ret_some hN hr hb
    subst hbuilt
    refine ⟨?_, ?_, upxtreme_built_pin_named hN env 3 rfl,
      upxtreme_built_pin_named hN env 5 rfl⟩
    · rw [upxtreme_built_i2c_bus_count]
      simp [mraa_upxtreme_i2c_bound, i2c_adaptor_bound, h1, h2, calloc_mraa_board_t]
    · rw [upxtreme_built_i2c_bus]
      simp [mraa_upxtreme_i2c_bound, i2c_adaptor_bound, h1, h2, calloc_mraa_board_t]

/-- C8 on `env_primary_i2c_only`, where only the primary adapter is found. -/
theorem scenario_A_primary_i2c_only_witness :
    ((mraa_up2_6000_built 12 env_primary_i2c_only).i2c_bus_count = 1 ∧
      (mraa_up2_6000_built 12 env_primary_i2c_only).i2c_bus 0
        = { bus_id := env_primary_i2c_only.mraa_find_i2c_bus_pci "0000:00" "0000:00:15.3"
              "i2c_designware.4", sda := 3, scl := 5 } ∧
      pin_named_at (mraa_up2_6000_built 12 env_primary_i2c_only) 3 "I2C_SDA" ∧
      pin_named_at (mraa_up2_6000_built 12 env_primary_i2c_only) 5 "I2C_SCL") ∧
    ((mraa_upxtreme_built 12 env_primary_i2c_only).i2c_bus_count = 1 ∧
      (mraa_upxtreme_built 12 env_primary_i2c_only).i2c_bus 0
        = { bus_id := env_primary_i2c_only.mraa_find_i2c_bus_pci "0000:00" "0000:00:19.0"
              "i2c_designware.4", sda := 3, scl := 5 } ∧
      pin_named_at (mraa_upxtreme_built 12 env_primary_i2c_only) 3 "I2C_SDA" ∧
      pin_named_at (mraa_upxtreme_built 12 env_primary_i2c_only) 5 "I2C_SCL") :=
  ⟨(scenario_A_primary_i2c_only 12 (by decide) env_primary_i2c_only).1 81 _ _ rfl
      (by decide) (by decide) (by decide)
      (up2_board_eq 12 (by decide) env_primary_i2c_only rfl rfl rfl) rfl,
   (scenario_A_primary_i2c_only 12 (by decide) env_primary_i2c_only).2 _ _
      (by decide) (by decide)
      (upxtreme_board_eq 12 (by decide) env_primary_i2c_only rfl rfl rfl) rfl⟩

/-- C9 (as stated, refuted): with every allocation succeeding and no I2C
adapter found, `mraa_upxtreme_i11_board` returns NULL when neither driver
directory exists; and `mraa_up2_6000_board` returns a board but sends no
`LOG_WARNING` message at all. -/
theorem scenario_B_fails_as_stated :
    (mraa_upxtreme_i11_board 12 env_no_i2c_no_driver).map (fun r => r.ret.isSome)
      = some false ∧
    (mraa_up2_6000_board 12 81 env_no_i2c).map (fun r =>
        (r.ret.isSome, r.log.filter (fun e => e.priority == LOG_WARNING)))
      = some (true, []) := by
  constructor <;> decide

/-- C9 (amended): scenario B.  When the allocations succeed and no I2C
adapter is found, `mraa_up2_6000_board` returns a board with
`i2c_bus_count = 0`; `mraa_upxtreme_i11_board` does so when in addition one
of its two drivers is present, and it logs the warnings about the missing
I2C0 and I2C1 controllers. -/
theorem scenario_B_no_i2c_adapter (N : Nat) (hN : 10 ≤ N) (env : platform_env)
    (h1 : env.calloc_board = true) (h2 : env.malloc_pins = true)
    (h3 : env.calloc_adv_func = true) :
    (∀ P : Int, P = 81 →
      env.mraa_find_i2c_bus_pci "0000:00" "0000:00:15.3" "i2c_designware.4" = -1 →
      env.mraa_find_i2c_bus_pci "0000:00" "0000:00:19.1" "i2c_designware.6" = -1 →
      env.mraa_find_i2c_bus_pci "0000:00" "0000:00:15.2" "i2c_designware.3" = -1 →
      ∃ (r : board_ret) (b : mraa_board_t), mraa_up2_6000_board N P env = some r ∧
        r.ret = some b ∧ b.i2c_bus_count = 0) ∧
    (env.mraa_find_i2c_bus_pci "0000:00" "0000:00:19.0" "i2c_designware.4" = -1 →
      env.mraa_find_i2c_bus_pci "0000:00" "0000:00:15.3" "i2c_designware.3" = -1 →
      mraa_upxtreme_have_driver env = true →
      ∃ (r : board_ret) (b : mraa_board_t), mraa_upxtreme_i11_board N env = some r ∧
        r.ret = some b ∧ b.i2c_bus_count = 0 ∧
        syslog_entry.mk LOG_WARNING "UP Xtreme: Platform failed to find I2C0 controller"
          ∈ r.log ∧
        syslog_entry.mk LOG_WARNING "UP Xtreme: Platform failed to find I2C1 controller"
          ∈ r.log) := by
  constructor
  · intro P hP ha hb hc
    subst hP
    refine ⟨_, _, up2_board_eq N hN env h1 h2 h3, rfl, ?_⟩
    rw [up2_built_i2c_bus_count]
    simp [mraa_up2_6000_i2c_bound, i2c_adaptor_bound, ha, hb, hc]
  · intro ha hb hd
    have hr := upxtreme_board_eq N hN env h1 h2 h3
    rw [hd] at hr
    simp only [if_true] at hr
    refine ⟨_, _, hr, rfl, ?_, ?_, ?_⟩
    · rw [upxtreme_built_i2c_bus_count]
      simp [mraa_upxtreme_i2c_bound, i2c_adaptor_bound, ha, hb]
    · simp [mraa_upxtreme_built_log, mraa_upxtreme_configured_log, mraa_upxtreme_i2c_log,
        ha, hb]
    · simp [mraa_upxtreme_built_log, mraa_upxtreme_configured_log, mraa_upxtreme_i2c_log,
        ha, hb]

/-- C9 (amended) on `env_no_i2c`, where no adapter is found and the drivers
are present. -/
theorem scenario_B_no_i2c_adapter_witness :
    (∃ (r : board_ret) (b : mraa_board_t), mraa_up2_6000_board 12 81 env_no_i2c = some r ∧
        r.ret = some b ∧ b.i2c_bus_count = 0) ∧
    (∃ (r : board_ret) (b : mraa_board_t), mraa_upxtreme_i11_board 12 env_no_i2c = some r ∧
        r.ret = some b ∧ b.i2c_bus_count = 0 ∧
        syslog_entry.mk LOG_WARNING "UP Xtreme: Platform failed to find I2C0 controller"
          ∈ r.log ∧
        syslog_entry.mk LOG_WARNING "UP Xtreme: Platform failed to find I2C1 controller"
          ∈ r.log) :=
  ⟨(scenario_B_no_i2c_adapter 12 (by decide) env_no_i2c rfl rfl rfl).1 81 rfl rfl rfl rfl,
   (scenario_B_no_i2c_adapter 12 (by decide) env_no_i2c rfl rfl rfl).2 rfl rfl rfl⟩

/-- C10: scenario D.  With the allocations done, either builder runs to its
end whatever UART discovery answers, and whether it returns a board does
not depend on that answer (always for the UP2 6000, exactly when a driver is
present for the UP Xtreme i11).  On the returned board, a successful
discovery gives `uart_dev_count = 1` and an entry 0 with the discovered
device path and `rx = 10`, `tx = 8`, `cts = 36`, `rts = 11`, the pins named
`UART_RX`, `UART_TX`, `UART_CTS`, `UART_RTS`; a failed discovery gives
`uart_dev_count = 0` and a logged warning. -/
theorem scenario_D_uart (N : Nat) (hN : 10 ≤ N) (env : platform_env)
    (h1 : env.calloc_board = true) (h2 : env.malloc_pins = true)
    (h3 : env.calloc_adv_func = true) :
    (∀ P : Int, P = 81 →
      ∃ (r : board_ret) (b : mraa_board_t), mraa_up2_6000_board N P env = some r ∧
        r.ret = some b ∧
        ((env.mraa_find_uart_bus_pci "/sys/bus/pci/devices/0000:00:1e.1/dw-apb-uart.9/tty/"
            none).1 = MRAA_SUCCESS →
          b.uart_dev_count = 1 ∧
          b.uart_dev 0 = mraa_uart_dev_t.mk 10 8 36 11
            (env.mraa_find_uart_bus_pci
              "/sys/bus/pci/devices/0000:00:1e.1/dw-apb-uart.9/tty/" none).2 ∧
          pin_named_at b 10 "UART_RX" ∧ pin_named_at b 8 "UART_TX" ∧
          pin_named_at b 36 "UART_CTS" ∧ pin_named_at b 11 "UART_RTS") ∧
        ((env.mraa_find_uart_bus_pci "/sys/bus/pci/devices/0000:00:1e.1/dw-apb-uart.9/tty/"
            none).1 ≠ MRAA_SUCCESS →
          b.uart_dev_count = 0 ∧
          syslog_entry.mk LOG_WARNING "UP2 6000: Platform failed to find uart controller"
            ∈ r.log)) ∧
    (∃ r : board_ret, mraa_upxtreme_i11_board N env = some r ∧
      r.ret.isSome = mraa_upxtreme_have_driver env ∧
      ((env.mraa_find_uart_bus_pci "/sys/bus/pci/devices/0000:00:1e.0/dw-apb-uart.6/tty/"
          none).1 ≠ MRAA_SUCCESS →
        syslog_entry.mk LOG_WARNING "UP Xtreme: Platform failed to find uart controller"
          ∈ r.log) ∧
      ∀ b : mraa_board_t, r.ret = some b →
        ((env.mraa_find_uart_bus_pci "/sys/bus/pci/devices/0000:00:1e.0/dw-apb-uart.6/tty/"
            none).1 = MRAA_SUCCESS →
          b.uart_dev_count = 1 ∧
          b.uart_dev 0 = mraa_uart_dev_t.mk 10 8 36 11
            (env.mraa_find_uart_bus_pci
              "/sys/bus/pci/devices/0000:00:1e.0/dw-apb-uart.6/tty/" none).2 ∧
          pin_named_at b 10 "UART_RX" ∧ pin_named_at b 8 "UART_TX" ∧
          pin_named_at b 36 "UART_CTS" ∧ pin_named_at b 11 "UART_RTS") ∧
        ((env.mraa_find_uart_bus_pci "/sys/bus/pci/devices/0000:00:1e.0/dw-apb-uart.6/tty/"
            none).1 ≠ MRAA_SUCCESS →
          b.uart_dev_count = 0)) := by
  constructor
  · intro P hP
    subst hP
    have hfe : mraa_up2_6000_uart_found env (mraa_up2_6000_allocated env)
        = env.mraa_find_uart_bus_pci "/sys/bus/pci/devices/0000:00:1e.1/dw-apb-uart.9/tty/"
            none := rfl
    refine ⟨_, _, up2_board_eq N hN env h1 h2 h3, rfl, ?_, ?_⟩
    · intro hf
      obtain ⟨hc, h0⟩ := up2_built_uart_found N env (hfe ▸ hf)
      rw [hfe] at h0
      exact ⟨hc, h0, up2_built_pin_named hN env 10 rfl, up2_built_pin_named hN env 8 rfl,
        up2_built_pin_named hN env 36 rfl, up2_built_pin_named hN env 11 rfl⟩
    · intro hf
      refine ⟨up2_built_uart_not_found N env (hfe ▸ hf), ?_⟩
      simp [mraa_up2_6000_built_log, mraa_up2_6000_configured_log, hfe, hf]
  · have hfe : mraa_upxtreme_uart_found env (mraa_upxtreme_allocated env)
        = env.mraa_find_uart_bus_pci "/sys/bus/pci/devices/0000:00:1e.0/dw-apb-uart.6/tty/"
            none := rfl
    have hr := upxtreme_board_eq N hN env h1 h2 h3
    have hfacts : ∀ b : mraa_board_t, b = mraa_upxtreme_built N env →
        ((env.mraa_find_uart_bus_pci "/sys/bus/pci/devices/0000:00:1e.0/dw-apb-uart.6/tty/"
            none).1 = MRAA_SUCCESS →
          b.uart_dev_count = 1 ∧
          b.uart_dev 0 = mraa_uart_dev_t.mk 10 8 36 11
            (env.mraa_find_uart_bus_pci
              "/sys/bus/pci/devices/0000:00:1e.0/dw-apb-uart.6/tty/" none).2 ∧
          pin_named_at b 10 "UART_RX" ∧ pin_named_at b 8 "UART_TX" ∧
          pin_named_at b 36 "UART_CTS" ∧ pin_named_at b 11 "UART_RTS") ∧
        ((env.mraa_find_uart_bus_pci "/sys/bus/pci/devices/0000:00:1e.0/dw-apb-uart.6/tty/"
            none).1 ≠ MRAA_SUCCESS →
          b.uart_dev_count = 0) := by
      intro b hb
      subst hb
      constructor
      · intro hf
        obtain ⟨hc, h0⟩ := upxtreme_built_uart_found N env (hfe ▸ hf)
        rw [hfe] at h0
        exact ⟨hc, h0, upxtreme_built_pin_named hN env 10 rfl,
          upxtreme_built_pin_named hN env 8 rfl, upxtreme_built_pin_named hN env 36 rfl,
          upxtreme_built_pin_named hN env 11 rfl⟩
      · intro hf
        exact upxtreme_built_uart_not_found N env (hfe ▸ hf)
    cases hd : mraa_upxtreme_have_driver env with
    | true =>
      rw [hd] at hr
      simp only [if_true] at hr
      refine ⟨_, hr, rfl, ?_, ?_⟩
      · intro hf
        simp [mraa_upxtreme_built_log, mraa_upxtreme_configured_log, hfe, hf]
      · intro b hb
        exact hfacts b (Option.some.inj hb).symm
    | false =>
      rw [hd] at hr
      simp only [Bool.false_eq_true, if_false] at hr
      refine ⟨_, hr, rfl, ?_, ?_⟩
      · intro hf
        simp [mraa_upxtreme_error, mraa_upxtreme_built_log, mraa_upxtreme_configured_log,
          hfe, hf]
      · intro b hb
        cases hb

/-- C10 for the UP2 6000 on `env_all_present`. -/
theorem scenario_D_uart_witness :
    env_all_present.calloc_board = true ∧
    ∃ (r : board_ret) (b : mraa_board_t),
      mraa_up2_6000_board 12 81 env_all_present = some r ∧ r.ret = some b ∧
        ((env_all_present.mraa_find_uart_bus_pci
            "/sys/bus/pci/devices/0000:00:1e.1/dw-apb-uart.9/tty/" none).1 = MRAA_SUCCESS →
          b.uart_dev_count = 1 ∧
          b.uart_dev 0 = mraa_uart_dev_t.mk 10 8 36 11
            (env_all_present.mraa_find_uart_bus_pci
              "/sys/bus/pci/devices/0000:00:1e.1/dw-apb-uart.9/tty/" none).2 ∧
          pin_named_at b 10 "UART_RX" ∧ pin_named_at b 8 "UART_TX" ∧
          pin_named_at b 36 "UART_CTS" ∧ pin_named_at b 11 "UART_RTS") ∧
        ((env_all_present.mraa_find_uart_bus_pci
            "/sys/bus/pci/devices/0000:00:1e.1/dw-apb-uart.9/tty/" none).1 ≠ MRAA_SUCCESS →
          b.uart_dev_count = 0 ∧
          syslog_entry.mk LOG_WARNING "UP2 6000: Platform failed to find uart controller"
            ∈ r.log) :=
  ⟨rfl, (scenario_D_uart 12 (by decide) env_all_present rfl rfl rfl).1 81 rfl⟩

/-! ## The claims on the pin setter -/

/-- C15: for every board and every index `mraa_index >= phy_pin_count`,
whatever the name, the capability set and the gpio arguments, both pin
setters return `MRAA_ERROR_INVALID_RESOURCE` and hand back the board they
were given, pin descriptors included. -/
theorem set_pininfo_rejects_index_beyond_count (N : Nat) (board : mraa_board_t)
    (mraa_index : Int) (name : List Char) (caps : mraa_pincapabilities_t)
    (sysfs_pin chip line : Int) (hi : board.phy_pin_count ≤ mraa_index) :
    mraa_up2_6000_set_pininfo N board mraa_index name caps sysfs_pin chip line
      = some { result := MRAA_ERROR_INVALID_RESOURCE, board := board } ∧
    mraa_upxtreme_set_pininfo N board mraa_index name caps sysfs_pin chip line
      = some { result := MRAA_ERROR_INVALID_RESOURCE, board := board } := by
  rw [upxtreme_set_pininfo_eq]
  exact ⟨set_pininfo_out_of_range N board mraa_index name caps sysfs_pin chip line hi,
    set_pininfo_out_of_range N board mraa_index name caps sysfs_pin chip line hi⟩

/-- C15 on `sample_board` (three pins) at index 3. -/
theorem set_pininfo_rejects_index_beyond_count_witness :
    mraa_up2_6000_set_pininfo 12 sample_board 3 "GND".toList (caps_of 1 1 0 0 0 0 0 0) 7 0 7
      = some { result := MRAA_ERROR_INVALID_RESOURCE, board := sample_board } ∧
    mraa_upxtreme_set_pininfo 12 sample_board 3 "GND".toList (caps_of 1 1 0 0 0 0 0 0) 7 0 7
      = some { result := MRAA_ERROR_INVALID_RESOURCE, board := sample_board } :=
  set_pininfo_rejects_index_beyond_count 12 sample_board 3 "GND".toList
    (caps_of 1 1 0 0 0 0 0 0) 7 0 7 (by decide)

/-- C16: frame of the pin setter.  For an index `i` with `0 <= i <
phy_pin_count` whose descriptor `old` is in the pin array, both setters
succeed with the same board; nothing but pin `i` differs from the board
given; in the new pin `i` every binding whose flag is false in `caps` is the
one of `old`; and with the all-false capability set the new pin is `old`
with the name and the capabilities written and nothing else. -/
theorem set_pininfo_frame (N : Nat) (board : mraa_board_t) (i : Int) (name : List Char)
    (caps : mraa_pincapabilities_t) (sysfs_pin chip line : Int)
    (h0 : 0 ≤ i) (hi : i < board.phy_pin_count) (old : mraa_pininfo_t)
    (hold : board.pins[i.toNat]? = some old) :
    ∃ (r : set_pininfo_ret) (pin : mraa_pininfo_t),
      mraa_up2_6000_set_pininfo N board i name caps sysfs_pin chip line = some r ∧
      mraa_upxtreme_set_pininfo N board i name caps sysfs_pin chip line = some r ∧
      r.result = MRAA_SUCCESS ∧
      only_pin_changed board r.board i.toNat ∧
      r.board.pins[i.toNat]? = some pin ∧
      unflagged_bindings_kept caps old pin ∧
      (caps = no_capabilities →
        pin = { old with name := strncpy name N, capabilities := no_capabilities }) := by
  have hlt : i.toNat < board.pins.length := by
    by_contra hge
    rw [List.getElem?_eq_none (Nat.le_of_not_lt hge)] at hold
    cases hold
  have hset := set_pininfo_in_range N board i name caps sysfs_pin chip line h0 hi old hold
  refine ⟨_, mraa_up2_6000_set_pininfo_writes N old name caps sysfs_pin chip line, hset,
    ?_, rfl, only_pin_changed_set board i.toNat _, List.getElem?_set_self hlt,
    writes_unflagged N old name caps sysfs_pin chip line, ?_⟩
  · rw [upxtreme_set_pininfo_eq]
    exact hset
  · intro hc
    subst hc
    rfl

/-- C16 on `sample_board`: pin 1 (`5v`, stale bindings) renamed `GND` with
the all-false capability set. -/
theorem set_pininfo_frame_witness :
    ∃ (r : set_pininfo_ret) (pin : mraa_pininfo_t),
      mraa_up2_6000_set_pininfo 12 sample_board 1 "GND".toList no_capabilities (-1) (-1) (-1)
        = some r ∧
      mraa_upxtreme_set_pininfo 12 sample_board 1 "GND".toList no_capabilities (-1) (-1) (-1)
        = some r ∧
      r.result = MRAA_SUCCESS ∧
      only_pin_changed sample_board r.board (1 : Int).toNat ∧
      r.board.pins[(1 : Int).toNat]? = some pin ∧
      unflagged_bindings_kept no_capabilities (pin_named "5v") pin ∧
      (no_capabilities = no_capabilities →
        pin = { pin_named "5v" with name := strncpy "GND".toList 12,
                                    capabilities := no_capabilities }) :=
  set_pininfo_frame 12 sample_board 1 "GND".toList no_capabilities (-1) (-1) (-1)
    (by decide) (by decide) (pin_named "5v") rfl

/-- C17: the helpers of the two board variants are the same functions.  On
every board, index, name, capability set and gpio arguments the two setters
give the same result (code and board, or the same fault); on every board and
name the two resolvers give the same code, the same value of `*pin_index`
and messages of the same priorities: only the message text differs. -/
theorem helpers_of_the_two_variants_agree (N : Nat) (board : mraa_board_t) (mraa_index : Int)
    (name : List Char) (caps : mraa_pincapabilities_t) (sysfs_pin chip line : Int)
    (pin_index : Int) :
    mraa_upxtreme_set_pininfo N board mraa_index name caps sysfs_pin chip line
      = mraa_up2_6000_set_pininfo N board mraa_index name caps sysfs_pin chip line ∧
    (mraa_upxtreme_get_pin_index N board name pin_index).map get_pin_index_outcome
      = (mraa_up2_6000_get_pin_index N board name pin_index).map get_pin_index_outcome := by
  refine ⟨rfl, ?_⟩
  unfold mraa_upxtreme_get_pin_index mraa_up2_6000_get_pin_index
  rw [upxtreme_loop_eq_up2_loop]
  cases mraa_up2_6000_get_pin_index_loop N board.pins name board.phy_pin_count.toNat 0 with
  | none => rfl
  | some o =>
    cases o with
    | none => rfl
    | some j => rfl

/-- C19: set-then-resolve.  For an index `i` with `0 <= i < phy_pin_count`
whose descriptor is in the pin array and a name of any length, the setter
succeeds, and resolving the same name on the board it leaves succeeds with
an index `j <= i`; `j = i` whenever no pin below `i` matches the name.
Stated for the setter and the resolver of each variant. -/
theorem set_then_resolve (N : Nat) (board : mraa_board_t) (i : Int) (name : List Char)
    (caps : mraa_pincapabilities_t) (sysfs_pin chip line : Int)
    (h0 : 0 ≤ i) (hi : i < board.phy_pin_count) (old : mraa_pininfo_t)
    (hold : board.pins[i.toNat]? = some old) :
    ∃ (r : set_pininfo_ret) (j : Nat),
      mraa_up2_6000_set_pininfo N board i name caps sysfs_pin chip line = some r ∧
      mraa_upxtreme_set_pininfo N board i name caps sysfs_pin chip line = some r ∧
      r.result = MRAA_SUCCESS ∧ (j : Int) ≤ i ∧
      ((∀ k, k < i.toNat → ¬ name_matches N board name k) → (j : Int) = i) ∧
      (∀ pin_index : Int, mraa_up2_6000_get_pin_index N r.board name pin_index
        = some { result := MRAA_SUCCESS, pin_index := (j : Int), log := [] }) ∧
      (∀ pin_index : Int, mraa_upxtreme_get_pin_index N r.board name pin_index
        = some { result := MRAA_SUCCESS, pin_index := (j : Int), log := [] }) := by
  have hset := set_pininfo_in_range N board i name caps sysfs_pin chip line h0 hi old hold
  obtain ⟨j, hji, hfirst, hloop⟩ :=
    loop_after_set N board i name caps sysfs_pin chip line h0 hi old hold
  refine ⟨_, j, hset, ?_, rfl, by omega, ?_, ?_, ?_⟩
  · rw [upxtreme_set_pininfo_eq]
    exact hset
  · intro hnone
    have := hfirst hnone
    omega
  · intro pin_index
    exact up2_get_pin_index_of_loop pin_index hloop
  · intro pin_index
    exact upxtreme_get_pin_index_of_loop pin_index hloop

/-- C19 on `sample_board` with a name of sixteen characters stored in pin 1
under a name size of twelve. -/
theorem set_then_resolve_witness :
    ∃ (r : set_pininfo_ret) (j : Nat),
      mraa_up2_6000_set_pininfo 12 sample_board 1 "ABCDEFGHIJKLMNOP".toList
        (caps_of 1 1 0 0 0 0 0 0) 354 1 22 = some r ∧
      mraa_upxtreme_set_pininfo 12 sample_board 1 "ABCDEFGHIJKLMNOP".toList
        (caps_of 1 1 0 0 0 0 0 0) 354 1 22 = some r ∧
      r.result = MRAA_SUCCESS ∧ (j : Int) ≤ 1 ∧
      ((∀ k, k < (1 : Int).toNat →
        ¬ name_matches 12 sample_board "ABCDEFGHIJKLMNOP".toList k) → (j : Int) = 1) ∧
      (∀ pin_index : Int,
        mraa_up2_6000_get_pin_index 12 r.board "ABCDEFGHIJKLMNOP".toList pin_index
          = some { result := MRAA_SUCCESS, pin_index := (j : Int), log := [] }) ∧
      (∀ pin_index : Int,
        mraa_upxtreme_get_pin_index 12 r.board "ABCDEFGHIJKLMNOP".toList pin_index
          = some { result := MRAA_SUCCESS, pin_index := (j : Int), log := [] }) :=
  set_then_resolve 12 sample_board 1 "ABCDEFGHIJKLMNOP".toList (caps_of 1 1 0 0 0 0 0 0)
    354 1 22 (by decide) (by decide) (pin_named "5v") rfl

/-- C20 (as stated, refuted): the gpio fields are `unsigned int`.  With the
gpio flag set and the arguments -1, -1, -1 (the arguments of the `ADC1` row
of the UP2 6000 table) both setters succeed on pin 1 of `sample_board` and
leave 4294967295 in `gpio.pinmap`, `gpio_chip` and `gpio_line`, which is not
the -1 given. -/
theorem set_pininfo_stores_minus_one_as_unsigned :
    (mraa_up2_6000_set_pininfo 12 sample_board 1 "ADC1".toList (caps_of 0 1 0 0 0 0 0 0)
        (-1) (-1) (-1)).bind (fun r => r.board.pins[1]?.map (fun pin =>
          (r.result, pin.gpio.pinmap, pin.gpio.gpio_chip, pin.gpio.gpio_line)))
      = some (MRAA_SUCCESS, 4294967295, 4294967295, 4294967295) ∧
    (mraa_upxtreme_set_pininfo 12 sample_board 1 "ADC1".toList (caps_of 0 1 0 0 0 0 0 0)
        (-1) (-1) (-1)).bind (fun r => r.board.pins[1]?.map (fun pin =>
          (r.result, pin.gpio.pinmap, pin.gpio.gpio_chip, pin.gpio.gpio_line)))
      = some (MRAA_SUCCESS, 4294967295, 4294967295, 4294967295) ∧
    ((4294967295 : Nat) : Int) ≠ -1 := by
  refine ⟨?_, ?_, ?_⟩ <;> decide

/-- C20 (amended): postcondition of the pin setter.  For an index `i` with
`0 <= i < phy_pin_count` whose descriptor is in the pin array, both setters
return `MRAA_SUCCESS`; afterwards the name field of pin `i` holds the
`MRAA_PIN_NAME_SIZE` bytes `strncpy` writes, which read as the first
`MRAA_PIN_NAME_SIZE` characters of the given name; its capabilities are the
given set; and every binding whose flag is set holds the values the setter
writes for it, where `gpio.pinmap`, `gpio_chip` and `gpio_line` hold
`sysfs_pin`, `chip` and `line` converted to `unsigned int`: the argument
itself when it is non-negative, the argument plus `2^32` when it is
negative (both for arguments in the range of `int`). -/
theorem set_pininfo_postcondition (N : Nat) (board : mraa_board_t) (i : Int)
    (name : List Char) (caps : mraa_pincapabilities_t) (sysfs_pin chip line : Int)
    (h0 : 0 ≤ i) (hi : i < board.phy_pin_count) (old : mraa_pininfo_t)
    (hold : board.pins[i.toNat]? = some old) :
    (∃ (r : set_pininfo_ret) (pin : mraa_pininfo_t),
      mraa_up2_6000_set_pininfo N board i name caps sysfs_pin chip line = some r ∧
      mraa_upxtreme_set_pininfo N board i name caps sysfs_pin chip line = some r ∧
      r.result = MRAA_SUCCESS ∧
      r.board.pins[i.toNat]? = some pin ∧
      pin.name = strncpy name N ∧ c_str pin.name = (c_str name).take N ∧
      pin.capabilities = caps ∧
      flagged_bindings_written caps sysfs_pin chip line pin) ∧
    (∀ x : Int, 0 ≤ x → x < 2147483648 → ((unsigned_int x : Nat) : Int) = x) ∧
    (∀ x : Int, -2147483648 ≤ x → x < 0 →
      ((unsigned_int x : Nat) : Int) = x + 4294967296) := by
  have hlt : i.toNat < board.pins.length := by
    by_contra hge
    rw [List.getElem?_eq_none (Nat.le_of_not_lt hge)] at hold
    cases hold
  have hset := set_pininfo_in_range N board i name caps sysfs_pin chip line h0 hi old hold
  refine ⟨⟨_, mraa_up2_6000_set_pininfo_writes N old name caps sysfs_pin chip line, hset,
    ?_, rfl, List.getElem?_set_self hlt, written_name N old name caps sysfs_pin chip line,
    ?_, writes_capabilities N old name caps sysfs_pin chip line,
    writes_flagged N old name caps sysfs_pin chip line⟩,
    fun x hx0 hx1 => unsigned_int_of_nonneg x hx0 (by omega),
    fun x hx0 hx1 => unsigned_int_of_neg x (by omega) hx1⟩
  · rw [upxtreme_set_pininfo_eq]
    exact hset
  · rw [written_name, c_str_strncpy]

/-- C20 (amended) on `sample_board`: pin 1 set to `I2C_SDA` with the flags
valid, gpio and i2c. -/
theorem set_pininfo_postcondition_witness :
    ∃ (r : set_pininfo_ret) (pin : mraa_pininfo_t),
      mraa_up2_6000_set_pininfo 12 sample_board 1 "I2C_SDA".toList
        (caps_of 1 1 0 0 0 1 0 0) 354 1 22 = some r ∧
      mraa_upxtreme_set_pininfo 12 sample_board 1 "I2C_SDA".toList
        (caps_of 1 1 0 0 0 1 0 0) 354 1 22 = some r ∧
      r.result = MRAA_SUCCESS ∧
      r.board.pins[(1 : Int).toNat]? = some pin ∧
      pin.name = strncpy "I2C_SDA".toList 12 ∧
      c_str pin.name = (c_str "I2C_SDA".toList).take 12 ∧
      pin.capabilities = caps_of 1 1 0 0 0 1 0 0 ∧
      flagged_bindings_written (caps_of 1 1 0 0 0 1 0 0) 354 1 22 pin :=
  (set_pininfo_postcondition 12 sample_board 1 "I2C_SDA".toList (caps_of 1 1 0 0 0 1 0 0)
    354 1 22 (by decide) (by decide) (pin_named "5v") rfl).1

/-! ## The claims on the outcome of construction -/

/-- C12 (as stated, refuted): on a system where the three allocations
succeed and I2C and UART discovery find everything, but neither
`upboard-pinctrl` nor `gpio-aaeon` is present, `mraa_upxtreme_i11_board`
(name size twelve) ends with NULL. -/
theorem upxtreme_construction_fails_without_driver :
    allocations_succeed env_no_driver ∧
    (mraa_upxtreme_i11_board 12 env_no_driver).map (fun r => r.ret.isSome) = some false := by
  refine ⟨⟨rfl, rfl, rfl⟩, ?_⟩
  rw [upxtreme_board_eq 12 (by decide) env_no_driver rfl rfl rfl]
  rfl

/-- C12 (amended): once the three allocations have succeeded, no outcome of
I2C or UART discovery leads to the failed result.  `mraa_up2_6000_board`
(81 pins) returns a board for every outcome of discovery and of the
`gpio-aaeon` probe; `mraa_upxtreme_i11_board` returns a board for every outcome of
discovery when one of the two probed drivers is present, and NULL when
neither is. -/
theorem discovery_never_fails_construction (N : Nat) (hN : 10 ≤ N) (env : platform_env)
    (halloc : allocations_succeed env) :
    (∀ P : Int, P = 81 → returns_board (mraa_up2_6000_board N P env)) ∧
    (mraa_upxtreme_have_driver env = true → returns_board (mraa_upxtreme_i11_board N env)) ∧
    (mraa_upxtreme_have_driver env = false →
      ∃ r : board_ret, mraa_upxtreme_i11_board N env = some r ∧ r.ret = none) := by
  refine ⟨fun P hP => ?_, fun hd => ?_, fun hd => ?_⟩
  · subst hP
    exact (up2_returns_board_iff N hN env).2.mpr halloc
  · exact (upxtreme_returns_board_iff N hN env).2.mpr ⟨halloc, hd⟩
  · exact upxtreme_null_without_driver N hN env halloc hd

/-- C12 (amended) on `env_no_i2c`, where no I2C adapter is found and both
drivers are present. -/
theorem discovery_never_fails_construction_witness :
    returns_board (mraa_up2_6000_board 12 81 env_no_i2c) ∧
    returns_board (mraa_upxtreme_i11_board 12 env_no_i2c) :=
  ⟨(discovery_never_fails_construction 12 (by decide) env_no_i2c ⟨rfl, rfl, rfl⟩).1 81 rfl,
   (discovery_never_fails_construction 12 (by decide) env_no_i2c ⟨rfl, rfl, rfl⟩).2.1 rfl⟩

/-- C13: exact success condition of construction.  `mraa_up2_6000_board` (81 pins) ends on
every system and returns a board if and only if its three allocations
succeed; `mraa_upxtreme_i11_board` ends on every system and returns a board if and
only if its three allocations succeed and one of `upboard-pinctrl` and
`gpio-aaeon` is present.  Hence two systems with the same allocation
outcomes give the same outcome on the UP2 6000 whatever discovery and the
probe answer, and two systems with the same allocation outcomes and the same
probe answers give the same outcome on the UP Xtreme i11 whatever discovery
answers. -/
theorem construction_succeeds_exactly_when (N : Nat) (hN : 10 ≤ N) (env : platform_env) :
    (∀ P : Int, P = 81 →
      (mraa_up2_6000_board N P env).isSome = true ∧
      (returns_board (mraa_up2_6000_board N P env) ↔ allocations_succeed env) ∧
      (∀ other : platform_env, other.calloc_board = env.calloc_board →
        other.malloc_pins = env.malloc_pins → other.calloc_adv_func = env.calloc_adv_func →
        (returns_board (mraa_up2_6000_board N P other) ↔
          returns_board (mraa_up2_6000_board N P env)))) ∧
    (mraa_upxtreme_i11_board N env).isSome = true ∧
    (returns_board (mraa_upxtreme_i11_board N env) ↔
      allocations_succeed env ∧ mraa_upxtreme_have_driver env = true) ∧
    (∀ other : platform_env, other.calloc_board = env.calloc_board →
      other.malloc_pins = env.malloc_pins → other.calloc_adv_func = env.calloc_adv_func →
      other.access = env.access →
      (returns_board (mraa_upxtreme_i11_board N other) ↔
        returns_board (mraa_upxtreme_i11_board N env))) := by
  refine ⟨fun P hP => ?_, (upxtreme_returns_board_iff N hN env).1,
    (upxtreme_returns_board_iff N hN env).2, fun other h1 h2 h3 h4 => ?_⟩
  · subst hP
    refine ⟨(up2_returns_board_iff N hN env).1, (up2_returns_board_iff N hN env).2,
      fun other h1 h2 h3 => ?_⟩
    rw [(up2_returns_board_iff N hN env).2, (up2_returns_board_iff N hN other).2]
    unfold allocations_succeed
    rw [h1, h2, h3]
  · rw [(upxtreme_returns_board_iff N hN env).2, (upxtreme_returns_board_iff N hN other).2]
    unfold allocations_succeed mraa_upxtreme_have_driver
    rw [h1, h2, h3, h4]

/-- C13 on `env_no_driver`: the UP2 6000 returns a board, the UP Xtreme i11
does not. -/
theorem construction_succeeds_exactly_when_witness :
    returns_board (mraa_up2_6000_board 12 81 env_no_driver) ∧
    ¬ returns_board (mraa_upxtreme_i11_board 12 env_no_driver) :=
  ⟨((construction_succeeds_exactly_when 12 (by decide) env_no_driver).1 81 rfl).2.1.mpr
      ⟨rfl, rfl, rfl⟩,
   fun h => Bool.false_ne_true
     ((construction_succeeds_exactly_when 12 (by decide) env_no_driver).2.2.1.mp h).2⟩

/-- C14: when one of the three allocations fails, either builder ends with
NULL, so no descriptor reaches the caller, and every block obtained before
the failing allocation has been passed to `free`.  When `calloc` of the board
record fails nothing was obtained and nothing is released; when `malloc` of
the pin array fails the board record was obtained and is released; when
`calloc` of the advanced-function table fails the board record and the pin
array were obtained, and the pin array, then the board record are released.
In each case the blocks released are the blocks obtained, each once.  Holds
for every value of `MRAA_UP2_6000_PINCOUNT`. -/
theorem allocation_failure_returns_null (N : Nat) (P : Int) (env : platform_env) :
    (env.calloc_board = false →
      returns_null_with_heap (mraa_up2_6000_board N P env) [] [] ∧
      returns_null_with_heap (mraa_upxtreme_i11_board N env) [] []) ∧
    (env.calloc_board = true → env.malloc_pins = false →
      returns_null_with_heap (mraa_up2_6000_board N P env)
        [heap_block.board] [heap_block.board] ∧
      returns_null_with_heap (mraa_upxtreme_i11_board N env)
        [heap_block.board] [heap_block.board]) ∧
    (env.calloc_board = true → env.malloc_pins = true → env.calloc_adv_func = false →
      returns_null_with_heap (mraa_up2_6000_board N P env)
        [heap_block.board, heap_block.pins] [heap_block.pins, heap_block.board] ∧
      returns_null_with_heap (mraa_upxtreme_i11_board N env)
        [heap_block.board, heap_block.pins] [heap_block.pins, heap_block.board]) ∧
    (¬ allocations_succeed env →
      returns_null_and_releases (mraa_up2_6000_board N P env) ∧
      returns_null_and_releases (mraa_upxtreme_i11_board N env)) := by
  refine ⟨fun h1 => ?_, fun h1 h2 => ?_, fun h1 h2 h3 => ?_, fun hfail => ?_⟩
  · exact ⟨⟨_, up2_board_calloc_failed N P env h1, rfl, rfl, rfl⟩,
      ⟨_, upxtreme_board_calloc_failed N env h1, rfl, rfl, rfl⟩⟩
  · exact ⟨⟨_, up2_board_malloc_failed N P env h1 h2, rfl, rfl, rfl⟩,
      ⟨_, upxtreme_board_malloc_failed N env h1 h2, rfl, rfl, rfl⟩⟩
  · exact ⟨⟨_, up2_board_adv_func_failed N P env h1 h2 h3, rfl, rfl, rfl⟩,
      ⟨_, upxtreme_board_adv_func_failed N env h1 h2 h3, rfl, rfl, rfl⟩⟩
  · exact ⟨up2_board_alloc_failed N P env hfail, upxtreme_board_alloc_failed N env hfail⟩

/-- C14 on `env_no_adv_func_memory`, where the third allocation fails after
the board record and the pin array have been obtained, and on
`env_no_pins_memory`, where the second fails. -/
theorem allocation_failure_returns_null_witness :
    (returns_null_with_heap (mraa_up2_6000_board 12 81 env_no_adv_func_memory)
        [heap_block.board, heap_block.pins] [heap_block.pins, heap_block.board] ∧
      returns_null_with_heap (mraa_upxtreme_i11_board 12 env_no_adv_func_memory)
        [heap_block.board, heap_block.pins] [heap_block.pins, heap_block.board]) ∧
    (returns_null_with_heap (mraa_up2_6000_board 12 81 env_no_pins_memory)
        [heap_block.board] [heap_block.board] ∧
      returns_null_with_heap (mraa_upxtreme_i11_board 12 env_no_pins_memory)
        [heap_block.board] [heap_block.board]) :=
  ⟨(allocation_failure_returns_null 12 81 env_no_adv_func_memory).2.2.1 rfl rfl rfl,
   (allocation_failure_returns_null 12 81 env_no_pins_memory).2.1 rfl rfl⟩

/-- C11: scenario C.  On every board returned by either builder (81 pins,
name size at least ten), every pin whose stored name reads `GND`, `3.3v` or
`5v` has all eight capability flags false, and its gpio, pwm, aio, i2c, spi
and uart bindings still hold the bytes of the fresh `malloc` block: the
builder has written none of them. -/
theorem ground_and_power_pins_have_no_bindings (N : Nat) (hN : 10 ≤ N) (env : platform_env) :
    (∀ (P : Int) (r : board_ret) (b : mraa_board_t), P = 81 →
      mraa_up2_6000_board N P env = some r → r.ret = some b →
      ground_and_power_pins_untouched env b) ∧
    (∀ (r : board_ret) (b : mraa_board_t),
      mraa_upxtreme_i11_board N env = some r → r.ret = some b →
      ground_and_power_pins_untouched env b) := by
  constructor
  · intro P r b hP hr hb
    subst hP
    obtain ⟨hbuilt, _⟩ := up2_ret_some hN hr hb
    subst hbuilt
    exact up2_built_ground_power hN env
  · intro r b hr hb
    obtain ⟨hbuilt, _⟩ := upxtreme_ret_some hN hr hb
    subst hbuilt
    exact upxtreme_built_ground_power hN env

/-- C11 at pin 2 (`5v`) of the two boards built on `env_all_present`, whose
fresh pin array holds stale bytes: the pin has no flag and its bindings are
the stale ones. -/
theorem ground_and_power_pins_have_no_bindings_witness :
    (mraa_up2_6000_built 12 env_all_present).pins[2]? = some (written_pin 12
        (pininfo_call.mk 2 "5v" (caps_of 0 0 0 0 0 0 0 0) (-1) (-1) (-1)) stale_pin) ∧
    (mraa_upxtreme_built 12 env_all_present).pins[2]? = some (written_pin 12
        (pininfo_call.mk 2 "5v" (caps_of 0 0 0 0 0 0 0 0) (-1) (-1) (-1)) stale_pin) ∧
    ((written_pin 12 (pininfo_call.mk 2 "5v" (caps_of 0 0 0 0 0 0 0 0) (-1) (-1) (-1))
        stale_pin).capabilities = no_capabilities ∧
      same_bindings (env_all_present.malloc_bytes 2)
        (written_pin 12 (pininfo_call.mk 2 "5v" (caps_of 0 0 0 0 0 0 0 0) (-1) (-1) (-1))
          stale_pin)) ∧
    ((written_pin 12 (pininfo_call.mk 2 "5v" (caps_of 0 0 0 0 0 0 0 0) (-1) (-1) (-1))
        stale_pin).capabilities = no_capabilities ∧
      same_bindings (env_all_present.malloc_bytes 2)
        (written_pin 12 (pininfo_call.mk 2 "5v" (caps_of 0 0 0 0 0 0 0 0) (-1) (-1) (-1))
          stale_pin)) :=
  ⟨by decide, by decide,
   (ground_and_power_pins_have_no_bindings 12 (by decide) env_all_present).1 81 _ _ rfl
      (up2_board_eq 12 (by decide) env_all_present rfl rfl rfl) rfl 2 _ (by decide)
      (by unfold is_ground_or_power; decide),
   (ground_and_power_pins_have_no_bindings 12 (by decide) env_all_present).2 _ _
      (upxtreme_board_eq 12 (by decide) env_all_present rfl rfl rfl) rfl 2 _ (by decide)
      (by unfold is_ground_or_power; decide)⟩

/-! ## Order of the I2C entries -/

theorem i2c_adaptor_bound_appends (b : mraa_board_t) (entries : List mraa_i2c_bus_t)
    (x : resolved_adaptor) (h : i2c_entries_hold b entries) :
    i2c_entries_hold (i2c_adaptor_bound b x.adaptor.i2c_bus_num x.sda x.scl)
      (entries ++ ([x].filter (fun x => x.adaptor.i2c_bus_num != -1)).map
        resolved_adaptor.entry) := by
  obtain ⟨hcount, hent⟩ := h
  unfold i2c_adaptor_bound
  by_cases hnum : x.adaptor.i2c_bus_num = -1
  · simp only [hnum, ne_eq, not_true_eq_false, if_false, List.filter, bne_self_eq_false,
      List.map_nil, List.append_nil]
    exact ⟨hcount, hent⟩
  · have hb : (x.adaptor.i2c_bus_num != -1) = true := by simpa using hnum
    simp only [ne_eq, hnum, not_false_eq_true, if_true, List.filter, hb, List.map_cons,
      List.map_nil]
    refine ⟨by simp [hcount], fun k e hk => ?_⟩
    have hn : b.i2c_bus_count.toNat = entries.length := by rw [hcount]; simp
    by_cases hlt : k < entries.length
    · rw [List.getElem?_append_left hlt] at hk
      show Function.update b.i2c_bus b.i2c_bus_count.toNat _ k = e
      rw [Function.update_noteq (by omega)]
      exact hent k e hk
    · rw [List.getElem?_append_right (Nat.le_of_not_lt hlt)] at hk
      have hk0 : k - entries.length = 0 := by
        by_contra hne
        rw [List.getElem?_eq_none (by simp; omega)] at hk
        cases hk
      rw [hk0] at hk
      have hke : k = entries.length := by omega
      show Function.update b.i2c_bus b.i2c_bus_count.toNat _ k = e
      rw [hke, hn, Function.update_same]
      simpa [resolved_adaptor.entry] using hk

/-- The adaptor blocks append the entries of the found adapters, in order,
after the entries the table already holds. -/
theorem i2c_adaptors_bound_entries : ∀ (adaptors : List resolved_adaptor) (b : mraa_board_t)
    (entries : List mraa_i2c_bus_t), i2c_entries_hold b entries →
    i2c_entries_hold (i2c_adaptors_bound b adaptors)
      (entries ++ (adaptors.filter (fun x => x.adaptor.i2c_bus_num != -1)).map
        resolved_adaptor.entry) := by
  intro adaptors
  induction adaptors with
  | nil =>
    intro b entries h
    simpa [i2c_adaptors_bound] using h
  | cons x rest ih =>
    intro b entries h
    have h1 := i2c_adaptor_bound_appends b entries x h
    have h2 := ih _ _ h1
    have hlist : entries ++ ([x].filter (fun x => x.adaptor.i2c_bus_num != -1)).map
          resolved_adaptor.entry ++
        (rest.filter (fun x => x.adaptor.i2c_bus_num != -1)).map resolved_adaptor.entry
      = entries ++ ((x :: rest).filter (fun x => x.adaptor.i2c_bus_num != -1)).map
          resolved_adaptor.entry := by
      rw [List.append_assoc, ← List.map_append, ← List.filter_append]
      rfl
    rw [hlist] at h2
    exact h2

theorem up2_i2c_bound_fold (env : platform_env) (b : mraa_board_t) :
    mraa_up2_6000_i2c_bound env b
      = i2c_adaptors_bound { b with i2c_bus_count := 0, def_i2c_bus := 0 }
          (mraa_up2_6000_resolved_adaptors env) := rfl

theorem upxtreme_i2c_bound_fold (env : platform_env) (b : mraa_board_t) :
    mraa_upxtreme_i2c_bound env b
      = i2c_adaptors_bound { b with i2c_bus_count := 0, def_i2c_bus := 0 }
          (mraa_upxtreme_resolved_adaptors env) := rfl

theorem i2c_entries_hold_congr {b b2 : mraa_board_t} {entries : List mraa_i2c_bus_t}
    (hc : b2.i2c_bus_count = b.i2c_bus_count) (hb : b2.i2c_bus = b.i2c_bus)
    (h : i2c_entries_hold b entries) : i2c_entries_hold b2 entries := by
  unfold i2c_entries_hold at h ⊢
  rw [hc, hb]
  exact h

theorem up2_built_i2c_entries_hold (N : Nat) (env : platform_env) :
    i2c_entries_hold (mraa_up2_6000_built N env)
      (((mraa_up2_6000_resolved_adaptors env).filter
        (fun x => x.adaptor.i2c_bus_num != -1)).map resolved_adaptor.entry) := by
  refine i2c_entries_hold_congr (up2_built_i2c_bus_count N env) (up2_built_i2c_bus N env) ?_
  rw [up2_i2c_bound_fold]
  have h := i2c_adaptors_bound_entries (mraa_up2_6000_resolved_adaptors env)
    { calloc_mraa_board_t with i2c_bus_count := 0, def_i2c_bus := 0 } []
    ⟨rfl, fun k e hk => by simp at hk⟩
  simpa using h

theorem upxtreme_built_i2c_entries_hold (N : Nat) (env : platform_env) :
    i2c_entries_hold (mraa_upxtreme_built N env)
      (((mraa_upxtreme_resolved_adaptors env).filter
        (fun x => x.adaptor.i2c_bus_num != -1)).map resolved_adaptor.entry) := by
  refine i2c_entries_hold_congr (upxtreme_built_i2c_bus_count N env)
    (upxtreme_built_i2c_bus N env) ?_
  rw [upxtreme_i2c_bound_fold]
  have h := i2c_adaptors_bound_entries (mraa_upxtreme_resolved_adaptors env)
    { calloc_mraa_board_t with i2c_bus_count := 0, def_i2c_bus := 0 } []
    ⟨rfl, fun k e hk => by simp at hk⟩
  simpa using h

/-- What the table of a board must give for an adapter with resolved
indices: both resolvers return the indices for the two names, and the pins
at the indices store the names. -/
theorem i2c_buses_of_entries
    {resolver : mraa_board_t → List Char → Int → Option get_pin_index_ret}
    {b : mraa_board_t} (adaptors : List resolved_adaptor)
    (hent : i2c_entries_hold b ((adaptors.filter
      (fun x => x.adaptor.i2c_bus_num != -1)).map resolved_adaptor.entry))
    (hres : ∀ x ∈ adaptors,
      (∀ old : Int, resolver b x.adaptor.sda_name.toList old
        = some { result := MRAA_SUCCESS, pin_index := x.sda, log := [] }) ∧
      (∀ old : Int, resolver b x.adaptor.scl_name.toList old
        = some { result := MRAA_SUCCESS, pin_index := x.scl, log := [] }) ∧
      pin_named_at b x.sda x.adaptor.sda_name ∧ pin_named_at b x.scl x.adaptor.scl_name) :
    i2c_buses_are resolver b (found_adaptors (adaptors.map (fun x => x.adaptor))) := by
  have hfound : found_adaptors (adaptors.map (fun x => x.adaptor))
      = (adaptors.filter (fun x => x.adaptor.i2c_bus_num != -1)).map (fun x => x.adaptor) := by
    unfold found_adaptors
    rw [List.filter_map]
    rfl
  rw [hfound]
  obtain ⟨hcount, hk⟩ := hent
  refine ⟨by simpa using hcount, fun k a ha => ?_⟩
  rw [List.getElem?_map] at ha
  cases hx : (adaptors.filter (fun x => x.adaptor.i2c_bus_num != -1))[k]? with
  | none => rw [hx] at ha; cases ha
  | some x =>
    rw [hx] at ha
    have hax : x.adaptor = a := Option.some.inj ha
    have hmem : x ∈ adaptors := (List.mem_filter.mp (List.getElem?_mem hx)).1
    have he : b.i2c_bus k = x.entry := hk k x.entry (by rw [List.getElem?_map, hx]; rfl)
    obtain ⟨r1, r2, p1, p2⟩ := hres x hmem
    rw [he, ← hax]
    exact ⟨rfl, r1, r2, p1, p2⟩

theorem populated_resolves {N : Nat} {calls : List pininfo_call} {b : mraa_board_t}
    {q : String} {j : Nat} (hpop : populated N calls b) (hres : resolves_to calls q j) :
    (∀ old : Int, mraa_up2_6000_get_pin_index N b q.toList old
      = some { result := MRAA_SUCCESS, pin_index := (j : Int), log := [] }) ∧
    (∀ old : Int, mraa_upxtreme_get_pin_index N b q.toList old
      = some { result := MRAA_SUCCESS, pin_index := (j : Int), log := [] }) :=
  ⟨fun old => up2_get_pin_index_of_loop old (populated_loop hpop hres),
   fun old => upxtreme_get_pin_index_of_loop old (populated_loop hpop hres)⟩

theorem up2_built_def_i2c_bus (N : Nat) (env : platform_env) :
    (mraa_up2_6000_built N env).def_i2c_bus = 0 := by
  simp [mraa_up2_6000_built, mraa_up2_6000_configured, uart_bound, mraa_up2_6000_spi_bound,
    spi_bus_bound, mraa_up2_6000_pwm_bound, pwm_channel_bound, mraa_up2_6000_i2c_bound,
    i2c_adaptor_bound]
  split <;> split <;> split <;> split <;> rfl

theorem upxtreme_built_def_i2c_bus (N : Nat) (env : platform_env) :
    (mraa_upxtreme_built N env).def_i2c_bus = 0 := by
  simp [mraa_upxtreme_built, mraa_upxtreme_configured, uart_bound, mraa_upxtreme_spi_bound,
    spi_bus_bound, mraa_upxtreme_i2c_bound, i2c_adaptor_bound]
  split <;> split <;> split <;> rfl

theorem up2_built_i2c_buses {N : Nat} (hN : 10 ≤ N) (env : platform_env) :
    i2c_buses_are (mraa_up2_6000_get_pin_index N) (mraa_up2_6000_built N env)
      (found_adaptors (mraa_up2_6000_declared_adaptors env)) := by
  have hpop := up2_built_populated hN env
  refine i2c_buses_of_entries (mraa_up2_6000_resolved_adaptors env)
    (up2_built_i2c_entries_hold N env) (fun x hx => ?_)
  unfold mraa_up2_6000_resolved_adaptors mraa_up2_6000_declared_adaptors at hx
  simp only [List.zipWith_cons_cons, List.zipWith_nil_right, List.mem_cons,
    List.mem_singleton, List.not_mem_nil, or_false] at hx
  rcases hx with rfl | rfl | rfl
  · exact ⟨(populated_resolves hpop up2_resolves_I2C_SDA).1,
      (populated_resolves hpop up2_resolves_I2C_SCL).1,
      up2_built_pin_named hN env 3 rfl, up2_built_pin_named hN env 5 rfl⟩
  · exact ⟨(populated_resolves hpop up2_resolves_ID_SD).1,
      (populated_resolves hpop up2_resolves_ID_SC).1,
      up2_built_pin_named hN env 27 rfl, up2_built_pin_named hN env 28 rfl⟩
  · exact ⟨(populated_resolves hpop up2_resolves_I2C2_SDA).1,
      (populated_resolves hpop up2_resolves_I2C2_SCL).1,
      up2_built_pin_named hN env 79 rfl, up2_built_pin_named hN env 80 rfl⟩

theorem upxtreme_built_i2c_buses {N : Nat} (hN : 10 ≤ N) (env : platform_env) :
    i2c_buses_are (mraa_upxtreme_get_pin_index N) (mraa_upxtreme_built N env)
      (found_adaptors (mraa_upxtreme_declared_adaptors env)) := by
  have hpop := upxtreme_built_populated hN env
  refine i2c_buses_of_entries (mraa_upxtreme_resolved_adaptors env)
    (upxtreme_built_i2c_entries_hold N env) (fun x hx => ?_)
  unfold mraa_upxtreme_resolved_adaptors mraa_upxtreme_declared_adaptors at hx
  simp only [List.zipWith_cons_cons, List.zipWith_nil_right, List.mem_cons,
    List.mem_singleton, List.not_mem_nil, or_false] at hx
  rcases hx with rfl | rfl
  · exact ⟨(populated_resolves hpop upxtreme_resolves_I2C_SDA).2,
      (populated_resolves hpop upxtreme_resolves_I2C_SCL).2,
      upxtreme_built_pin_named hN env 3 rfl, upxtreme_built_pin_named hN env 5 rfl⟩
  · exact ⟨(populated_resolves hpop upxtreme_resolves_ID_SD).2,
      (populated_resolves hpop upxtreme_resolves_ID_SC).2,
      upxtreme_built_pin_named hN env 27 rfl, upxtreme_built_pin_named hN env 28 rfl⟩

/-- When the first declared adapter is absent and the second is found, the
second is the first found adapter. -/
theorem found_adaptors_second (a1 a2 : declared_adaptor) (rest : List declared_adaptor)
    (h1 : a1.i2c_bus_num = -1) (h2 : a2.i2c_bus_num ≠ -1) :
    (found_adaptors (a1 :: a2 :: rest))[0]? = some a2 := by
  have hb : (a2.i2c_bus_num != -1) = true := by simpa using h2
  simp [found_adaptors, List.filter, h1, hb]

/-! ## The claims on the bus tables and the pin array -/

/-- C21: I2C buses are appended compactly in declared order.  On every board
returned by either builder (81 pins, name size at least ten), whatever
discovery answers, `def_i2c_bus` is 0, `i2c_bus_count` is the number of
declared adapters (three on the UP2 6000, two on the UP Xtreme i11) for
which discovery returned a number other than -1, and entry `k` is the `k`-th
found adapter in declaration order: its `bus_id` is the discovered number
and its `sda` and `scl` are the indices the resolver gives for the two pin
names of that adapter.  Hence, when the primary adapter is absent and the
ID/EEPROM adapter is found, entry 0 is bound to the pins `ID_SD` and
`ID_SC`. -/
theorem i2c_buses_appended_in_declared_order (N : Nat) (hN : 10 ≤ N) (env : platform_env) :
    (∀ (P : Int) (r : board_ret) (b : mraa_board_t), P = 81 →
      mraa_up2_6000_board N P env = some r → r.ret = some b →
      b.def_i2c_bus = 0 ∧
      i2c_buses_are (mraa_up2_6000_get_pin_index N) b
        (found_adaptors (mraa_up2_6000_declared_adaptors env)) ∧
      (env.mraa_find_i2c_bus_pci "0000:00" "0000:00:15.3" "i2c_designware.4" = -1 →
        env.mraa_find_i2c_bus_pci "0000:00" "0000:00:19.1" "i2c_designware.6" ≠ -1 →
        pin_named_at b (b.i2c_bus 0).sda "ID_SD" ∧ pin_named_at b (b.i2c_bus 0).scl "ID_SC")) ∧
    (∀ (r : board_ret) (b : mraa_board_t),
      mraa_upxtreme_i11_board N env = some r → r.ret = some b →
      b.def_i2c_bus = 0 ∧
      i2c_buses_are (mraa_upxtreme_get_pin_index N) b
        (found_adaptors (mraa_upxtreme_declared_adaptors env)) ∧
      (env.mraa_find_i2c_bus_pci "0000:00" "0000:00:19.0" "i2c_designware.4" = -1 →
        env.mraa_find_i2c_bus_pci "0000:00" "0000:00:15.3" "i2c_designware.3" ≠ -1 →
        pin_named_at b (b.i2c_bus 0).sda "ID_SD" ∧
        pin_named_at b (b.i2c_bus 0).scl "ID_SC")) := by
  constructor
  · intro P r b hP hr hb
    subst hP
    obtain ⟨hbuilt, _⟩ := up2_ret_some hN hr hb
    subst hbuilt
    have hI := up2_built_i2c_buses hN env
    refine ⟨up2_built_def_i2c_bus N env, hI, fun h1 h2 => ?_⟩
    have h0 := found_adaptors_second (declared_adaptor.mk _ "I2C_SDA" "I2C_SCL")
      (declared_adaptor.mk _ "ID_SD" "ID_SC")
      [declared_adaptor.mk
        (env.mraa_find_i2c_bus_pci "0000:00" "0000:00:15.2" "i2c_designware.3")
        "I2C2_SDA" "I2C2_SCL"] h1 h2
    obtain ⟨_, _, _, p1, p2⟩ := hI.2 0 _ h0
    exact ⟨p1, p2⟩
  · intro r b hr hb
    obtain ⟨hbuilt, _⟩ := upxtreme_ret_some hN hr hb
    subst hbuilt
    have hI := upxtreme_built_i2c_buses hN env
    refine ⟨upxtreme_built_def_i2c_bus N env, hI, fun h1 h2 => ?_⟩
    have h0 := found_adaptors_second (declared_adaptor.mk _ "I2C_SDA" "I2C_SCL")
      (declared_adaptor.mk _ "ID_SD" "ID_SC") [] h1 h2
    obtain ⟨_, _, _, p1, p2⟩ := hI.2 0 _ h0
    exact ⟨p1, p2⟩

/-- C21 on `env_no_primary_i2c`, where the primary adapter is absent and the
other adapters get number 6: entry 0 of either board is the ID/EEPROM
adapter. -/
theorem i2c_buses_appended_in_declared_order_witness :
    ((mraa_up2_6000_built 12 env_no_primary_i2c).i2c_bus_count = 2 ∧
      (mraa_up2_6000_built 12 env_no_primary_i2c).i2c_bus 0
        = { bus_id := 6, sda := 27, scl := 28 }) ∧
    (pin_named_at (mraa_up2_6000_built 12 env_no_primary_i2c)
        ((mraa_up2_6000_built 12 env_no_primary_i2c).i2c_bus 0).sda "ID_SD" ∧
      pin_named_at (mraa_up2_6000_built 12 env_no_primary_i2c)
        ((mraa_up2_6000_built 12 env_no_primary_i2c).i2c_bus 0).scl "ID_SC") ∧
    (pin_named_at (mraa_upxtreme_built 12 env_no_primary_i2c)
        ((mraa_upxtreme_built 12 env_no_primary_i2c).i2c_bus 0).sda "ID_SD" ∧
      pin_named_at (mraa_upxtreme_built 12 env_no_primary_i2c)
        ((mraa_upxtreme_built 12 env_no_primary_i2c).i2c_bus 0).scl "ID_SC") :=
  ⟨by decide,
   ((i2c_buses_appended_in_declared_order 12 (by decide) env_no_primary_i2c).1 81 _ _ rfl
      (up2_board_eq 12 (by decide) env_no_primary_i2c rfl rfl rfl) rfl).2.2
      (by decide) (by decide),
   ((i2c_buses_appended_in_declared_order 12 (by decide) env_no_primary_i2c).2 _ _
      (upxtreme_board_eq 12 (by decide) env_no_primary_i2c rfl rfl rfl) rfl).2.2
      (by decide) (by decide)⟩

/-! ## Every pin is written, and every write is inside the array -/

theorem upxtreme_set_pininfo_fun_eq (N : Nat) :
    mraa_upxtreme_set_pininfo N = mraa_up2_6000_set_pininfo N := by
  funext board mraa_index name caps sysfs_pin chip line
  rfl

/-- Calls whose indices count up from the current position all return
`MRAA_SUCCESS`, and leave the board `mraa_up2_6000_set_pins` leaves. -/
theorem set_pins_codes_seq (N : Nat) : ∀ (calls : List pininfo_call)
    (pre post : List mraa_pininfo_t) (b : mraa_board_t), b.pins = pre ++ post →
    post.length = calls.length →
    calls.map (fun c => c.mraa_index)
      = (List.range' pre.length calls.length).map (fun (k : Nat) => (k : Int)) →
    b.phy_pin_count = ((pre.length + calls.length : Nat) : Int) →
    ∃ b1, mraa_up2_6000_set_pins N b calls = some b1 ∧
      set_pins_codes (mraa_up2_6000_set_pininfo N) b calls
        = some (b1, calls.map (fun _ => MRAA_SUCCESS)) := by
  intro calls
  induction calls with
  | nil =>
    intro pre post b _ _ _ _
    exact ⟨b, rfl, rfl⟩
  | cons c rest ih =>
    intro pre post b hp hlen hidx hcnt
    cases post with
    | nil => simp at hlen
    | cons p ps =>
      simp only [List.length_cons, List.map_cons, List.range'_succ, List.cons.injEq]
        at hlen hidx hcnt
      obtain ⟨hc, hrest⟩ := hidx
      have hlt : c.mraa_index < b.phy_pin_count := by rw [hc, hcnt]; omega
      have h0 : 0 ≤ c.mraa_index := by rw [hc]; omega
      have hget : b.pins[c.mraa_index.toNat]? = some p := by
        rw [hc, hp, Int.toNat_ofNat, List.getElem?_append_right (Nat.le_refl _)]
        simp
      have hset := set_pininfo_in_range N b c.mraa_index c.name.toList c.caps c.sysfs_pin
        c.chip c.line h0 hlt p hget
      have hpins : b.pins.set c.mraa_index.toNat (mraa_up2_6000_set_pininfo_writes N p
            c.name.toList c.caps c.sysfs_pin c.chip c.line)
          = (pre ++ [mraa_up2_6000_set_pininfo_writes N p c.name.toList c.caps c.sysfs_pin
              c.chip c.line]) ++ ps := by
        rw [hc, hp]
        simp
      obtain ⟨b1, hb1, hcodes⟩ := ih
        (pre ++ [mraa_up2_6000_set_pininfo_writes N p c.name.toList c.caps c.sysfs_pin
          c.chip c.line]) ps
        { b with pins := b.pins.set c.mraa_index.toNat (mraa_up2_6000_set_pininfo_writes N p
            c.name.toList c.caps c.sysfs_pin c.chip c.line) }
        hpins (by omega) (by simpa using hrest) (by simp [hcnt]; omega)
      refine ⟨b1, ?_, ?_⟩
      · rw [mraa_up2_6000_set_pins, hset]
        exact hb1
      · rw [set_pins_codes, hset]
        simp only [hcodes, Option.map_some', List.map_cons]

theorem index_of_call {calls : List pininfo_call} {n k : Nat} {c : pininfo_call}
    (h : calls.map (fun c => c.mraa_index)
      = (List.range n).map (fun (k : Nat) => (k : Int)))
    (hk : calls[k]? = some c) : c.mraa_index = (k : Int) := by
  have h1 := congrArg (fun l => l[k]?) h
  simp only [List.getElem?_map, hk, Option.map_some'] at h1
  cases hr : (List.range n)[k]? with
  | none => rw [hr] at h1; cases h1
  | some m =>
    rw [hr] at h1
    have hlt : k < (List.range n).length := by
      by_contra hge
      rw [List.getElem?_eq_none (Nat.le_of_not_lt hge)] at hr
      cases hr
    rw [List.getElem?_eq_getElem hlt, List.getElem_range] at hr
    have hm : k = m := Option.some.inj hr
    rw [hm]
    exact Option.some.inj h1

theorem up2_call_indices : mraa_up2_6000_pininfo_calls.map (fun c => c.mraa_index)
    = (List.range 81).map (fun (k : Nat) => (k : Int)) := by
  decide

theorem upxtreme_call_indices : mraa_upxtreme_pininfo_calls.map (fun c => c.mraa_index)
    = (List.range 81).map (fun (k : Nat) => (k : Int)) := by
  decide

/-- On a board filled from a table, every pin below the count holds the name
and the capabilities of the call made for its index. -/
theorem every_pin_populated_of_populated {N : Nat} {calls : List pininfo_call}
    {b : mraa_board_t} (hpop : populated N calls b)
    (hcaps : b.pins.map (fun p => p.capabilities) = calls.map (fun c => c.caps))
    (hidx : calls.map (fun c => c.mraa_index)
      = (List.range calls.length).map (fun (k : Nat) => (k : Int))) :
    every_pin_populated N calls b := by
  have hlen := populated_pins_length hpop
  refine ⟨by rw [hpop.2.2.1, hlen], fun k hk => ?_⟩
  have hkc : k < calls.length := by
    have := hpop.2.2.1
    omega
  have hkp : k < b.pins.length := by omega
  have hgk : b.pins[k]? = some b.pins[k] := List.getElem?_eq_getElem hkp
  have hck : calls[k]? = some calls[k] := List.getElem?_eq_getElem hkc
  obtain ⟨s, hs, hname, _, _⟩ := populated_stored_name hpop hgk
  have hs2 : s = calls[k].name.toList := by
    have : (call_names calls)[k]? = some calls[k].name.toList := by
      simp [call_names, hck]
    rw [this] at hs
    exact (Option.some.inj hs).symm
  have hc : b.pins[k].capabilities = calls[k].caps := by
    have h1 : (b.pins.map (fun p => p.capabilities))[k]? = some calls[k].caps := by
      rw [hcaps]
      simp [hck]
    rw [List.getElem?_map, hgk] at h1
    exact Option.some.inj h1
  exact ⟨b.pins[k], calls[k], hgk, hck, index_of_call hidx hck, by rw [hname, hs2], hc⟩

theorem up2_built_every_pin_populated {N : Nat} (hN : 10 ≤ N) (env : platform_env) :
    every_pin_populated N mraa_up2_6000_pininfo_calls (mraa_up2_6000_built N env) :=
  every_pin_populated_of_populated (up2_built_populated hN env)
    (up2_built_map_capabilities N env) up2_call_indices

theorem upxtreme_built_every_pin_populated {N : Nat} (hN : 10 ≤ N) (env : platform_env) :
    every_pin_populated N mraa_upxtreme_pininfo_calls (mraa_upxtreme_built N env) :=
  every_pin_populated_of_populated (upxtreme_built_populated hN env)
    (upxtreme_built_map_capabilities N env) upxtreme_call_indices

/-- On a board of 81 pins every call of the UP2 6000 table succeeds, and the
`Configure PWM` block run on the board they leave stays inside the array. -/
theorem up2_calls_succeed (N : Nat) (b0 : mraa_board_t) (hcnt : b0.phy_pin_count = 81)
    (hlen : b0.pins.length = 81) :
    ∃ b1, mraa_up2_6000_set_pins N b0 mraa_up2_6000_pininfo_calls = some b1 ∧
      set_pins_codes (mraa_up2_6000_set_pininfo N) b0 mraa_up2_6000_pininfo_calls
        = some (b1, mraa_up2_6000_pininfo_calls.map (fun _ => MRAA_SUCCESS)) ∧
      (mraa_up2_6000_pwm b1).isSome = true := by
  obtain ⟨b1, hb1, hcodes⟩ := set_pins_codes_seq N mraa_up2_6000_pininfo_calls [] b0.pins b0
    rfl (by rw [hlen]; rfl) up2_call_indices (by rw [hcnt]; rfl)
  refine ⟨b1, hb1, hcodes, ?_⟩
  have hb2 := hb1
  rw [up2_set_pins_eq N b0 hcnt hlen] at hb2
  have hl : b1.pins.length = 81 := by
    have h := congrArg (Option.map (fun b => b.pins.length)) hb2
    simp only [Option.map_some', List.length_zipWith, hlen, Option.some.injEq] at h
    rw [← h]
    rfl
  rw [up2_pwm_eq b1 hl]
  rfl

theorem upxtreme_calls_succeed (N : Nat) (b0 : mraa_board_t) (hcnt : b0.phy_pin_count = 81)
    (hlen : b0.pins.length = 81) :
    ∃ b1, mraa_upxtreme_set_pins N b0 mraa_upxtreme_pininfo_calls = some b1 ∧
      set_pins_codes (mraa_upxtreme_set_pininfo N) b0 mraa_upxtreme_pininfo_calls
        = some (b1, mraa_upxtreme_pininfo_calls.map (fun _ => MRAA_SUCCESS)) := by
  obtain ⟨b1, hb1, hcodes⟩ := set_pins_codes_seq N mraa_upxtreme_pininfo_calls [] b0.pins b0
    rfl (by rw [hlen]; rfl) upxtreme_call_indices (by rw [hcnt]; rfl)
  refine ⟨b1, ?_, ?_⟩
  · rw [upxtreme_set_pins_eq]
    exact hb1
  · rw [upxtreme_set_pininfo_fun_eq]
    exact hcodes

/-- C22: every pin access of the builders is in bounds and complete.  For
either builder (81 pins, name size at least ten): the indices of the
`set_pininfo` calls are 0, 1, ..., 80 in this order, so each index below
`phy_pin_count` is written by exactly one call; on a board with 81
descriptors every call returns `MRAA_SUCCESS`, and on the UP2 6000 the
`Configure PWM` block run after them writes inside the array; the builder
ends without an access outside the array on every system; and in every
returned board each pin below `phy_pin_count` holds the name and the
capabilities of its call. -/
theorem pin_accesses_in_bounds_and_complete (N : Nat) (hN : 10 ≤ N) (env : platform_env) :
    (∀ P : Int, P = 81 →
      mraa_up2_6000_pininfo_calls.map (fun c => c.mraa_index)
        = (List.range P.toNat).map (fun (k : Nat) => (k : Int)) ∧
      (∀ b0 : mraa_board_t, b0.phy_pin_count = P → b0.pins.length = P.toNat →
        ∃ b1, mraa_up2_6000_set_pins N b0 mraa_up2_6000_pininfo_calls = some b1 ∧
          set_pins_codes (mraa_up2_6000_set_pininfo N) b0 mraa_up2_6000_pininfo_calls
            = some (b1, mraa_up2_6000_pininfo_calls.map (fun _ => MRAA_SUCCESS)) ∧
          (mraa_up2_6000_pwm b1).isSome = true) ∧
      (mraa_up2_6000_board N P env).isSome = true ∧
      (∀ (r : board_ret) (b : mraa_board_t),
        mraa_up2_6000_board N P env = some r → r.ret = some b →
        every_pin_populated N mraa_up2_6000_pininfo_calls b)) ∧
    (mraa_upxtreme_pininfo_calls.map (fun c => c.mraa_index)
        = (List.range MRAA_UPXTREME_I11_PINCOUNT.toNat).map (fun (k : Nat) => (k : Int)) ∧
      (∀ b0 : mraa_board_t, b0.phy_pin_count = MRAA_UPXTREME_I11_PINCOUNT →
        b0.pins.length = MRAA_UPXTREME_I11_PINCOUNT.toNat →
        ∃ b1, mraa_upxtreme_set_pins N b0 mraa_upxtreme_pininfo_calls = some b1 ∧
          set_pins_codes (mraa_upxtreme_set_pininfo N) b0 mraa_upxtreme_pininfo_calls
            = some (b1, mraa_upxtreme_pininfo_calls.map (fun _ => MRAA_SUCCESS))) ∧
      (mraa_upxtreme_i11_board N env).isSome = true ∧
      (∀ (r : board_ret) (b : mraa_board_t),
        mraa_upxtreme_i11_board N env = some r → r.ret = some b →
        every_pin_populated N mraa_upxtreme_pininfo_calls b)) := by
  constructor
  · intro P hP
    subst hP
    refine ⟨up2_call_indices, fun b0 hcnt hlen => up2_calls_succeed N b0 hcnt hlen,
      (up2_returns_board_iff N hN env).1, fun r b hr hb => ?_⟩
    obtain ⟨hbuilt, _⟩ := up2_ret_some hN hr hb
    subst hbuilt
    exact up2_built_every_pin_populated hN env
  · refine ⟨upxtreme_call_indices, fun b0 hcnt hlen => upxtreme_calls_succeed N b0 hcnt hlen,
      (upxtreme_returns_board_iff N hN env).1, fun r b hr hb => ?_⟩
    obtain ⟨hbuilt, _⟩ := upxtreme_ret_some hN hr hb
    subst hbuilt
    exact upxtreme_built_every_pin_populated hN env

/-- C22 on `env_all_present`: the calls run on the freshly allocated board
of the UP2 6000, and the pins of the two boards built. -/
theorem pin_accesses_in_bounds_and_complete_witness :
    (∃ b1, mraa_up2_6000_set_pins 12 (mraa_up2_6000_allocated env_all_present)
          mraa_up2_6000_pininfo_calls = some b1 ∧
      set_pins_codes (mraa_up2_6000_set_pininfo 12) (mraa_up2_6000_allocated env_all_present)
          mraa_up2_6000_pininfo_calls
        = some (b1, mraa_up2_6000_pininfo_calls.map (fun _ => MRAA_SUCCESS)) ∧
      (mraa_up2_6000_pwm b1).isSome = true) ∧
    every_pin_populated 12 mraa_up2_6000_pininfo_calls
      (mraa_up2_6000_built 12 env_all_present) ∧
    every_pin_populated 12 mraa_upxtreme_pininfo_calls
      (mraa_upxtreme_built 12 env_all_present) :=
  ⟨((pin_accesses_in_bounds_and_complete 12 (by decide) env_all_present).1 81 rfl).2.1
      (mraa_up2_6000_allocated env_all_present) rfl rfl,
   ((pin_accesses_in_bounds_and_complete 12 (by decide) env_all_present).1 81 rfl).2.2.2 _ _
      (up2_board_eq 12 (by decide) env_all_present rfl rfl rfl) rfl,
   (pin_accesses_in_bounds_and_complete 12 (by decide) env_all_present).2.2.2.2 _ _
      (upxtreme_board_eq 12 (by decide) env_all_present rfl rfl rfl) rfl⟩

/-- C23 (the code at the failing input): on the UP2 6000 board built with 81
pins, `spi_bus_count` is 2 and the two SPI entries share the pins `SPI0_MOSI`
(19), `SPI0_MISO` (21) and `SPI0_CLK` (23) and differ in slave select and cs
pin, but entry 0 has `bus_id` 2 and entry 1 has `bus_id` 1.  On the UP
Xtreme i11 both entries have `bus_id` 0. -/
theorem up2_6000_spi_entries_differ_in_bus_id :
    ((mraa_up2_6000_board 12 81 env_all_present).bind (fun r => r.ret)).map
        (fun b => (b.spi_bus_count, b.spi_bus 0, b.spi_bus 1))
      = some (2, mraa_spi_bus_t.mk 2 0 24 19 21 23, mraa_spi_bus_t.mk 1 1 26 19 21 23) ∧
    ((mraa_upxtreme_i11_board 12 env_all_present).bind (fun r => r.ret)).map
        (fun b => (b.spi_bus_count, b.spi_bus 0, b.spi_bus 1))
      = some (2, mraa_spi_bus_t.mk 0 0 24 19 21 23, mraa_spi_bus_t.mk 0 1 26 19 21 23) := by
  refine ⟨?_, ?_⟩ <;> decide

/-- C24 (the code at the failing input): on the UP2 6000 board built with 81
pins, the gpio-flagged pins whose raw GPIO number is not the base of their
chip plus their line are pin 21 (`SPI0_MISO`: number 467, chip 0, line 21,
where 445 + 21 = 466), pin 28 (`ID_SC`: number 454, chip 0, line 10, where
445 + 10 = 455), and pins 75 (`ADC1`) and 76 (`ADC3`), whose arguments
-1, -1, -1 are stored as 4294967295 in the unsigned fields, a chip without
a base; no other pin fails.  On the UP Xtreme i11 no pin fails. -/
theorem up2_6000_pinmap_is_not_base_plus_line :
    ((mraa_up2_6000_board 12 81 env_all_present).bind (fun r => r.ret)).map
        (failing_pins (gpio_number_consistent mraa_up2_6000_chip_base))
      = some [21, 28, 75, 76] ∧
    ((mraa_up2_6000_board 12 81 env_all_present).bind (fun r => r.ret)).map
        (fun b => [21, 28, 75, 76].map (fun k => b.pins[k]?.map (fun pin =>
          (String.mk (c_str pin.name), pin.capabilities.gpio))))
      = some [some ("SPI0_MISO", true), some ("ID_SC", true), some ("ADC1", true),
          some ("ADC3", true)] ∧
    ((mraa_up2_6000_board 12 81 env_all_present).bind (fun r => r.ret)).map
        (fun b => [21, 28, 75, 76].map (fun k => b.pins[k]?.map (fun pin =>
          (pin.gpio.pinmap, pin.gpio.gpio_chip, pin.gpio.gpio_line))))
      = some [some (467, 0, 21), some (454, 0, 10),
          some (4294967295, 4294967295, 4294967295),
          some (4294967295, 4294967295, 4294967295)] ∧
    [0, 1, 3, 4294967295].map mraa_up2_6000_chip_base
      = [some 445, some 332, some 205, none] ∧
    ((mraa_upxtreme_i11_board 12 env_all_present).bind (fun r => r.ret)).map
        (failing_pins (gpio_number_consistent mraa_upxtreme_chip_base)) = some [] := by
  refine ⟨?_, ?_, ?_, ?_, ?_⟩ <;> decide

/-- C25 (the code at the failing input): on the UP2 6000 board built with 81
pins, the gpio-capable pins 19 (`SPI0_MOSI`) and 21 (`SPI0_MISO`) share the
raw number 467, pins 27 (`ID_SD`) and 28 (`ID_SC`) share 454, and pins 75
(`ADC1`) and 76 (`ADC3`) share 4294967295, the value their argument -1
leaves in the unsigned field.  On the UP Xtreme i11 no raw number is
shared. -/
theorem up2_6000_gpio_numbers_shared :
    ((mraa_up2_6000_board 12 81 env_all_present).bind (fun r => r.ret)).map
        shared_pinmaps = some [(19, 21), (27, 28), (75, 76)] ∧
    ((mraa_up2_6000_board 12 81 env_all_present).bind (fun r => r.ret)).map
        (fun b => [19, 21, 27, 28, 75, 76].map (fun k => b.pins[k]?.map (fun pin =>
          (String.mk (c_str pin.name), pin.capabilities.gpio, pin.gpio.pinmap))))
      = some [some ("SPI0_MOSI", true, 467), some ("SPI0_MISO", true, 467),
          some ("ID_SD", true, 454), some ("ID_SC", true, 454),
          some ("ADC1", true, 4294967295), some ("ADC3", true, 4294967295)] ∧
    ((mraa_upxtreme_i11_board 12 env_all_present).bind (fun r => r.ret)).map
        shared_pinmaps = some [] := by
  refine ⟨?_, ?_, ?_⟩ <;> decide

/-- C26 (the code at the failing input): on the UP2 6000 board built with 81
pins, pin 75 (`ADC1`) has the gpio flag while its valid flag is clear, and
it is the only pin whose valid flag differs from the disjunction of its
function flags.  On the UP Xtreme i11 no pin fails. -/
theorem up2_6000_pin_with_function_marked_invalid :
    ((mraa_up2_6000_board 12 81 env_all_present).bind (fun r => r.ret)).map
        (failing_pins valid_flag_consistent) = some [75] ∧
    ((mraa_up2_6000_board 12 81 env_all_present).bind (fun r => r.ret)).bind
        (fun b => b.pins[75]?.map (fun pin => (String.mk (c_str pin.name), pin.capabilities)))
      = some ("ADC1", caps_of 0 1 0 0 0 0 0 0) ∧
    ((mraa_upxtreme_i11_board 12 env_all_present).bind (fun r => r.ret)).map
        (failing_pins valid_flag_consistent) = some [] := by
  refine ⟨?_, ?_, ?_⟩ <;> decide

end Mraa
